import Mathlib

/-!
# The Duna bytecode machine (`src/vm.c`) and the host API (`src/api.c`)

A shallow embedding of the interpreter state, the opcode dispatch of
`duna_vm_run`, the diagnostic printer and the index and arithmetic functions of
the host API, followed by theorems about them.

Modelling conventions.

* `uint32_t` values are natural numbers; every arithmetic result that is stored
  is reduced modulo `2 ^ 32` at the place the C code computes it.
* The two heap buffers `code` and `stack` are lists whose lengths are the
  allocated sizes (`code_capacity`, `stack_size`).  An access outside the
  allocated size is undefined behaviour in C and is `none` here.
* `duna_Object.value` is a C union.  The members `bool`, `chr` and `fixnum`
  share storage (`bool` and `chr` are the low byte of `fixnum`, as on the
  little-endian hosts the program is built for); the member `gc` is a pointer.
  Reading a scalar member out of pointer bytes, or following bytes that are not
  a pointer, has no value determined by the program text and is `none`.
* Heap objects are never modified after `DUNA_OP_MAKE_CLOSURE` fills them in,
  so a `gc` pointer is represented by the object it points to; `malloc` is
  assumed to succeed.
-/

namespace Duna

/-! ## Opcodes and type tags -/

@[match_pattern] def DUNA_OP_LOAD_NIL : Nat := 1
@[match_pattern] def DUNA_OP_LOAD_FALSE : Nat := 2
@[match_pattern] def DUNA_OP_LOAD_TRUE : Nat := 3
@[match_pattern] def DUNA_OP_LOAD_ZERO : Nat := 4
@[match_pattern] def DUNA_OP_LOAD_ONE : Nat := 5
@[match_pattern] def DUNA_OP_LOAD_FIXNUM : Nat := 6
@[match_pattern] def DUNA_OP_LOAD_CHAR : Nat := 7
@[match_pattern] def DUNA_OP_INC : Nat := 8
@[match_pattern] def DUNA_OP_DEC : Nat := 9
@[match_pattern] def DUNA_OP_FIXNUM_TO_CHAR : Nat := 10
@[match_pattern] def DUNA_OP_CHAR_TO_FIXNUM : Nat := 11
@[match_pattern] def DUNA_OP_NULL_P : Nat := 12
@[match_pattern] def DUNA_OP_ZERO_P : Nat := 13
@[match_pattern] def DUNA_OP_NOT : Nat := 14
@[match_pattern] def DUNA_OP_BOOL_P : Nat := 15
@[match_pattern] def DUNA_OP_CHAR_P : Nat := 16
@[match_pattern] def DUNA_OP_FIXNUM_P : Nat := 17
@[match_pattern] def DUNA_OP_PUSH : Nat := 18
@[match_pattern] def DUNA_OP_POP : Nat := 19
@[match_pattern] def DUNA_OP_PLUS : Nat := 20
@[match_pattern] def DUNA_OP_MINUS : Nat := 21
@[match_pattern] def DUNA_OP_MULT : Nat := 22
@[match_pattern] def DUNA_OP_LOAD_0 : Nat := 23
@[match_pattern] def DUNA_OP_LOAD_1 : Nat := 24
@[match_pattern] def DUNA_OP_LOAD_2 : Nat := 25
@[match_pattern] def DUNA_OP_LOAD_3 : Nat := 26
@[match_pattern] def DUNA_OP_LOAD : Nat := 27
@[match_pattern] def DUNA_OP_SET_FP : Nat := 28
@[match_pattern] def DUNA_OP_SAVE_FP : Nat := 29
@[match_pattern] def DUNA_OP_REST_FP : Nat := 30
@[match_pattern] def DUNA_OP_MAKE_CLOSURE : Nat := 31
@[match_pattern] def DUNA_OP_CALL : Nat := 32
@[match_pattern] def DUNA_OP_RETURN : Nat := 33
@[match_pattern] def DUNA_OP_SAVE_PROC : Nat := 34
@[match_pattern] def DUNA_OP_SET_PROC : Nat := 35

@[match_pattern] def DUNA_TYPE_NIL : Nat := 1
@[match_pattern] def DUNA_TYPE_BOOL : Nat := 2
@[match_pattern] def DUNA_TYPE_FIXNUM : Nat := 3
@[match_pattern] def DUNA_TYPE_CHAR : Nat := 4
@[match_pattern] def DUNA_TYPE_CLOSURE : Nat := 5

/-! ## Fixed-width arithmetic -/

/-- Truncation of a natural number to `uint32_t`. -/
def u32 (n : Nat) : Nat := n % 2 ^ 32

/-- Truncation of a natural number to `uint8_t`. -/
def u8 (n : Nat) : Nat := n % 2 ^ 8

/-- The `uint32_t` sum `a + b`. -/
def add32 (a b : Nat) : Nat := (a + b) % 2 ^ 32

/-- The `uint32_t` difference `a - b` (wraps below zero). -/
def sub32 (a b : Nat) : Nat := (a % 2 ^ 32 + (2 ^ 32 - b % 2 ^ 32)) % 2 ^ 32

/-- The `uint32_t` product `a * b`. -/
def mul32 (a b : Nat) : Nat := (a * b) % 2 ^ 32

/-- The double word assembled from four operand bytes, least significant first:
`b1 | b2 << 8 | b3 << 16 | b4 << 24`. -/
def dword (b1 b2 b3 b4 : Nat) : Nat :=
  (b1 ||| (b2 <<< 8) ||| (b3 <<< 16) ||| (b4 <<< 24)) % 2 ^ 32

/-! ## Objects -/

/-- The closure record of `duna_GCObject`.  `free_vars` is a pointer; `none` is
`NULL`, the only value the interpreter ever stores.  The field `visited` is
neither written nor read by the interpreter and is left out. -/
structure duna_GCObject where
  entry_point : Nat
  free_vars : Option Nat
deriving DecidableEq, Repr

/-- The union `value` of a `duna_Object`.
* `word w`: the scalar storage holds the 32-bit word `w`;
* `gc p`: the storage holds a pointer to the heap object `p`;
* `mixed b`: a one-byte member was written over a pointer, the low byte is `b`
  and the other bytes are what is left of the pointer. -/
inductive duna_Value where
  | word (w : Nat)
  | gc (p : duna_GCObject)
  | mixed (b : Nat)
deriving DecidableEq, Repr

namespace duna_Value

/-- Read of the member `fixnum`. -/
def fixnum : duna_Value → Option Nat
  | word w => some w
  | gc _ => none
  | mixed _ => none

/-- Read of a one-byte member (`bool` or `chr`). -/
def byte : duna_Value → Option Nat
  | word w => some (w % 2 ^ 8)
  | gc _ => none
  | mixed b => some b

/-- Read of the member `bool`. -/
def bool (v : duna_Value) : Option Nat := v.byte

/-- Read of the member `chr`. -/
def chr (v : duna_Value) : Option Nat := v.byte

/-- Read of the member `gc`, followed through the pointer. -/
def deref : duna_Value → Option duna_GCObject
  | word _ => none
  | gc p => some p
  | mixed _ => none

/-- Write of the member `fixnum`. -/
def set_fixnum (_ : duna_Value) (n : Nat) : duna_Value := word (u32 n)

/-- Write of a one-byte member (`bool` or `chr`): only the low byte changes. -/
def set_byte : duna_Value → Nat → duna_Value
  | word w, b => word (w / 2 ^ 8 * 2 ^ 8 + u8 b)
  | gc _, b => mixed (u8 b)
  | mixed _, b => mixed (u8 b)

end duna_Value

/-- A tagged object: the runtime type tag and the union. -/
structure duna_Object where
  type : Nat
  value : duna_Value
deriving DecidableEq, Repr

/-- The interpreter state.  `code.length` is `code_capacity` and `stack.length`
is `stack_size`. -/
structure duna_State where
  code : List Nat
  code_size : Nat
  pc : Nat
  accum : duna_Object
  stack : List duna_Object
  sp : Nat
  fp : Nat
  proc : duna_Object
deriving DecidableEq, Repr

/-! ## Primitive accesses -/

/-- The expression `D->code[D->pc++]`. -/
def fetch (D : duna_State) : Option (Nat × duna_State) :=
  match D.code[D.pc]? with
  | none => none
  | some b => some (b, { D with pc := add32 D.pc 1 })

/-- Read of `D->stack[i]`. -/
def stack_get (D : duna_State) (i : Nat) : Option duna_Object := D.stack[i]?

/-- Assignment `D->stack[i] = o`. -/
def stack_set (D : duna_State) (i : Nat) (o : duna_Object) : Option duna_State :=
  if i < D.stack.length then some { D with stack := D.stack.set i o } else none

/-- The expression `D->stack[--D->sp]`. -/
def pop (D : duna_State) : Option (duna_Object × duna_State) :=
  match D.stack[sub32 D.sp 1]? with
  | none => none
  | some o => some (o, { D with sp := sub32 D.sp 1 })

/-- The statement `D->stack[D->sp++] = o`. -/
def push (D : duna_State) (o : duna_Object) : Option duna_State :=
  match stack_set D D.sp o with
  | none => none
  | some D1 => some { D1 with sp := add32 D.sp 1 }

/-- Four operand bytes read with `D->code[D->pc++]` and assembled into a double
word. -/
def fetch_dword (D : duna_State) : Option (Nat × duna_State) :=
  match fetch D with
  | none => none
  | some (b1, D1) =>
    match fetch D1 with
    | none => none
    | some (b2, D2) =>
      match fetch D2 with
      | none => none
      | some (b3, D3) =>
        match fetch D3 with
        | none => none
        | some (b4, D4) => some (dword b1 b2 b3 b4, D4)

/-- The macro `DUNA_SET_BOOL(cond)`. -/
def DUNA_SET_BOOL (cond : Bool) (D : duna_State) : duna_State :=
  if cond then
    { D with accum := { type := DUNA_TYPE_BOOL, value := D.accum.value.set_byte 1 } }
  else
    { D with accum := { type := DUNA_TYPE_BOOL, value := D.accum.value.set_byte 0 } }

/-- The frame walk of `DUNA_OP_LOAD`: `n` remaining iterations of
`k = stack[j+1].fixnum; j = stack[j-k].fixnum`, returning the final `j`. -/
def load_walk (D : duna_State) : Nat → Nat → Option Nat
  | 0, j => some j
  | n + 1, j =>
    match stack_get D (add32 j 1) with
    | none => none
    | some o1 =>
      match o1.value.fixnum with
      | none => none
      | some k =>
        match stack_get D (sub32 j k) with
        | none => none
        | some o2 =>
          match o2.value.fixnum with
          | none => none
          | some j1 => load_walk D n j1

/-! ## The dispatch switch -/

/-- The body of the `switch` in `duna_vm_run` for the opcode byte `op`; `D` is
the state after the opcode fetch `D->code[D->pc++]`.  A byte without a `case`
falls through the `switch` unchanged. -/
def duna_exec (op : Nat) (D : duna_State) : Option duna_State :=
  match op with
  | DUNA_OP_LOAD_NIL => some { D with accum := { D.accum with type := DUNA_TYPE_NIL } }
  | DUNA_OP_LOAD_FALSE => some { D with accum := { type := DUNA_TYPE_BOOL, value := D.accum.value.set_byte 0 } }
  | DUNA_OP_LOAD_TRUE => some { D with accum := { type := DUNA_TYPE_BOOL, value := D.accum.value.set_byte 1 } }
  | DUNA_OP_LOAD_ZERO => some { D with accum := { type := DUNA_TYPE_FIXNUM, value := D.accum.value.set_fixnum 0 } }
  | DUNA_OP_LOAD_ONE => some { D with accum := { type := DUNA_TYPE_FIXNUM, value := D.accum.value.set_fixnum 1 } }
  | DUNA_OP_LOAD_FIXNUM =>
    match fetch_dword D with
    | none => none
    | some (dw1, D1) =>
      some { D1 with accum := { type := DUNA_TYPE_FIXNUM, value := D1.accum.value.set_fixnum dw1 } }
  | DUNA_OP_LOAD_CHAR =>
    match fetch D with
    | none => none
    | some (b, D1) =>
      some { D1 with accum := { type := DUNA_TYPE_CHAR, value := D1.accum.value.set_byte b } }
  | DUNA_OP_INC =>
    match D.accum.value.fixnum with
    | none => none
    | some n => some { D with accum := { D.accum with value := D.accum.value.set_fixnum (add32 n 1) } }
  | DUNA_OP_DEC =>
    match D.accum.value.fixnum with
    | none => none
    | some n => some { D with accum := { D.accum with value := D.accum.value.set_fixnum (sub32 n 1) } }
  | DUNA_OP_FIXNUM_TO_CHAR =>
    match D.accum.value.fixnum with
    | none => none
    | some n =>
      some { D with accum := { type := DUNA_TYPE_CHAR, value := D.accum.value.set_byte (u8 n) } }
  | DUNA_OP_CHAR_TO_FIXNUM =>
    match D.accum.value.chr with
    | none => none
    | some dw1 =>
      some { D with accum := { type := DUNA_TYPE_FIXNUM, value := D.accum.value.set_fixnum dw1 } }
  | DUNA_OP_NULL_P => some (DUNA_SET_BOOL (D.accum.type == DUNA_TYPE_NIL) D)
  | DUNA_OP_ZERO_P =>
    match D.accum.value.fixnum with
    | none => none
    | some n => some (DUNA_SET_BOOL (n == 0) D)
  | DUNA_OP_NOT =>
    match D.accum.value.bool with
    | none => none
    | some b => some (DUNA_SET_BOOL (b == 0) D)
  | DUNA_OP_BOOL_P => some (DUNA_SET_BOOL (D.accum.type == DUNA_TYPE_BOOL) D)
  | DUNA_OP_CHAR_P => some (DUNA_SET_BOOL (D.accum.type == DUNA_TYPE_CHAR) D)
  | DUNA_OP_FIXNUM_P => some (DUNA_SET_BOOL (D.accum.type == DUNA_TYPE_FIXNUM) D)
  | DUNA_OP_PUSH => push D D.accum
  | DUNA_OP_POP =>
    match pop D with
    | none => none
    | some (o, D1) =>
      match o.value.fixnum with
      | none => none
      | some dw1 => some { D1 with sp := sub32 D1.sp dw1 }
  | DUNA_OP_PLUS =>
    match pop D with
    | none => none
    | some (o, D1) =>
      match D1.accum.value.fixnum, o.value.fixnum with
      | some a, some b =>
        some { D1 with accum := { D1.accum with value := D1.accum.value.set_fixnum (add32 a b) } }
      | _, _ => none
  | DUNA_OP_MINUS =>
    match pop D with
    | none => none
    | some (o, D1) =>
      match D1.accum.value.fixnum, o.value.fixnum with
      | some a, some b =>
        some { D1 with accum := { D1.accum with value := D1.accum.value.set_fixnum (sub32 a b) } }
      | _, _ => none
  | DUNA_OP_MULT =>
    match pop D with
    | none => none
    | some (o, D1) =>
      match D1.accum.value.fixnum, o.value.fixnum with
      | some a, some b =>
        some { D1 with accum := { D1.accum with value := D1.accum.value.set_fixnum (mul32 a b) } }
      | _, _ => none
  | DUNA_OP_LOAD_0 =>
    match stack_get D D.fp with
    | none => none
    | some o => some { D with accum := o }
  | DUNA_OP_LOAD_1 =>
    match stack_get D (sub32 D.fp 1) with
    | none => none
    | some o => some { D with accum := o }
  | DUNA_OP_LOAD_2 =>
    match stack_get D (sub32 D.fp 2) with
    | none => none
    | some o => some { D with accum := o }
  | DUNA_OP_LOAD_3 =>
    match stack_get D (sub32 D.fp 3) with
    | none => none
    | some o => some { D with accum := o }
  | DUNA_OP_LOAD =>
    match fetch_dword D with
    | none => none
    | some (dw1, D1) =>
      match fetch_dword D1 with
      | none => none
      | some (dw2, D2) =>
        match load_walk D2 dw2 D2.fp with
        | none => none
        | some j =>
          match stack_get D2 (sub32 j dw1) with
          | none => none
          | some o => some { D2 with accum := o }
  | DUNA_OP_SET_FP => some { D with fp := sub32 D.sp 1 }
  | DUNA_OP_SAVE_FP =>
    match stack_get D D.sp with
    | none => none
    | some o =>
      match stack_set D D.sp { type := DUNA_TYPE_FIXNUM, value := o.value.set_fixnum D.fp } with
      | none => none
      | some D1 => some { D1 with sp := add32 D.sp 1 }
  | DUNA_OP_REST_FP =>
    match pop D with
    | none => none
    | some (o, D1) =>
      match o.value.fixnum with
      | none => none
      | some n => some { D1 with fp := n }
  | DUNA_OP_MAKE_CLOSURE =>
    match fetch_dword D with
    | none => none
    | some (dw1, D1) =>
      some { D1 with
        accum := { type := DUNA_TYPE_CLOSURE,
                   value := duna_Value.gc { entry_point := D1.pc, free_vars := none } },
        pc := add32 D1.pc dw1 }
  | DUNA_OP_CALL =>
    match D.proc.value.deref with
    | none => none
    | some p => some { D with pc := p.entry_point }
  | DUNA_OP_RETURN =>
    match pop D with
    | none => none
    | some (o, D1) =>
      match o.value.fixnum with
      | none => none
      | some ra =>
        match pop D1 with
        | none => none
        | some (p, D2) => some { D2 with pc := ra, proc := p }
  | DUNA_OP_SAVE_PROC => push D D.proc
  | DUNA_OP_SET_PROC => some { D with proc := D.accum }
  | _ => some D

/-- One iteration of the `while` body of `duna_vm_run` without the trailing
diagnostic dump: fetch the opcode byte, advance `pc`, run the `switch`. -/
def duna_step (D : duna_State) : Option duna_State :=
  match fetch D with
  | none => none
  | some (op, D1) => duna_exec op D1

/-- The opcode steps of `n` consecutive loop iterations. -/
def duna_steps : Nat → duna_State → Option duna_State
  | 0, D => some D
  | n + 1, D =>
    match duna_step D with
    | none => none
    | some D1 => duna_steps n D1

/-! ## Diagnostics -/

/-- The text `printf("%d", x)` produces for a `uint32_t` argument `x`: the
decimal numeral of the two-complement `int` with the same 32 bits. -/
def printf_d (x : Nat) : String :=
  if u32 x < 2 ^ 31 then toString (u32 x) else "-" ++ toString (2 ^ 32 - u32 x)

/-- The text `printf("%u", x)` produces. -/
def printf_u (x : Nat) : String := toString (u32 x)

/-- The text `write_obj` prints for an object; each character stands for one
output byte. -/
def write_obj (obj : duna_Object) : Option String :=
  match obj.type with
  | DUNA_TYPE_NIL => some "()"
  | DUNA_TYPE_BOOL =>
    match obj.value.bool with
    | none => none
    | some b => if b ≠ 0 then some "#t" else some "#f"
  | DUNA_TYPE_FIXNUM =>
    match obj.value.fixnum with
    | none => none
    | some n => some (printf_d n)
  | DUNA_TYPE_CHAR =>
    match obj.value.chr with
    | none => none
    | some c => some ("#\\" ++ String.singleton (Char.ofNat c))
  | DUNA_TYPE_CLOSURE =>
    match obj.value.deref with
    | none => none
    | some p => some ("<#closure " ++ printf_u p.entry_point ++ ">")
  | _ => some "Unknown type!"

/-- The stack loop of `duna_dump` after `n` iterations:
`for(i = 0; i < n; i++) { printf(" "); write_obj(D->stack + i); }`. -/
def dump_stack (D : duna_State) : Nat → Option String
  | 0 => some ""
  | n + 1 =>
    match dump_stack D n with
    | none => none
    | some out =>
      match stack_get D n with
      | none => none
      | some o =>
        match write_obj o with
        | none => none
        | some t => some (out ++ " " ++ t)

/-- The text `duna_dump` prints.  The function only reads the state. -/
def duna_dump (D : duna_State) : Option String :=
  match write_obj D.accum, write_obj D.proc, dump_stack D D.sp with
  | some a, some p, some st =>
    some ("Registers:\n" ++ "\taccum: " ++ a ++ "\n" ++ "\tclosure: " ++ p ++ "\n" ++
      "\tPC: " ++ printf_d D.pc ++ "\n" ++ "\tFP: " ++ printf_d D.fp ++ "\n" ++
      "Stack:" ++ st ++ "\n")
  | _, _, _ => none

/-! ## The run loop -/

/-- How a call of `duna_vm_run` ends: it returns `ret` with the final state and
the text printed, or it runs into behaviour the C text leaves undefined, or the
model has used up its step budget. -/
inductive duna_Run where
  | returned (ret : Int) (D : duna_State) (out : String)
  | undefined
  | out_of_fuel
deriving DecidableEq, Repr

/-- The return value of a finished run. -/
def duna_Run.ret : duna_Run → Option Int
  | returned r _ _ => some r
  | undefined => none
  | out_of_fuel => none

/-- The final state of a finished run. -/
def duna_Run.final : duna_Run → Option duna_State
  | returned _ D _ => some D
  | undefined => none
  | out_of_fuel => none

/-- The function `duna_vm_run`, with a bound `fuel` on the number of loop
iterations; `out` is the text printed so far.
`while(D->pc < D->code_size) { switch(...) {...} duna_dump(D); } return 1;` -/
def duna_vm_run : Nat → duna_State → String → duna_Run
  | 0, D, out =>
    if D.pc < D.code_size then duna_Run.out_of_fuel else duna_Run.returned 1 D out
  | fuel + 1, D, out =>
    if D.pc < D.code_size then
      match duna_step D with
      | none => duna_Run.undefined
      | some D1 =>
        match duna_dump D1 with
        | none => duna_Run.undefined
        | some t => duna_vm_run fuel D1 (out ++ t)
    else duna_Run.returned 1 D out

/-! ## Vocabulary for stating properties -/

/-- The bytes `bytes` stand in the code buffer from offset `off` on. -/
def code_at (D : duna_State) (off : Nat) (bytes : List Nat) : Prop :=
  ∀ i, i < bytes.length → D.code[off + i]? = bytes[i]?

instance (D : duna_State) (off : Nat) (bytes : List Nat) : Decidable (code_at D off bytes) := by
  unfold code_at; exact inferInstance

/-- The four operand bytes that encode the double word `n`, least significant
first. -/
def le32 (n : Nat) : List Nat := [n % 256, n / 2 ^ 8 % 256, n / 2 ^ 16 % 256, n / 2 ^ 24 % 256]

/-- A small machine for worked examples.  The registers are as `duna_init` sets
them (`pc`, `fp` and `sp` are 0, `proc` is the Boolean false, `accum` is tagged
Nil) and `code_size` is as the loader leaves it after reading `prog`.  The memory
is not what `duna_init` allocates: the code buffer here holds exactly the bytes
of `prog`, whereas the real buffer has 8192 bytes, those behind `code_size`
uninitialised; the stack here has `slots` slots, each tagged Nil with a zero
payload, whereas the real stack has 1024 slots that `malloc` leaves
uninitialised, as it leaves the payload of `accum`. -/
def boot (prog : List Nat) (slots : Nat) : duna_State :=
  { code := prog, code_size := prog.length, pc := 0,
    accum := { type := DUNA_TYPE_NIL, value := duna_Value.word 0 },
    stack := List.replicate slots { type := DUNA_TYPE_NIL, value := duna_Value.word 0 },
    sp := 0, fp := 0,
    proc := { type := DUNA_TYPE_BOOL, value := duna_Value.word 0 } }

/-- The Fixnum object with payload `n`. -/
def Fixnum (n : Nat) : duna_Object := { type := DUNA_TYPE_FIXNUM, value := duna_Value.word n }

/-- The Closure object with entry point `e` and no captured variables. -/
def Closure (e : Nat) : duna_Object :=
  { type := DUNA_TYPE_CLOSURE, value := duna_Value.gc { entry_point := e, free_vars := none } }

/-- Specification side of the lexical load: one frame link.  From the frame base
`f` the argument count is `stack[f + 1].fixnum` and the previous frame base is
`stack[f - count].fixnum`; the link exists only when both indices are inside the
stack. -/
def frame_link (stack : List duna_Object) (f : Nat) : Option Nat :=
  match stack[f + 1]? with
  | none => none
  | some cnt =>
    match cnt.value.fixnum with
    | none => none
    | some k =>
      if k ≤ f then
        match stack[f - k]? with
        | none => none
        | some prev => prev.value.fixnum
      else none

/-- Specification side of the lexical load: the frame chain `f_0 = fp`,
`f_(i+1) = stack[f_i - stack[f_i + 1].fixnum].fixnum`. -/
def frame_chain (stack : List duna_Object) (fp : Nat) : Nat → Option Nat
  | 0 => some fp
  | i + 1 =>
    match frame_chain stack fp i with
    | none => none
    | some f => frame_link stack f

/-- The opcode of the fast-path load `LOAD_k`, `k` in `0..3`. -/
def DUNA_OP_LOAD_k (k : Nat) : Nat :=
  match k with
  | 0 => DUNA_OP_LOAD_0
  | 1 => DUNA_OP_LOAD_1
  | 2 => DUNA_OP_LOAD_2
  | _ => DUNA_OP_LOAD_3

/-- A stack holding two nested frames in the layout the frame walk of
`DUNA_OP_LOAD` expects: above each frame base the argument count, and `count`
slots below it the previous frame base.  With `fp = 7` the chain of frame bases
is `7, 3, 0`. -/
def two_frames : List duna_Object :=
  [Fixnum 100, Fixnum 11, Fixnum 0, Fixnum 33, Fixnum 1, Fixnum 55, Fixnum 3, Fixnum 77, Fixnum 1]

/-- The call sequence in the order the specification text gives it, for a call
with zero arguments and return address `r`, with the closure body
`LOAD_FIXNUM 42; RETURN` placed behind `MAKE_CLOSURE`:
push the argument count 0, push `r`, `SAVE_PROC`, `MAKE_CLOSURE` (skipping the
6 body bytes), `SET_PROC`, `SAVE_FP`, `SET_FP`, `CALL`. -/
def call_sequence (r : Nat) : List Nat :=
  [DUNA_OP_LOAD_ZERO, DUNA_OP_PUSH] ++ DUNA_OP_LOAD_FIXNUM :: le32 r ++
  [DUNA_OP_PUSH, DUNA_OP_SAVE_PROC] ++ DUNA_OP_MAKE_CLOSURE :: le32 6 ++
  (DUNA_OP_LOAD_FIXNUM :: le32 42 ++ [DUNA_OP_RETURN]) ++
  [DUNA_OP_SET_PROC, DUNA_OP_SAVE_FP, DUNA_OP_SET_FP, DUNA_OP_CALL]

/-- The state a predicate opcode is claimed to produce: `accum` replaced by a
Boolean whose payload is 1 when `c` holds and 0 otherwise, `pc` advanced by 1. -/
def bool_result (D : duna_State) (c : Prop) [Decidable c] : duna_State :=
  { D with
    accum := { type := DUNA_TYPE_BOOL, value := D.accum.value.set_byte (if c then 1 else 0) },
    pc := D.pc + 1 }

/-- The Character object with code `c` and no other bits set in the union. -/
def Character (c : Nat) : duna_Object := { type := DUNA_TYPE_CHAR, value := duna_Value.word c }

/-- The change of `sp` the stack discipline assigns to an opcode byte, `n` being
the count a `POP` finds on top of the stack: `+1` for the push-style opcodes
`PUSH`, `SAVE_FP`, `SAVE_PROC`; `-(n + 1)` for `POP`; `-1` for `PLUS`, `MINUS`,
`MULT`, `REST_FP`; `-2` for `RETURN`; `0` for every other byte. -/
def sp_delta (op : Nat) (n : Nat) : Int :=
  if op = DUNA_OP_PUSH ∨ op = DUNA_OP_SAVE_FP ∨ op = DUNA_OP_SAVE_PROC then 1
  else if op = DUNA_OP_POP then -((n : Int) + 1)
  else if op = DUNA_OP_PLUS ∨ op = DUNA_OP_MINUS ∨ op = DUNA_OP_MULT ∨ op = DUNA_OP_REST_FP then -1
  else if op = DUNA_OP_RETURN then -2
  else 0

/-- The number of operand bytes that follow an opcode byte which is not
`MAKE_CLOSURE`, `CALL` or `RETURN`: 4 for `LOAD_FIXNUM`, 1 for `LOAD_CHAR`, 8 for
`LOAD`, 0 for every other byte. -/
def operand_length (op : Nat) : Nat :=
  if op = DUNA_OP_LOAD_FIXNUM then 4
  else if op = DUNA_OP_LOAD_CHAR then 1
  else if op = DUNA_OP_LOAD then 8
  else 0

/-- The run from `D` fetches none of `MAKE_CLOSURE`, `CALL`, `RETURN` as an opcode
during its first `n` loop iterations. -/
def jump_free : Nat → duna_State → Bool
  | 0, _ => true
  | n + 1, D =>
    if D.pc < D.code_size then
      match D.code[D.pc]? with
      | none => true
      | some op =>
        op != DUNA_OP_MAKE_CLOSURE && op != DUNA_OP_CALL && op != DUNA_OP_RETURN &&
          (match duna_step D with
           | none => true
           | some D1 => jump_free n D1)
    else true

/-- The objects `objs` stand in the stack from slot `off` on. -/
def stack_at (D : duna_State) (off : Nat) (objs : List duna_Object) : Prop :=
  ∀ i, i < objs.length → D.stack[off + i]? = objs[i]?

instance (D : duna_State) (off : Nat) (objs : List duna_Object) :
    Decidable (stack_at D off objs) := by
  unfold stack_at; exact inferInstance

/-- A stack holding, above one unrelated slot, a call frame in the layout of the
`CALL` comment: previous procedure, return address 3, saved frame pointer 0, two
arguments, argument count 2. -/
def one_frame : List duna_Object :=
  [Fixnum 50, Closure 0, Fixnum 3, Fixnum 0, Fixnum 10, Fixnum 20, Fixnum 2]

/-- The double word the code buffer holds at the offsets `off .. off + 3`, least
significant byte first; `none` when one of the four offsets is outside the
buffer. -/
def code_dword (D : duna_State) (off : Nat) : Option Nat :=
  match D.code[off]?, D.code[off + 1]?, D.code[off + 2]?, D.code[off + 3]? with
  | some b1, some b2, some b3, some b4 => some (dword b1 b2 b3 b4)
  | _, _, _, _ => none

/-! ## Reads of a union member other than the one stored

`duna_exec` leaves a `case` undefined when it reads a scalar member of a union
that holds a pointer: C then yields the low bytes of an address, a value the
program text does not determine.  For properties that hold whatever that value
is, the cases that read a scalar member are given a second time, with such a
read resolved by an arbitrary function `g` of the stored value. -/

/-- Read of the member `fixnum`: the word the union holds, and `g` of the stored
value, cut to 32 bits, when the union holds no word. -/
def read_fixnum (g : duna_Value → Nat) (v : duna_Value) : Nat :=
  match v.fixnum with
  | some n => n
  | none => u32 (g v)

/-- Read of a one-byte member (`bool` or `chr`): the low byte the union holds,
and `g` of the stored value, cut to 8 bits, when the union holds a pointer. -/
def read_byte (g : duna_Value → Nat) (v : duna_Value) : Nat :=
  match v.byte with
  | some b => b
  | none => u8 (g v)

/-- The frame walk of `DUNA_OP_LOAD` with every `fixnum` read resolved by
`read_fixnum g`: it is undefined only when a slot index is outside the stack. -/
def load_walk_any (g : duna_Value → Nat) (D : duna_State) : Nat → Nat → Option Nat
  | 0, j => some j
  | n + 1, j =>
    match stack_get D (add32 j 1) with
    | none => none
    | some o1 =>
      match stack_get D (sub32 j (read_fixnum g o1.value)) with
      | none => none
      | some o2 => load_walk_any g D n (read_fixnum g o2.value)

/-- The body of the `switch` in `duna_vm_run` with every read of a scalar union
member resolved by `g`.  The cases that read one are written out; every other
case is the one of `duna_exec`. -/
def duna_exec_any (g : duna_Value → Nat) (op : Nat) (D : duna_State) : Option duna_State :=
  match op with
  | DUNA_OP_INC =>
    some { D with accum :=
      { D.accum with value := D.accum.value.set_fixnum (add32 (read_fixnum g D.accum.value) 1) } }
  | DUNA_OP_DEC =>
    some { D with accum :=
      { D.accum with value := D.accum.value.set_fixnum (sub32 (read_fixnum g D.accum.value) 1) } }
  | DUNA_OP_FIXNUM_TO_CHAR =>
    some { D with accum :=
      { type := DUNA_TYPE_CHAR,
        value := D.accum.value.set_byte (u8 (read_fixnum g D.accum.value)) } }
  | DUNA_OP_CHAR_TO_FIXNUM =>
    some { D with accum :=
      { type := DUNA_TYPE_FIXNUM,
        value := D.accum.value.set_fixnum (read_byte g D.accum.value) } }
  | DUNA_OP_ZERO_P => some (DUNA_SET_BOOL (read_fixnum g D.accum.value == 0) D)
  | DUNA_OP_NOT => some (DUNA_SET_BOOL (read_byte g D.accum.value == 0) D)
  | DUNA_OP_POP =>
    match pop D with
    | none => none
    | some (o, D1) => some { D1 with sp := sub32 D1.sp (read_fixnum g o.value) }
  | DUNA_OP_PLUS =>
    match pop D with
    | none => none
    | some (o, D1) =>
      some { D1 with accum :=
        { D1.accum with
          value := D1.accum.value.set_fixnum
            (add32 (read_fixnum g D1.accum.value) (read_fixnum g o.value)) } }
  | DUNA_OP_MINUS =>
    match pop D with
    | none => none
    | some (o, D1) =>
      some { D1 with accum :=
        { D1.accum with
          value := D1.accum.value.set_fixnum
            (sub32 (read_fixnum g D1.accum.value) (read_fixnum g o.value)) } }
  | DUNA_OP_MULT =>
    match pop D with
    | none => none
    | some (o, D1) =>
      some { D1 with accum :=
        { D1.accum with
          value := D1.accum.value.set_fixnum
            (mul32 (read_fixnum g D1.accum.value) (read_fixnum g o.value)) } }
  | DUNA_OP_LOAD =>
    match fetch_dword D with
    | none => none
    | some (dw1, D1) =>
      match fetch_dword D1 with
      | none => none
      | some (dw2, D2) =>
        match load_walk_any g D2 dw2 D2.fp with
        | none => none
        | some j =>
          match stack_get D2 (sub32 j dw1) with
          | none => none
          | some o => some { D2 with accum := o }
  | DUNA_OP_REST_FP =>
    match pop D with
    | none => none
    | some (o, D1) => some { D1 with fp := read_fixnum g o.value }
  | DUNA_OP_RETURN =>
    match pop D with
    | none => none
    | some (o, D1) =>
      match pop D1 with
      | none => none
      | some (p, D2) => some { D2 with pc := read_fixnum g o.value, proc := p }
  | _ => duna_exec op D

/-- One iteration of the `while` body with `duna_exec_any` for the `switch`. -/
def duna_step_any (g : duna_Value → Nat) (D : duna_State) : Option duna_State :=
  match fetch D with
  | none => none
  | some (op, D1) => duna_exec_any g op D1

/-- The `fixnum` member of the slot on top of the stack, `stack[sp - 1]`, as
`read_fixnum g` reads it: the count a `POP` finds there.  It is 0 when there is
no such slot. -/
def pop_count (g : duna_Value → Nat) (D : duna_State) : Nat :=
  match D.stack[D.sp - 1]? with
  | some o => read_fixnum g o.value
  | none => 0

/-- The accesses of the `switch` case of the opcode byte `op`, fetched at `D.pc`,
are in range in the state `D`.  Per opcode, read off the `case` in `duna_vm_run`:
* `PUSH`, `SAVE_FP`, `SAVE_PROC` write the slot `stack[sp]`: `sp < stack_size`;
* `POP` reads the count `n` in `stack[sp - 1]` and subtracts it from `sp - 1`:
  `1 <= sp <= stack_size` and `n + 1 <= sp`, so that `sp` does not wrap;
* `PLUS`, `MINUS`, `MULT`, `REST_FP` read `stack[sp - 1]`: `1 <= sp <= stack_size`;
* `RETURN` reads `stack[sp - 1]` and `stack[sp - 2]`: `2 <= sp <= stack_size`;
* `LOAD_0` .. `LOAD_3` read `stack[fp - k]`, the index in 32-bit arithmetic;
* `LOAD` reads 8 operand bytes inside the code buffer, every slot of its frame
  walk is inside the stack, and so is the slot `stack[f - offset]` it loads;
* `LOAD_FIXNUM` and `MAKE_CLOSURE` read 4 operand bytes, `LOAD_CHAR` reads 1:
  the bytes lie inside the code buffer;
* `CALL` follows the pointer in `proc`: `proc` holds one;
* every other byte, unknown bytes included, accesses nothing but registers. -/
def accesses_in_range (g : duna_Value → Nat) (op : Nat) (D : duna_State) : Bool :=
  if op = DUNA_OP_PUSH ∨ op = DUNA_OP_SAVE_FP ∨ op = DUNA_OP_SAVE_PROC then
    decide (D.sp < D.stack.length)
  else if op = DUNA_OP_POP then
    decide (1 ≤ D.sp ∧ D.sp - 1 < D.stack.length ∧ pop_count g D + 1 ≤ D.sp)
  else if op = DUNA_OP_PLUS ∨ op = DUNA_OP_MINUS ∨ op = DUNA_OP_MULT ∨
      op = DUNA_OP_REST_FP then
    decide (1 ≤ D.sp ∧ D.sp - 1 < D.stack.length)
  else if op = DUNA_OP_RETURN then decide (2 ≤ D.sp ∧ D.sp - 1 < D.stack.length)
  else if op = DUNA_OP_LOAD_0 then decide (D.fp < D.stack.length)
  else if op = DUNA_OP_LOAD_1 then decide (sub32 D.fp 1 < D.stack.length)
  else if op = DUNA_OP_LOAD_2 then decide (sub32 D.fp 2 < D.stack.length)
  else if op = DUNA_OP_LOAD_3 then decide (sub32 D.fp 3 < D.stack.length)
  else if op = DUNA_OP_LOAD then
    match code_dword D (D.pc + 1), code_dword D (D.pc + 5) with
    | some o, some d =>
      (match load_walk_any g D d D.fp with
       | some f => decide (sub32 f o < D.stack.length)
       | none => false)
    | _, _ => false
  else if op = DUNA_OP_LOAD_FIXNUM ∨ op = DUNA_OP_MAKE_CLOSURE then
    decide (D.pc + 4 < D.code.length)
  else if op = DUNA_OP_LOAD_CHAR then decide (D.pc + 1 < D.code.length)
  else if op = DUNA_OP_CALL then D.proc.value.deref.isSome
  else true

/-- Every scalar union member that the `switch` case of `op` reads in the state
`D` is held by the union as that member: the `fixnum` of `accum` for `INC`, `DEC`,
`FIXNUM_TO_CHAR`, `ZERO_P`, `PLUS`, `MINUS`, `MULT`; a one-byte member of `accum`
for `CHAR_TO_FIXNUM` and `NOT`; the `fixnum` of `stack[sp - 1]` for `POP`, `PLUS`,
`MINUS`, `MULT`, `REST_FP`, `RETURN`; for `LOAD` the frame walk follows fixnums
and does not wrap (`frame_chain` is defined). -/
def members_stored (op : Nat) (D : duna_State) : Bool :=
  if op = DUNA_OP_INC ∨ op = DUNA_OP_DEC ∨ op = DUNA_OP_FIXNUM_TO_CHAR ∨
      op = DUNA_OP_ZERO_P then
    D.accum.value.fixnum.isSome
  else if op = DUNA_OP_CHAR_TO_FIXNUM ∨ op = DUNA_OP_NOT then D.accum.value.byte.isSome
  else if op = DUNA_OP_PLUS ∨ op = DUNA_OP_MINUS ∨ op = DUNA_OP_MULT then
    D.accum.value.fixnum.isSome &&
      ((D.stack[D.sp - 1]?).bind (fun o => o.value.fixnum)).isSome
  else if op = DUNA_OP_POP ∨ op = DUNA_OP_REST_FP ∨ op = DUNA_OP_RETURN then
    ((D.stack[D.sp - 1]?).bind (fun o => o.value.fixnum)).isSome
  else if op = DUNA_OP_LOAD then
    match code_dword D (D.pc + 5) with
    | some d => (frame_chain D.stack D.fp d).isSome
    | none => false
  else true

/-! ## The dump as a procedure on the machine state

`duna_dump` and `write_obj` receive pointers (`duna_State*`, `duna_Object*`).  The
definitions below translate them statement by statement as procedures that hand
back what the pointer refers to after the call, next to the text printed, so that
the absence of a write is a property to prove and not a feature of the signature.
-/

/-- The procedure `write_obj(obj)`: the text printed and the object `*obj` after
the call.  No statement of the body assigns through `obj`. -/
def write_obj_proc (obj : duna_Object) : Option (String × duna_Object) :=
  match obj.type with
  | DUNA_TYPE_NIL => some ("()", obj)
  | DUNA_TYPE_BOOL =>
    match obj.value.bool with
    | none => none
    | some b => if b ≠ 0 then some ("#t", obj) else some ("#f", obj)
  | DUNA_TYPE_FIXNUM =>
    match obj.value.fixnum with
    | none => none
    | some n => some (printf_d n, obj)
  | DUNA_TYPE_CHAR =>
    match obj.value.chr with
    | none => none
    | some c => some ("#\\" ++ String.singleton (Char.ofNat c), obj)
  | DUNA_TYPE_CLOSURE =>
    match obj.value.deref with
    | none => none
    | some p => some ("<#closure " ++ printf_u p.entry_point ++ ">", obj)
  | _ => some ("Unknown type!", obj)

/-- The stack loop of `duna_dump` after `n` iterations, as a procedure: each
iteration prints a blank, calls `write_obj(D->stack + i)` and keeps what the call
left in the slot. -/
def dump_stack_proc (D : duna_State) : Nat → Option (String × duna_State)
  | 0 => some ("", D)
  | n + 1 =>
    match dump_stack_proc D n with
    | none => none
    | some (out, D1) =>
      match stack_get D1 n with
      | none => none
      | some o =>
        match write_obj_proc o with
        | none => none
        | some (t, o1) => some (out ++ " " ++ t, { D1 with stack := D1.stack.set n o1 })

/-- The procedure `duna_dump(D)`: the text printed and the state `*D` after the
call. -/
def duna_dump_proc (D : duna_State) : Option (String × duna_State) :=
  match write_obj_proc D.accum with
  | none => none
  | some (a, acc1) =>
    match write_obj_proc D.proc with
    | none => none
    | some (p, proc1) =>
      match dump_stack_proc { D with accum := acc1, proc := proc1 } D.sp with
      | none => none
      | some (st, D3) =>
        some ("Registers:\n" ++ "\taccum: " ++ a ++ "\n" ++ "\tclosure: " ++ p ++ "\n" ++
          "\tPC: " ++ printf_d D.pc ++ "\n" ++ "\tFP: " ++ printf_d D.fp ++ "\n" ++
          "Stack:" ++ st ++ "\n", D3)

/-- The loop of `duna_vm_run` with the state threaded through the dump procedure:
the next iteration starts from the state `duna_dump` hands back. -/
def duna_vm_run_proc : Nat → duna_State → String → duna_Run
  | 0, D, out =>
    if D.pc < D.code_size then duna_Run.out_of_fuel else duna_Run.returned 1 D out
  | fuel + 1, D, out =>
    if D.pc < D.code_size then
      match duna_step D with
      | none => duna_Run.undefined
      | some D1 =>
        match duna_dump_proc D1 with
        | none => duna_Run.undefined
        | some (t, D2) => duna_vm_run_proc fuel D2 (out ++ t)
    else duna_Run.returned 1 D out

/-! ## The host API (`src/api.c`)

The functions `calc_index`, `sly_error`, `sly_get_top`, `sly_push_integer`,
`sly_push_string`, `sly_display`, `sly_add` and `sly_sub` are translated from
`api.c`.  The headers that declare the types they work on are not part of the
sources at hand; what is needed of them is modelled below. -/

/-- Modelled from the spec: the type tags of `sly_object_t`, declared in a header
that is not among the sources.  `api.c` names the tags for Booleans, Fixnums,
strings and closures; their numeric values play no role. -/
inductive sly_type where
  | SLY_TYPE_BOOL
  | SLY_TYPE_FIXNUM
  | SLY_TYPE_STRING
  | SLY_TYPE_CLOSURE
  | other (tag : Nat)
deriving DecidableEq, Repr

/-- Modelled from the spec: the union `value` of a `sly_object_t`: either the
32-bit scalar storage (member `fixnum`; the spec's Fixnum is a 32-bit payload
with silent wraparound) or a pointer `gc` to a heap object, of which only strings
with their text are modelled. -/
inductive sly_value where
  | word (w : Nat)
  | gc (text : String)
deriving DecidableEq, Repr

/-- Read of the member `fixnum`. -/
def sly_value.fixnum : sly_value → Option Nat
  | sly_value.word w => some w
  | sly_value.gc _ => none

/-- Modelled from the spec: `sly_object_t`, a type tag and the union, as
`duna_Object` in `vm.c`. -/
structure sly_object where
  type : sly_type
  value : sly_value
deriving DecidableEq, Repr

/-- Modelled from the spec: the fields of `sly_state_t` (declared in `state.h`,
not among the sources) that `api.c` uses: the value stack and the registers `sp`
and `fp`, unsigned 32-bit indices as in the machine of `vm.c` (`api.c` casts them
to `int` before comparing).  `stack.length` is the allocated size. -/
structure sly_state where
  stack : List sly_object
  sp : Nat
  fp : Nat
deriving DecidableEq, Repr

/-- How a call into the API ends: it returns a value and leaves a state, or it
reaches `abort()` at the end of `sly_error` after handing the objects `shown` to
the display routine, or it runs into behaviour the C text leaves undefined, or
the model has used up its budget of nested errors. -/
inductive sly_Outcome (α : Type) where
  | returned (a : α) (S : sly_state)
  | aborted (shown : List sly_object)
  | undefined
  | out_of_fuel
deriving DecidableEq, Repr

/-- The cast `(int)x` of a 32-bit unsigned value (two-complement). -/
def int_of_u32 (x : Nat) : Int :=
  if x % 2 ^ 32 < 2 ^ 31 then ((x % 2 ^ 32 : Nat) : Int) else ((x % 2 ^ 32 : Nat) : Int) - 2 ^ 32

/-- The conversion of an `int` to 32-bit unsigned. -/
def u32_of_int (i : Int) : Nat := (i % 2 ^ 32).toNat

/-- The function `sly_get_top`: `return S->sp - S->fp - 1;` -/
def sly_get_top (S : sly_state) : Int := int_of_u32 (sub32 (sub32 S.sp S.fp) 1)

/-- Modelled from the spec: `sly_create_string` is not among the sources; it
yields a heap string holding the given text.  `sly_push_string` wraps it in an
object tagged `SLY_TYPE_STRING` and stores it with `S->stack[S->sp++] = obj`. -/
def sly_push_string (S : sly_state) (str : String) : Option sly_state :=
  if S.sp < S.stack.length then
    some { S with
      stack := S.stack.set S.sp { type := sly_type.SLY_TYPE_STRING, value := sly_value.gc str },
      sp := add32 S.sp 1 }
  else none

/-- The function `sly_push_integer`:
`S->stack[S->sp].type = SLY_TYPE_FIXNUM; S->stack[S->sp++].value.fixnum = num;` -/
def sly_push_integer (S : sly_state) (num : Nat) : Option sly_state :=
  if S.sp < S.stack.length then
    some { S with
      stack := S.stack.set S.sp
        { type := sly_type.SLY_TYPE_FIXNUM, value := sly_value.word (u32 num) },
      sp := add32 S.sp 1 }
  else none

/-- The function `sly_display` over a given `calc_index`: resolve the index and
hand the slot to `sly_io_display`; the result is the object shown. -/
def sly_display_with (ci : sly_state → Int → sly_Outcome Int) (S : sly_state) (idx : Int) :
    sly_Outcome sly_object :=
  match ci S idx with
  | sly_Outcome.returned i S1 =>
    if i < 0 then sly_Outcome.undefined
    else
      match S1.stack[i.toNat]? with
      | none => sly_Outcome.undefined
      | some o => sly_Outcome.returned o S1
  | sly_Outcome.aborted shown => sly_Outcome.aborted shown
  | sly_Outcome.undefined => sly_Outcome.undefined
  | sly_Outcome.out_of_fuel => sly_Outcome.out_of_fuel

/-- The loop `for(i = num; i < 0; ++i) sly_display(S, i);` of `sly_error` with
`k` iterations left: the indices `-k, ..., -1` are displayed in turn; the result
is the list of objects shown. -/
def sly_error_loop (ci : sly_state → Int → sly_Outcome Int) :
    Nat → sly_state → sly_Outcome (List sly_object)
  | 0, S => sly_Outcome.returned [] S
  | k + 1, S =>
    match sly_display_with ci S (-((k : Int) + 1)) with
    | sly_Outcome.returned o S1 =>
      match sly_error_loop ci k S1 with
      | sly_Outcome.returned os S2 => sly_Outcome.returned (o :: os) S2
      | sly_Outcome.aborted shown => sly_Outcome.aborted shown
      | sly_Outcome.undefined => sly_Outcome.undefined
      | sly_Outcome.out_of_fuel => sly_Outcome.out_of_fuel
    | sly_Outcome.aborted shown => sly_Outcome.aborted shown
    | sly_Outcome.undefined => sly_Outcome.undefined
    | sly_Outcome.out_of_fuel => sly_Outcome.out_of_fuel

/-- The function `sly_error` over a given `calc_index`.  When
`num > 0 && num < (int)S->sp` the `num` objects on top of the stack are displayed;
then come `sly_vm_dump`, `sly_close` (neither among the sources) and `abort()`,
so the function never returns; the adjustment `S->sp += num` made before them is
not observable afterwards. -/
def sly_error_with (ci : sly_state → Int → sly_Outcome Int) (S : sly_state) (num : Int) :
    sly_Outcome Int :=
  if 0 < num ∧ num < int_of_u32 S.sp then
    match sly_error_loop ci num.toNat S with
    | sly_Outcome.returned os _ => sly_Outcome.aborted os
    | sly_Outcome.aborted shown => sly_Outcome.aborted shown
    | sly_Outcome.undefined => sly_Outcome.undefined
    | sly_Outcome.out_of_fuel => sly_Outcome.out_of_fuel
  else sly_Outcome.aborted []

/-- The index computed by the first statement of `calc_index`:
`if(idx < 0) idx = S->sp + idx; else idx += S->fp + 1;`, the sum being formed in
32-bit unsigned arithmetic and stored back into the `int`. -/
def calc_index_raw (S : sly_state) (idx : Int) : Int :=
  if idx < 0 then int_of_u32 (add32 S.sp (u32_of_int idx))
  else int_of_u32 (add32 (u32_of_int idx) (add32 S.fp 1))

/-- The function `calc_index`.  It calls `sly_error`, which through `sly_display`
calls `calc_index` again; `fuel` bounds the depth of such nested errors. -/
def calc_index : Nat → sly_state → Int → sly_Outcome Int
  | 0, S, idx =>
    if ¬ (calc_index_raw S idx > int_of_u32 S.fp ∧ calc_index_raw S idx < int_of_u32 S.sp) then
      sly_Outcome.out_of_fuel
    else sly_Outcome.returned (calc_index_raw S idx) S
  | fuel + 1, S, idx =>
    if ¬ (calc_index_raw S idx > int_of_u32 S.fp ∧ calc_index_raw S idx < int_of_u32 S.sp) then
      match sly_push_string S "index out of range" with
      | none => sly_Outcome.undefined
      | some S1 => sly_error_with (calc_index fuel) S1 1
    else sly_Outcome.returned (calc_index_raw S idx) S

/-- The function `sly_error`. -/
def sly_error (fuel : Nat) (S : sly_state) (num : Int) : sly_Outcome Int :=
  sly_error_with (calc_index fuel) S num

/-- Read of `S->stack[idx].value.fixnum` for an `int` index. -/
def sly_fixnum_at (S : sly_state) (idx : Int) : Option Nat :=
  if idx < 0 then none
  else
    match S.stack[idx.toNat]? with
    | none => none
    | some o => o.value.fixnum

/-- The shared body of `sly_add` and `sly_sub`: resolve both indices, combine the
two Fixnum payloads with `f` and push the result with `sly_push_integer`. -/
def sly_arith (f : Nat → Nat → Nat) (fuel : Nat) (S : sly_state) (idx1 idx2 : Int) :
    sly_Outcome Unit :=
  match calc_index fuel S idx1 with
  | sly_Outcome.returned i1 S1 =>
    match calc_index fuel S1 idx2 with
    | sly_Outcome.returned i2 S2 =>
      match sly_fixnum_at S2 i1, sly_fixnum_at S2 i2 with
      | some a, some b =>
        match sly_push_integer S2 (f a b) with
        | none => sly_Outcome.undefined
        | some S3 => sly_Outcome.returned () S3
      | _, _ => sly_Outcome.undefined
    | sly_Outcome.aborted shown => sly_Outcome.aborted shown
    | sly_Outcome.undefined => sly_Outcome.undefined
    | sly_Outcome.out_of_fuel => sly_Outcome.out_of_fuel
  | sly_Outcome.aborted shown => sly_Outcome.aborted shown
  | sly_Outcome.undefined => sly_Outcome.undefined
  | sly_Outcome.out_of_fuel => sly_Outcome.out_of_fuel

/-- The function `sly_add`: `res = stack[idx1].value.fixnum + stack[idx2].value.fixnum`. -/
def sly_add (fuel : Nat) (S : sly_state) (idx1 idx2 : Int) : sly_Outcome Unit :=
  sly_arith add32 fuel S idx1 idx2

/-- The function `sly_sub`: `res = stack[idx1].value.fixnum - stack[idx2].value.fixnum`. -/
def sly_sub (fuel : Nat) (S : sly_state) (idx1 idx2 : Int) : sly_Outcome Unit :=
  sly_arith sub32 fuel S idx1 idx2

/-- The stack slot an index names that `calc_index` accepts: `sp + idx` for a
negative index (counting from the top), `fp + 1 + idx` otherwise (counting from
the frame base). -/
def sly_slot (S : sly_state) (idx : Int) : Int :=
  if idx < 0 then (S.sp : Int) + idx else (S.fp : Int) + 1 + idx

/-- The Fixnum object of the host API with payload `n`. -/
def sly_Fixnum (n : Nat) : sly_object :=
  { type := sly_type.SLY_TYPE_FIXNUM, value := sly_value.word n }

/-- A host stack of six slots with `fp = 1` and `sp = 4`: the frame holds the two
values 30 and 12. -/
def host_state : sly_state :=
  { stack := [sly_Fixnum 1, sly_Fixnum 2, sly_Fixnum 30, sly_Fixnum 12, sly_Fixnum 0,
      sly_Fixnum 0],
    sp := 4, fp := 1 }

/-! ## Arithmetic helpers -/

theorem dword_eq_add (b1 b2 b3 b4 : Nat) (h1 : b1 < 256) (h2 : b2 < 256) (h3 : b3 < 256)
    (h4 : b4 < 256) : dword b1 b2 b3 b4 = b1 + 256 * b2 + 65536 * b3 + 16777216 * b4 := by
  unfold dword
  have e1 : b1 ||| (b2 <<< 8) = 2 ^ 8 * b2 + b1 := by
    rw [Nat.shiftLeft_eq, Nat.mul_comm b2, Nat.or_comm]
    exact (Nat.mul_add_lt_is_or (by omega) b2).symm
  have e2 : (2 ^ 8 * b2 + b1) ||| (b3 <<< 16) = 2 ^ 16 * b3 + (2 ^ 8 * b2 + b1) := by
    rw [Nat.shiftLeft_eq, Nat.mul_comm b3, Nat.or_comm]
    exact (Nat.mul_add_lt_is_or (by omega) b3).symm
  have e3 : (2 ^ 16 * b3 + (2 ^ 8 * b2 + b1)) ||| (b4 <<< 24)
      = 2 ^ 24 * b4 + (2 ^ 16 * b3 + (2 ^ 8 * b2 + b1)) := by
    rw [Nat.shiftLeft_eq, Nat.mul_comm b4, Nat.or_comm]
    exact (Nat.mul_add_lt_is_or (by omega) b4).symm
  rw [e1, e2, e3]
  omega

theorem dword_bytes (n : Nat) (h : n < 4294967296) :
    dword (n % 256) (n / 256 % 256) (n / 65536 % 256) (n / 16777216 % 256) = n := by
  rw [dword_eq_add _ _ _ _ (by omega) (by omega) (by omega) (by omega)]
  omega

theorem add32_eq (a b : Nat) (h : a + b < 4294967296) : add32 a b = a + b := by
  unfold add32; omega

theorem sub32_eq (a b : Nat) (h : b ≤ a) (ha : a < 4294967296) : sub32 a b = a - b := by
  unfold sub32; omega

theorem u32_eq (a : Nat) (h : a < 4294967296) : u32 a = a := by
  unfold u32; omega

/-! ## Reading the code buffer -/

theorem lt_of_getElem?_eq_some {α : Type} (l : List α) (i : Nat) (a : α)
    (h : l[i]? = some a) : i < l.length := by
  rcases Nat.lt_or_ge i l.length with h1 | h1
  · exact h1
  · rw [List.getElem?_eq_none h1] at h; cases h

theorem code_at_get (D : duna_State) (off : Nat) (bytes : List Nat) (h : code_at D off bytes)
    (i : Nat) (b : Nat) (hb : bytes[i]? = some b) : D.code[off + i]? = some b := by
  rw [h i (lt_of_getElem?_eq_some _ _ _ hb), hb]

theorem code_at_head (D : duna_State) (off b : Nat) (bs : List Nat)
    (h : code_at D off (b :: bs)) : D.code[off]? = some b := by
  simpa using code_at_get D off _ h 0 b (by simp)

theorem code_at_tail (D : duna_State) (off b : Nat) (bs : List Nat)
    (h : code_at D off (b :: bs)) : code_at D (off + 1) bs := by
  intro i hi
  have := h (i + 1) (by simpa using hi)
  simpa [Nat.add_assoc, Nat.add_comm 1 i] using this

theorem pc_succ (D : duna_State) (b : Nat) (hcap : D.code.length < 2 ^ 32)
    (h : D.code[D.pc]? = some b) : add32 D.pc 1 = D.pc + 1 := by
  have := lt_of_getElem?_eq_some _ _ _ h
  have hcap1 : D.code.length < 4294967296 := hcap
  exact add32_eq _ _ (by omega)

theorem duna_step_eq (D : duna_State) (op : Nat) (hcap : D.code.length < 2 ^ 32)
    (h : D.code[D.pc]? = some op) :
    duna_step D = duna_exec op { D with pc := D.pc + 1 } := by
  simp [duna_step, fetch, h, pc_succ D op hcap h]

theorem fetch_dword_eq (D : duna_State) (b1 b2 b3 b4 : Nat) (hcap : D.code.length < 2 ^ 32)
    (h : code_at D D.pc [b1, b2, b3, b4]) :
    fetch_dword D = some (dword b1 b2 b3 b4, { D with pc := D.pc + 4 }) := by
  have h1 : D.code[D.pc]? = some b1 := by simpa using code_at_get D D.pc _ h 0 _ rfl
  have h2 := code_at_get D D.pc _ h 1 _ rfl
  have h3 := code_at_get D D.pc _ h 2 _ rfl
  have h4 := code_at_get D D.pc _ h 3 _ rfl
  have hb := lt_of_getElem?_eq_some _ _ _ h4
  have hcap1 : D.code.length < 4294967296 := hcap
  have e1 : add32 D.pc 1 = D.pc + 1 := add32_eq _ _ (by omega)
  have e2 : add32 (D.pc + 1) 1 = D.pc + 2 := add32_eq _ _ (by omega)
  have e3 : add32 (D.pc + 2) 1 = D.pc + 3 := add32_eq _ _ (by omega)
  have e4 : add32 (D.pc + 3) 1 = D.pc + 4 := add32_eq _ _ (by omega)
  simp at h2 h3 h4
  simp [fetch_dword, fetch, h1, h2, h3, h4, e1, e2, e3, e4]

theorem fetch_dword_le32 (D : duna_State) (n : Nat) (hcap : D.code.length < 2 ^ 32)
    (hn : n < 2 ^ 32) (h : code_at D D.pc (le32 n)) :
    fetch_dword D = some (n, { D with pc := D.pc + 4 }) := by
  have hn1 : n < 4294967296 := hn
  have := fetch_dword_eq D _ _ _ _ hcap h
  simpa [dword_bytes n hn1] using this

/-! ## Single opcodes -/

theorem step_load_fixnum (D : duna_State) (n : Nat) (hcap : D.code.length < 2 ^ 32)
    (hn : n < 2 ^ 32) (h : code_at D D.pc (DUNA_OP_LOAD_FIXNUM :: le32 n)) :
    duna_step D = some { D with accum := Fixnum n, pc := D.pc + 5 } := by
  have hn1 : n < 4294967296 := hn
  rw [duna_step_eq D _ hcap (code_at_head _ _ _ _ h)]
  have hd := fetch_dword_le32 { D with pc := D.pc + 1 } n hcap hn (code_at_tail _ _ _ _ h)
  simp only [duna_exec, hd, duna_Value.set_fixnum, u32_eq n hn1, Fixnum]

theorem step_load_char (D : duna_State) (c : Nat) (hcap : D.code.length < 2 ^ 32)
    (h : code_at D D.pc [DUNA_OP_LOAD_CHAR, c]) :
    duna_step D = some { D with
      accum := { type := DUNA_TYPE_CHAR, value := D.accum.value.set_byte c }, pc := D.pc + 2 } := by
  have h1 : D.code[D.pc + 1]? = some c := by simpa using code_at_get D D.pc _ h 1 _ rfl
  have hb := lt_of_getElem?_eq_some _ _ _ h1
  have hcap1 : D.code.length < 4294967296 := hcap
  have e2 : add32 (D.pc + 1) 1 = D.pc + 2 := add32_eq _ _ (by omega)
  rw [duna_step_eq D _ hcap (code_at_head _ _ _ _ h)]
  simp [duna_exec, fetch, h1, e2]

theorem set_byte_chr (v : duna_Value) (c : Nat) (hc : c < 256) : (v.set_byte c).chr = some c := by
  cases v <;> simp [duna_Value.set_byte, duna_Value.chr, duna_Value.byte, u8] <;> omega

theorem code_at_nil (D : duna_State) (off : Nat) : code_at D off [] ↔ True := by
  simp [code_at]

theorem code_at_cons (D : duna_State) (off b : Nat) (bs : List Nat) :
    code_at D off (b :: bs) ↔ D.code[off]? = some b ∧ code_at D (off + 1) bs := by
  constructor
  · intro h; exact ⟨code_at_head D off b bs h, code_at_tail D off b bs h⟩
  · rintro ⟨h0, h1⟩ i hi
    cases i with
    | zero => simpa using h0
    | succ j =>
      have := h1 j (by simpa using hi)
      simpa [Nat.add_assoc, Nat.add_comm 1 j] using this

theorem pc_off (D : duna_State) (k b : Nat) (hcap : D.code.length < 2 ^ 32)
    (h : D.code[D.pc + k]? = some b) : add32 (D.pc + k) 1 = D.pc + (k + 1) := by
  have := lt_of_getElem?_eq_some _ _ _ h
  have hcap1 : D.code.length < 4294967296 := hcap
  rw [add32_eq _ _ (by omega)]; omega

theorem frame_chain_shift (stack : List duna_Object) (fp : Nat) (n : Nat) :
    frame_chain stack fp (n + 1)
      = match frame_link stack fp with
        | none => none
        | some f1 => frame_chain stack f1 n := by
  induction n with
  | zero =>
    simp only [frame_chain]
    cases frame_link stack fp <;> rfl
  | succ m ih =>
    rw [frame_chain, ih]
    cases h : frame_link stack fp with
    | none => rfl
    | some f1 => simp only [frame_chain]

theorem load_walk_link (D : duna_State) (n j j1 : Nat) (hstk : D.stack.length < 2 ^ 32)
    (h : frame_link D.stack j = some j1) : load_walk D (n + 1) j = load_walk D n j1 := by
  have hstk1 : D.stack.length < 4294967296 := hstk
  unfold frame_link at h
  cases h1 : D.stack[j + 1]? with
  | none => simp [h1] at h
  | some cnt =>
    have hlt := lt_of_getElem?_eq_some _ _ _ h1
    cases h2 : cnt.value.fixnum with
    | none => simp [h1, h2] at h
    | some k =>
      simp only [h1, h2] at h
      by_cases hk : k ≤ j
      · simp only [hk, if_true] at h
        cases h3 : D.stack[j - k]? with
        | none => simp [h3] at h
        | some prev =>
          simp only [h3] at h
          have ea : add32 j 1 = j + 1 := add32_eq _ _ (by omega)
          have eb : sub32 j k = j - k := sub32_eq _ _ hk (by omega)
          simp [load_walk, stack_get, ea, eb, h1, h2, h3, h]
      · simp [hk] at h

theorem load_walk_chain (D : duna_State) (hstk : D.stack.length < 2 ^ 32) (d : Nat) :
    ∀ (j f : Nat), frame_chain D.stack j d = some f → load_walk D d j = some f := by
  induction d with
  | zero =>
    intro j f h
    simpa [frame_chain, load_walk] using h
  | succ m ih =>
    intro j f h
    rw [frame_chain_shift] at h
    cases hl : frame_link D.stack j with
    | none => simp [hl] at h
    | some j1 =>
      simp only [hl] at h
      rw [load_walk_link D m j j1 hstk hl]
      exact ih j1 f h

theorem load_walk_congr (D E : duna_State) (hs : E.stack = D.stack) (n : Nat) :
    load_walk E n = load_walk D n := by
  induction n with
  | zero => rfl
  | succ m ih =>
    funext j
    simp only [load_walk, stack_get, hs, ih]

theorem step_load (D : duna_State) (o d f : Nat) (v : duna_Object)
    (hcap : D.code.length < 2 ^ 32) (hstk : D.stack.length < 2 ^ 32)
    (ho : o < 2 ^ 32) (hd : d < 2 ^ 32)
    (hcode : code_at D D.pc (DUNA_OP_LOAD :: le32 o ++ le32 d))
    (hchain : frame_chain D.stack D.fp d = some f)
    (hof : o ≤ f) (hv : D.stack[f - o]? = some v) :
    duna_step D = some { D with accum := v, pc := D.pc + 9 } := by
  have hstk1 : D.stack.length < 4294967296 := hstk
  have ho1 : o < 4294967296 := ho
  have hd1 : d < 4294967296 := hd
  have hlt := lt_of_getElem?_eq_some _ _ _ hv
  simp only [code_at_cons, code_at_nil, le32, List.cons_append, List.nil_append, Nat.add_assoc,
    and_true] at hcode
  norm_num at hcode
  obtain ⟨h0, h1, h2, h3, h4, h5, h6, h7, h8⟩ := hcode
  have e0 := pc_succ D _ hcap h0
  have e1 := pc_off D _ _ hcap h1
  have e2 := pc_off D _ _ hcap h2
  have e3 := pc_off D _ _ hcap h3
  have e4 := pc_off D _ _ hcap h4
  have e5 := pc_off D _ _ hcap h5
  have e6 := pc_off D _ _ hcap h6
  have e7 := pc_off D _ _ hcap h7
  have e8 := pc_off D _ _ hcap h8
  norm_num at e1 e2 e3 e4 e5 e6 e7 e8
  have hw : load_walk { D with pc := D.pc + 9 } d D.fp = some f := by
    rw [load_walk_congr D { D with pc := D.pc + 9 } rfl]; exact load_walk_chain D hstk d D.fp f hchain
  have es : sub32 f o = f - o := by
    unfold sub32; omega
  simp [duna_step, fetch, duna_exec, fetch_dword, h0, h1, h2, h3, h4, h5, h6, h7, h8, e0, e1, e2,
    e3, e4, e5, e6, e7, e8, dword_bytes, ho1, hd1, hw, stack_get, es, hv]

/-! ## The dump and the run loop -/

theorem dump_stack_congr (D E : duna_State) (hs : E.stack = D.stack) (n : Nat) :
    dump_stack E n = dump_stack D n := by
  induction n with
  | zero => rfl
  | succ m ih => simp only [dump_stack, stack_get, hs, ih]

theorem duna_dump_pc_isSome (D : duna_State) (q : Nat) (h : (duna_dump D).isSome) :
    (duna_dump { D with pc := q }).isSome := by
  unfold duna_dump at h ⊢
  rw [dump_stack_congr D { D with pc := q } rfl]
  simp only []
  cases ha : write_obj D.accum with
  | none => simp [ha] at h
  | some a =>
    cases hp : write_obj D.proc with
    | none => simp [ha, hp] at h
    | some p =>
      cases hs : dump_stack D D.sp with
      | none => simp [ha, hp, hs] at h
      | some st => simp

theorem duna_exec_unknown (b : Nat) (D : duna_State) (hb : b = 0 ∨ 35 < b) :
    duna_exec b D = some D := by
  unfold duna_exec
  split <;> first | omega | rfl

theorem duna_vm_run_ret (fuel : Nat) :
    ∀ (D : duna_State) (out : String) (r : Int), (duna_vm_run fuel D out).ret = some r → r = 1 := by
  induction fuel with
  | zero =>
    intro D out r h
    unfold duna_vm_run at h
    split at h
    · simp [duna_Run.ret] at h
    · simp [duna_Run.ret] at h; exact h.symm
  | succ n ih =>
    intro D out r h
    unfold duna_vm_run at h
    split at h
    · cases hs : duna_step D with
      | none => simp [hs, duna_Run.ret] at h
      | some D1 =>
        cases hd : duna_dump D1 with
        | none => simp [hs, hd, duna_Run.ret] at h
        | some t =>
          simp only [hs, hd] at h
          exact ih D1 (out ++ t) r h
    · simp [duna_Run.ret] at h; exact h.symm

theorem set_byte_bool (v : duna_Value) (b : Nat) (hb : b < 256) : (v.set_byte b).bool = some b := by
  cases v <;> simp [duna_Value.set_byte, duna_Value.bool, duna_Value.byte, u8] <;> omega

theorem step_not (D : duna_State) (b : Nat) (hcap : D.code.length < 2 ^ 32)
    (h : D.code[D.pc]? = some DUNA_OP_NOT) (hb : D.accum.value.bool = some b) :
    duna_step D = some (bool_result D (b = 0)) := by
  rw [duna_step_eq D _ hcap h]
  by_cases hc : b = 0 <;> simp [duna_exec, DUNA_SET_BOOL, bool_result, hc, hb]

theorem set_byte_twice (v : duna_Value) (b c : Nat) (hv : v.bool = some b) (hb : b < 256) :
    (v.set_byte c).set_byte b = v := by
  cases v with
  | gc p => simp [duna_Value.bool, duna_Value.byte] at hv
  | word w =>
    simp only [duna_Value.bool, duna_Value.byte, Option.some.injEq] at hv
    simp only [duna_Value.set_byte, u8, duna_Value.word.injEq]
    omega
  | mixed m =>
    simp only [duna_Value.bool, duna_Value.byte, Option.some.injEq] at hv
    simp only [duna_Value.set_byte, u8, duna_Value.mixed.injEq]
    omega

/-! ## What a step can change -/

theorem fetch_inv (D D1 : duna_State) (b : Nat) (h : fetch D = some (b, D1)) :
    D.code[D.pc]? = some b ∧ D1 = { D with pc := add32 D.pc 1 } := by
  unfold fetch at h
  cases hc : D.code[D.pc]? with
  | none => simp [hc] at h
  | some x =>
    simp only [hc, Option.some.injEq, Prod.mk.injEq] at h
    exact ⟨by rw [h.1], h.2.symm⟩

theorem fetch_dword_inv (D D1 : duna_State) (w : Nat) (h : fetch_dword D = some (w, D1)) :
    D1 = { D with pc := add32 (add32 (add32 (add32 D.pc 1) 1) 1) 1 } := by
  unfold fetch_dword at h
  cases h1 : fetch D with
  | none => simp [h1] at h
  | some p1 =>
    obtain ⟨b1, E1⟩ := p1
    cases h2 : fetch E1 with
    | none => simp [h1, h2] at h
    | some p2 =>
      obtain ⟨b2, E2⟩ := p2
      cases h3 : fetch E2 with
      | none => simp [h1, h2, h3] at h
      | some p3 =>
        obtain ⟨b3, E3⟩ := p3
        cases h4 : fetch E3 with
        | none => simp [h1, h2, h3, h4] at h
        | some p4 =>
          obtain ⟨b4, E4⟩ := p4
          simp only [h1, h2, h3, h4, Option.some.injEq, Prod.mk.injEq] at h
          have k1 := (fetch_inv _ _ _ h1).2
          have k2 := (fetch_inv _ _ _ h2).2
          have k3 := (fetch_inv _ _ _ h3).2
          have k4 := (fetch_inv _ _ _ h4).2
          subst k1; subst k2; subst k3
          rw [← h.2, k4]

theorem pop_inv (D D1 : duna_State) (o : duna_Object) (h : pop D = some (o, D1)) :
    D.stack[sub32 D.sp 1]? = some o ∧ D1 = { D with sp := sub32 D.sp 1 } := by
  unfold pop at h
  cases hc : D.stack[sub32 D.sp 1]? with
  | none => simp [hc] at h
  | some x =>
    simp only [hc, Option.some.injEq, Prod.mk.injEq] at h
    exact ⟨by rw [h.1], h.2.symm⟩

theorem push_inv (D D1 : duna_State) (o : duna_Object) (h : push D o = some D1) :
    D.sp < D.stack.length ∧ D1 = { D with stack := D.stack.set D.sp o, sp := add32 D.sp 1 } := by
  unfold push stack_set at h
  by_cases hlt : D.sp < D.stack.length
  · simp only [hlt, if_true, Option.some.injEq] at h
    exact ⟨hlt, h.symm⟩
  · simp [hlt] at h

theorem sub32_one_pos (a len : Nat) (ha : a < 2 ^ 32) (hlen : len < 2 ^ 32)
    (h : sub32 a 1 < len) : 1 ≤ a ∧ sub32 a 1 = a - 1 := by
  have ha1 : a < 4294967296 := ha
  have hlen1 : len < 4294967296 := hlen
  unfold sub32 at h ⊢
  omega

theorem DUNA_SET_BOOL_eq (c : Bool) (D : duna_State) :
    DUNA_SET_BOOL c D = { D with
      accum := { type := DUNA_TYPE_BOOL,
                 value := D.accum.value.set_byte (if c then 1 else 0) } } := by
  cases c <;> rfl

theorem sp_delta_same (op n : Nat)
    (h : op ≠ DUNA_OP_PUSH ∧ op ≠ DUNA_OP_SAVE_FP ∧ op ≠ DUNA_OP_SAVE_PROC ∧ op ≠ DUNA_OP_POP ∧
      op ≠ DUNA_OP_PLUS ∧ op ≠ DUNA_OP_MINUS ∧ op ≠ DUNA_OP_MULT ∧ op ≠ DUNA_OP_REST_FP ∧
      op ≠ DUNA_OP_RETURN) : sp_delta op n = 0 := by
  obtain ⟨h1, h2, h3, h4, h5, h6, h7, h8, h9⟩ := h
  simp [sp_delta, h1, h2, h3, h4, h5, h6, h7, h8, h9]

theorem operand_length_zero (op : Nat)
    (h : op ≠ DUNA_OP_LOAD_FIXNUM ∧ op ≠ DUNA_OP_LOAD_CHAR ∧ op ≠ DUNA_OP_LOAD) :
    operand_length op = 0 := by
  obtain ⟨h1, h2, h3⟩ := h
  simp [operand_length, h1, h2, h3]

theorem add32_four (p : Nat) (h : p + 8 < 2 ^ 32) :
    add32 (add32 (add32 (add32 p 1) 1) 1) 1 = p + 4 := by
  have h1 : p + 8 < 4294967296 := h
  unfold add32; omega

theorem add32_eight (p : Nat) (h : p + 8 < 2 ^ 32) :
    add32 (add32 (add32 (add32 (add32 (add32 (add32 (add32 p 1) 1) 1) 1) 1) 1) 1) 1 = p + 8 := by
  have h1 : p + 8 < 4294967296 := h
  unfold add32; omega

/-- Everything a `switch` case can do to `code`, `code_size`, `sp` and `pc`. -/
theorem exec_effect (op : Nat) (D D' : duna_State) (h : duna_exec op D = some D') :
    D'.code = D.code ∧ D'.code_size = D.code_size ∧
    (∀ n, D.stack.length < 2 ^ 32 → D.sp < 2 ^ 32 →
      (op = DUNA_OP_POP →
        (D.stack[D.sp - 1]?).bind (fun o => o.value.fixnum) = some n ∧ n + 1 ≤ D.sp) →
      (D'.sp : Int) = (D.sp : Int) + sp_delta op n) ∧
    (op ≠ DUNA_OP_MAKE_CLOSURE → op ≠ DUNA_OP_CALL → op ≠ DUNA_OP_RETURN → D.pc + 8 < 2 ^ 32 →
      D'.pc = D.pc + operand_length op) := by
  unfold duna_exec at h
  split at h
  · cases h
    exact ⟨rfl, rfl, fun n _ _ _ => by simp [sp_delta_same 1 n (by decide)],
      fun _ _ _ _ => by simp [operand_length_zero 1 (by decide)]⟩
  · cases h
    exact ⟨rfl, rfl, fun n _ _ _ => by simp [sp_delta_same 2 n (by decide)],
      fun _ _ _ _ => by simp [operand_length_zero 2 (by decide)]⟩
  · cases h
    exact ⟨rfl, rfl, fun n _ _ _ => by simp [sp_delta_same 3 n (by decide)],
      fun _ _ _ _ => by simp [operand_length_zero 3 (by decide)]⟩
  · cases h
    exact ⟨rfl, rfl, fun n _ _ _ => by simp [sp_delta_same 4 n (by decide)],
      fun _ _ _ _ => by simp [operand_length_zero 4 (by decide)]⟩
  · cases h
    exact ⟨rfl, rfl, fun n _ _ _ => by simp [sp_delta_same 5 n (by decide)],
      fun _ _ _ _ => by simp [operand_length_zero 5 (by decide)]⟩
  · split at h
    · cases h
    · rename_i w D1 hf
      cases h
      have hd := fetch_dword_inv _ _ _ hf
      subst hd
      exact ⟨rfl, rfl, fun n _ _ _ => by simp [sp_delta_same 6 n (by decide)],
        fun _ _ _ hp => by simp [operand_length, DUNA_OP_LOAD_FIXNUM, add32_four _ hp]⟩
  · split at h
    · cases h
    · rename_i b D1 hf
      cases h
      have hd := (fetch_inv _ _ _ hf).2
      subst hd
      refine ⟨rfl, rfl, fun n _ _ _ => by simp [sp_delta_same 7 n (by decide)], fun _ _ _ hp => ?_⟩
      have hp1 : D.pc + 8 < 4294967296 := hp
      simp only [operand_length, DUNA_OP_LOAD_FIXNUM, DUNA_OP_LOAD_CHAR, add32]
      norm_num
      omega
  · split at h
    · cases h
    · cases h
      exact ⟨rfl, rfl, fun n _ _ _ => by simp [sp_delta_same 8 n (by decide)],
        fun _ _ _ _ => by simp [operand_length_zero 8 (by decide)]⟩
  · split at h
    · cases h
    · cases h
      exact ⟨rfl, rfl, fun n _ _ _ => by simp [sp_delta_same 9 n (by decide)],
        fun _ _ _ _ => by simp [operand_length_zero 9 (by decide)]⟩
  · split at h
    · cases h
    · cases h
      exact ⟨rfl, rfl, fun n _ _ _ => by simp [sp_delta_same 10 n (by decide)],
        fun _ _ _ _ => by simp [operand_length_zero 10 (by decide)]⟩
  · split at h
    · cases h
    · cases h
      exact ⟨rfl, rfl, fun n _ _ _ => by simp [sp_delta_same 11 n (by decide)],
        fun _ _ _ _ => by simp [operand_length_zero 11 (by decide)]⟩
  · rw [DUNA_SET_BOOL_eq] at h
    cases h
    exact ⟨rfl, rfl, fun n _ _ _ => by simp [sp_delta_same 12 n (by decide)],
      fun _ _ _ _ => by simp [operand_length_zero 12 (by decide)]⟩
  · split at h
    · cases h
    · rw [DUNA_SET_BOOL_eq] at h
      cases h
      exact ⟨rfl, rfl, fun n _ _ _ => by simp [sp_delta_same 13 n (by decide)],
        fun _ _ _ _ => by simp [operand_length_zero 13 (by decide)]⟩
  · split at h
    · cases h
    · rw [DUNA_SET_BOOL_eq] at h
      cases h
      exact ⟨rfl, rfl, fun n _ _ _ => by simp [sp_delta_same 14 n (by decide)],
        fun _ _ _ _ => by simp [operand_length_zero 14 (by decide)]⟩
  · rw [DUNA_SET_BOOL_eq] at h
    cases h
    exact ⟨rfl, rfl, fun n _ _ _ => by simp [sp_delta_same 15 n (by decide)],
      fun _ _ _ _ => by simp [operand_length_zero 15 (by decide)]⟩
  · rw [DUNA_SET_BOOL_eq] at h
    cases h
    exact ⟨rfl, rfl, fun n _ _ _ => by simp [sp_delta_same 16 n (by decide)],
      fun _ _ _ _ => by simp [operand_length_zero 16 (by decide)]⟩
  · rw [DUNA_SET_BOOL_eq] at h
    cases h
    exact ⟨rfl, rfl, fun n _ _ _ => by simp [sp_delta_same 17 n (by decide)],
      fun _ _ _ _ => by simp [operand_length_zero 17 (by decide)]⟩
  · obtain ⟨hlt, hd⟩ := push_inv _ _ _ h
    subst hd
    refine ⟨rfl, rfl, fun n hstk _ _ => ?_,
      fun _ _ _ _ => by simp [operand_length_zero 18 (by decide)]⟩
    have hstk1 : D.stack.length < 4294967296 := hstk
    have e : add32 D.sp 1 = D.sp + 1 := add32_eq _ _ (by omega)
    simp [sp_delta, DUNA_OP_PUSH, e]
  · split at h
    · cases h
    · rename_i o D1 hp
      obtain ⟨ho, hd⟩ := pop_inv _ _ _ hp
      subst hd
      split at h
      · cases h
      · rename_i dw1 hfix
        cases h
        refine ⟨rfl, rfl, fun n hstk hsp hpop => ?_,
          fun _ _ _ _ => by simp [operand_length_zero 19 (by decide)]⟩
        obtain ⟨hn, hle⟩ := hpop rfl
        have hstk1 : D.stack.length < 4294967296 := hstk
        obtain ⟨h1, e1⟩ := sub32_one_pos _ _ hsp hstk (lt_of_getElem?_eq_some _ _ _ ho)
        rw [e1] at ho
        simp only [ho, Option.bind_eq_bind, Option.some_bind, hfix, Option.some.injEq] at hn
        subst hn
        have e2 : sub32 (D.sp - 1) dw1 = D.sp - 1 - dw1 := sub32_eq _ _ (by omega) (by omega)
        simp only [sp_delta, DUNA_OP_PUSH, DUNA_OP_SAVE_FP, DUNA_OP_SAVE_PROC, DUNA_OP_POP,
          DUNA_OP_PLUS, DUNA_OP_MINUS, DUNA_OP_MULT, DUNA_OP_REST_FP, DUNA_OP_RETURN, e1, e2]
        norm_num
        omega
  · split at h
    · cases h
    · rename_i o D1 hp
      obtain ⟨ho, hd⟩ := pop_inv _ _ _ hp
      subst hd
      split at h
      · cases h
        refine ⟨rfl, rfl, fun n hstk hsp _ => ?_,
          fun _ _ _ _ => by simp [operand_length_zero 20 (by decide)]⟩
        obtain ⟨h1, e1⟩ := sub32_one_pos _ _ hsp hstk (lt_of_getElem?_eq_some _ _ _ ho)
        simp only [sp_delta, DUNA_OP_PUSH, DUNA_OP_SAVE_FP, DUNA_OP_SAVE_PROC, DUNA_OP_POP,
          DUNA_OP_PLUS, DUNA_OP_MINUS, DUNA_OP_MULT, DUNA_OP_REST_FP, DUNA_OP_RETURN, e1]
        norm_num
        omega
      · cases h
  · split at h
    · cases h
    · rename_i o D1 hp
      obtain ⟨ho, hd⟩ := pop_inv _ _ _ hp
      subst hd
      split at h
      · cases h
        refine ⟨rfl, rfl, fun n hstk hsp _ => ?_,
          fun _ _ _ _ => by simp [operand_length_zero 21 (by decide)]⟩
        obtain ⟨h1, e1⟩ := sub32_one_pos _ _ hsp hstk (lt_of_getElem?_eq_some _ _ _ ho)
        simp only [sp_delta, DUNA_OP_PUSH, DUNA_OP_SAVE_FP, DUNA_OP_SAVE_PROC, DUNA_OP_POP,
          DUNA_OP_PLUS, DUNA_OP_MINUS, DUNA_OP_MULT, DUNA_OP_REST_FP, DUNA_OP_RETURN, e1]
        norm_num
        omega
      · cases h
  · split at h
    · cases h
    · rename_i o D1 hp
      obtain ⟨ho, hd⟩ := pop_inv _ _ _ hp
      subst hd
      split at h
      · cases h
        refine ⟨rfl, rfl, fun n hstk hsp _ => ?_,
          fun _ _ _ _ => by simp [operand_length_zero 22 (by decide)]⟩
        obtain ⟨h1, e1⟩ := sub32_one_pos _ _ hsp hstk (lt_of_getElem?_eq_some _ _ _ ho)
        simp only [sp_delta, DUNA_OP_PUSH, DUNA_OP_SAVE_FP, DUNA_OP_SAVE_PROC, DUNA_OP_POP,
          DUNA_OP_PLUS, DUNA_OP_MINUS, DUNA_OP_MULT, DUNA_OP_REST_FP, DUNA_OP_RETURN, e1]
        norm_num
        omega
      · cases h
  · split at h
    · cases h
    · cases h
      exact ⟨rfl, rfl, fun n _ _ _ => by simp [sp_delta_same 23 n (by decide)],
        fun _ _ _ _ => by simp [operand_length_zero 23 (by decide)]⟩
  · split at h
    · cases h
    · cases h
      exact ⟨rfl, rfl, fun n _ _ _ => by simp [sp_delta_same 24 n (by decide)],
        fun _ _ _ _ => by simp [operand_length_zero 24 (by decide)]⟩
  · split at h
    · cases h
    · cases h
      exact ⟨rfl, rfl, fun n _ _ _ => by simp [sp_delta_same 25 n (by decide)],
        fun _ _ _ _ => by simp [operand_length_zero 25 (by decide)]⟩
  · split at h
    · cases h
    · cases h
      exact ⟨rfl, rfl, fun n _ _ _ => by simp [sp_delta_same 26 n (by decide)],
        fun _ _ _ _ => by simp [operand_length_zero 26 (by decide)]⟩
  · split at h
    · cases h
    · rename_i w1 D1 hf1
      split at h
      · cases h
      · rename_i w2 D2 hf2
        have hd1 := fetch_dword_inv _ _ _ hf1
        subst hd1
        have hd2 := fetch_dword_inv _ _ _ hf2
        subst hd2
        split at h
        · cases h
        · split at h
          · cases h
          · cases h
            exact ⟨rfl, rfl, fun n _ _ _ => by simp [sp_delta_same 27 n (by decide)],
              fun _ _ _ hp => by
                simp [operand_length, DUNA_OP_LOAD_FIXNUM, DUNA_OP_LOAD_CHAR, DUNA_OP_LOAD,
                  add32_eight _ hp]⟩
  · cases h
    exact ⟨rfl, rfl, fun n _ _ _ => by simp [sp_delta_same 28 n (by decide)],
      fun _ _ _ _ => by simp [operand_length_zero 28 (by decide)]⟩
  · split at h
    · cases h
    · rename_i o ho
      unfold stack_set at h
      simp only [stack_get] at ho
      have hlt := lt_of_getElem?_eq_some _ _ _ ho
      simp only [hlt, if_true] at h
      cases h
      refine ⟨rfl, rfl, fun n hstk _ _ => ?_,
        fun _ _ _ _ => by simp [operand_length_zero 29 (by decide)]⟩
      have hstk1 : D.stack.length < 4294967296 := hstk
      have e : add32 D.sp 1 = D.sp + 1 := add32_eq _ _ (by omega)
      simp [sp_delta, DUNA_OP_PUSH, DUNA_OP_SAVE_FP, e]
  · split at h
    · cases h
    · rename_i o D1 hp
      obtain ⟨ho, hd⟩ := pop_inv _ _ _ hp
      subst hd
      split at h
      · cases h
      · cases h
        refine ⟨rfl, rfl, fun n hstk hsp _ => ?_,
          fun _ _ _ _ => by simp [operand_length_zero 30 (by decide)]⟩
        obtain ⟨h1, e1⟩ := sub32_one_pos _ _ hsp hstk (lt_of_getElem?_eq_some _ _ _ ho)
        simp only [sp_delta, DUNA_OP_PUSH, DUNA_OP_SAVE_FP, DUNA_OP_SAVE_PROC, DUNA_OP_POP,
          DUNA_OP_PLUS, DUNA_OP_MINUS, DUNA_OP_MULT, DUNA_OP_REST_FP, DUNA_OP_RETURN, e1]
        norm_num
        omega
  · split at h
    · cases h
    · rename_i w D1 hf
      cases h
      have hd := fetch_dword_inv _ _ _ hf
      subst hd
      exact ⟨rfl, rfl, fun n _ _ _ => by simp [sp_delta_same 31 n (by decide)], fun hc _ _ _ => absurd rfl hc⟩
  · split at h
    · cases h
    · cases h
      exact ⟨rfl, rfl, fun n _ _ _ => by simp [sp_delta_same 32 n (by decide)], fun _ hc _ _ => absurd rfl hc⟩
  · split at h
    · cases h
    · rename_i o D1 hp
      obtain ⟨ho, hd⟩ := pop_inv _ _ _ hp
      subst hd
      split at h
      · cases h
      · split at h
        · cases h
        · rename_i p D2 hp2
          obtain ⟨ho2, hd2⟩ := pop_inv _ _ _ hp2
          subst hd2
          cases h
          refine ⟨rfl, rfl, fun n hstk hsp _ => ?_, fun _ _ hc _ => absurd rfl hc⟩
          have hstk1 : D.stack.length < 4294967296 := hstk
          have hsp1 : D.sp < 4294967296 := hsp
          obtain ⟨h1, e1⟩ := sub32_one_pos _ _ hsp hstk (lt_of_getElem?_eq_some _ _ _ ho)
          simp only [e1] at ho2
          have hsp2 : D.sp - 1 < 2 ^ 32 := by norm_num; omega
          obtain ⟨h2, e2⟩ := sub32_one_pos (D.sp - 1) _ hsp2 hstk
            (lt_of_getElem?_eq_some _ _ _ ho2)
          simp only [sp_delta, DUNA_OP_PUSH, DUNA_OP_SAVE_FP, DUNA_OP_SAVE_PROC, DUNA_OP_POP,
            DUNA_OP_PLUS, DUNA_OP_MINUS, DUNA_OP_MULT, DUNA_OP_REST_FP, DUNA_OP_RETURN, e1, e2]
          norm_num
          omega
  · obtain ⟨hlt, hd⟩ := push_inv _ _ _ h
    subst hd
    refine ⟨rfl, rfl, fun n hstk _ _ => ?_,
      fun _ _ _ _ => by simp [operand_length_zero 34 (by decide)]⟩
    have hstk1 : D.stack.length < 4294967296 := hstk
    have e : add32 D.sp 1 = D.sp + 1 := add32_eq _ _ (by omega)
    simp [sp_delta, DUNA_OP_PUSH, DUNA_OP_SAVE_FP, DUNA_OP_SAVE_PROC, e]
  · cases h
    exact ⟨rfl, rfl, fun n _ _ _ => by simp [sp_delta_same 35 n (by decide)],
      fun _ _ _ _ => by simp [operand_length_zero 35 (by decide)]⟩
  · rename_i h1 h2 h3 h4 h5 h6 h7 h8 h9 h10 h11 h12 h13 h14 h15 h16 h17 h18 h19 h20 h21 h22
      h23 h24 h25 h26 h27 h28 h29 h30 h31 h32 h33 h34 h35
    cases h
    exact ⟨rfl, rfl,
      fun n _ _ _ => by
        simp [sp_delta_same _ n ⟨h18, h29, h34, h19, h20, h21, h22, h30, h33⟩],
      fun _ _ _ _ => by simp [operand_length_zero _ ⟨h6, h7, h27⟩]⟩

theorem duna_step_inv (D D' : duna_State) (h : duna_step D = some D') :
    ∃ op, D.code[D.pc]? = some op ∧ duna_exec op { D with pc := add32 D.pc 1 } = some D' := by
  unfold duna_step at h
  split at h
  · cases h
  · rename_i op D1 hf
    obtain ⟨hop, hd⟩ := fetch_inv _ _ _ hf
    subst hd
    exact ⟨op, hop, h⟩

theorem step_pc (D D' : duna_State) (op : Nat) (hop : D.code[D.pc]? = some op)
    (hstep : duna_step D = some D') (h1 : op ≠ DUNA_OP_MAKE_CLOSURE) (h2 : op ≠ DUNA_OP_CALL)
    (h3 : op ≠ DUNA_OP_RETURN) (hpc : D.pc + 9 < 2 ^ 32) :
    D'.pc = D.pc + 1 + operand_length op ∧ D'.code = D.code ∧ D'.code_size = D.code_size := by
  obtain ⟨op1, hop1, hex⟩ := duna_step_inv D D' hstep
  rw [hop] at hop1
  cases hop1
  have hpc1 : D.pc + 9 < 4294967296 := hpc
  have e : add32 D.pc 1 = D.pc + 1 := add32_eq _ _ (by omega)
  rw [e] at hex
  obtain ⟨hc, hs, _, hp⟩ := exec_effect op _ D' hex
  refine ⟨hp h1 h2 h3 ?_, hc, hs⟩
  show D.pc + 1 + 8 < 2 ^ 32
  norm_num
  omega

theorem run_past_end (fuel : Nat) (D : duna_State) (out : String) (h : D.code_size ≤ D.pc) :
    duna_vm_run fuel D out = duna_Run.returned 1 D out := by
  have hn : ¬ D.pc < D.code_size := by omega
  cases fuel <;> simp [duna_vm_run, hn]

theorem run_jump_free (fuel : Nat) :
    ∀ (D : duna_State) (out : String), D.code_size + 8 < 2 ^ 32 →
      D.code_size - D.pc ≤ fuel → jump_free fuel D = true →
      duna_vm_run fuel D out ≠ duna_Run.undefined →
      ∃ D' out', duna_vm_run fuel D out = duna_Run.returned 1 D' out' ∧
        D'.code_size ≤ D'.pc := by
  induction fuel with
  | zero =>
    intro D out _ hle _ _
    exact ⟨D, out, run_past_end 0 D out (by omega), by omega⟩
  | succ n ih =>
    intro D out hsz hle hjf hdef
    by_cases hlt : D.pc < D.code_size
    · have hsz1 : D.code_size + 8 < 4294967296 := hsz
      rw [duna_vm_run] at hdef ⊢
      simp only [hlt, if_true] at hdef ⊢
      cases hs : duna_step D with
      | none => simp [hs] at hdef
      | some D1 =>
        simp only [hs] at hdef ⊢
        cases hd : duna_dump D1 with
        | none => simp [hd] at hdef
        | some t =>
          simp only [hd] at hdef ⊢
          obtain ⟨op, hop, _⟩ := duna_step_inv D D1 hs
          simp only [jump_free, hlt, if_true, hop, hs, Bool.and_eq_true, bne_iff_ne] at hjf
          obtain ⟨⟨⟨j1, j2⟩, j3⟩, hjn⟩ := hjf
          obtain ⟨hpc, _, hcs⟩ := step_pc D D1 op hop hs j1 j2 j3 (by norm_num; omega)
          exact ih D1 (out ++ t) (by rw [hcs]; exact hsz) (by rw [hcs, hpc]; omega) hjn hdef
    · exact ⟨D, out, run_past_end (n + 1) D out (by omega), by omega⟩

theorem list_set_self {α : Type} (l : List α) (m : Nat) (a : α) (h : l[m]? = some a) :
    l.set m a = l := by
  apply List.ext_getElem?
  intro i
  by_cases hi : m = i
  · subst hi
    rw [List.getElem?_set_self (lt_of_getElem?_eq_some _ _ _ h), h]
  · rw [List.getElem?_set_ne hi]

theorem write_obj_proc_eq (obj : duna_Object) :
    write_obj_proc obj = (write_obj obj).map (fun t => (t, obj)) := by
  unfold write_obj_proc write_obj
  split
  · rfl
  · cases obj.value.bool with
    | none => rfl
    | some b => by_cases hb : b ≠ 0 <;> simp [hb]
  · cases obj.value.fixnum <;> rfl
  · cases obj.value.chr <;> rfl
  · cases obj.value.deref <;> rfl
  · rfl

theorem dump_stack_proc_eq (D : duna_State) (n : Nat) :
    dump_stack_proc D n = (dump_stack D n).map (fun t => (t, D)) := by
  induction n with
  | zero => rfl
  | succ m ih =>
    simp only [dump_stack_proc, dump_stack, ih]
    cases dump_stack D m with
    | none => rfl
    | some out =>
      simp only [Option.map_some']
      cases hg : stack_get D m with
      | none => rfl
      | some o =>
        simp only [write_obj_proc_eq]
        cases write_obj o with
        | none => rfl
        | some t =>
          simp only [Option.map_some', Option.some.injEq, Prod.mk.injEq, true_and]
          have hs : D.stack.set m o = D.stack := list_set_self _ _ _ hg
          rw [hs]

theorem duna_dump_proc_eq (D : duna_State) :
    duna_dump_proc D = (duna_dump D).map (fun t => (t, D)) := by
  unfold duna_dump_proc duna_dump
  simp only [write_obj_proc_eq]
  cases write_obj D.accum with
  | none => rfl
  | some a =>
    cases write_obj D.proc with
    | none => rfl
    | some p =>
      simp only [Option.map_some', dump_stack_proc_eq]
      have e : dump_stack { D with accum := D.accum, proc := D.proc } D.sp = dump_stack D D.sp := rfl
      rw [e]
      cases dump_stack D D.sp with
      | none => rfl
      | some st => rfl

theorem duna_vm_run_proc_eq (fuel : Nat) :
    ∀ (D : duna_State) (out : String), duna_vm_run_proc fuel D out = duna_vm_run fuel D out := by
  induction fuel with
  | zero => intro D out; rfl
  | succ n ih =>
    intro D out
    simp only [duna_vm_run_proc, duna_vm_run, duna_dump_proc_eq]
    split
    · cases duna_step D with
      | none => rfl
      | some D1 =>
        simp only []
        cases hd : duna_dump D1 with
        | none => rfl
        | some t => simp only [Option.map_some']; exact ih D1 (out ++ t)
    · rfl

theorem printf_d_small (n : Nat) (h : n < 2 ^ 31) : printf_d n = toString n := by
  have h1 : n < 2147483648 := h
  have e : n % 4294967296 = n := Nat.mod_eq_of_lt (by omega)
  simp [printf_d, u32, e, h1]

theorem printf_d_large (n : Nat) (h : 2 ^ 31 ≤ n) (h2 : n < 2 ^ 32) :
    printf_d n = "-" ++ toString (2 ^ 32 - n) := by
  have h1 : 2147483648 ≤ n := h
  have h3 : n < 4294967296 := h2
  have e : n % 4294967296 = n := Nat.mod_eq_of_lt h3
  have hn : ¬ n < 2147483648 := by omega
  simp [printf_d, u32, e, hn]

/-! ## The host API -/

theorem int_of_u32_small (x : Nat) (h : x < 2 ^ 31) : int_of_u32 x = (x : Int) := by
  have h1 : x < 2147483648 := h
  have e : x % 4294967296 = x := Nat.mod_eq_of_lt (by omega)
  simp [int_of_u32, e, h1]

theorem int_of_u32_large (x : Nat) (h1 : 2 ^ 31 ≤ x) (h2 : x < 2 ^ 32) :
    int_of_u32 x = (x : Int) - 4294967296 := by
  have h3 : 2147483648 ≤ x := h1
  have h4 : x < 4294967296 := h2
  have e : x % 4294967296 = x := Nat.mod_eq_of_lt h4
  have hn : ¬ x < 2147483648 := by omega
  simp [int_of_u32, e, hn]

theorem calc_index_raw_neg (S : sly_state) (idx : Int) (hsp : S.sp < 2 ^ 31)
    (h0 : idx < 0) (hlo : -2 ^ 31 ≤ idx) : calc_index_raw S idx = (S.sp : Int) + idx := by
  have hsp1 : S.sp < 2147483648 := hsp
  have hlo1 : -2147483648 ≤ idx := by simpa using hlo
  simp only [calc_index_raw, h0, if_true]
  have hu : u32_of_int idx = (idx + 4294967296).toNat := by
    unfold u32_of_int
    congr 1
    omega
  rw [hu]
  by_cases hs : 0 ≤ (S.sp : Int) + idx
  · have e : add32 S.sp (idx + 4294967296).toNat = ((S.sp : Int) + idx).toNat := by
      unfold add32; omega
    rw [e, int_of_u32_small _ (by norm_num; omega)]
    omega
  · have e : add32 S.sp (idx + 4294967296).toNat = ((S.sp : Int) + idx + 4294967296).toNat := by
      unfold add32; omega
    rw [e, int_of_u32_large _ (by norm_num; omega) (by norm_num; omega)]
    omega

theorem calc_index_raw_nonneg (S : sly_state) (idx : Int) (hfp : S.fp < 2 ^ 31)
    (h0 : 0 ≤ idx) (hhi : idx < 2 ^ 31) :
    (idx + S.fp + 1 < 2 ^ 31 → calc_index_raw S idx = (S.fp : Int) + 1 + idx) ∧
    (2 ^ 31 ≤ idx + S.fp + 1 → calc_index_raw S idx < 0) := by
  have hfp1 : S.fp < 2147483648 := hfp
  have hhi1 : idx < 2147483648 := by simpa using hhi
  have hn : ¬ idx < 0 := by omega
  simp only [calc_index_raw, hn, if_false]
  have hu : u32_of_int idx = idx.toNat := by
    unfold u32_of_int
    congr 1
    omega
  have e : add32 idx.toNat (add32 S.fp 1) = (idx + S.fp + 1).toNat := by
    unfold add32; omega
  rw [hu, e]
  constructor
  · intro h
    have h1 : idx + S.fp + 1 < 2147483648 := by simpa using h
    rw [int_of_u32_small _ (by norm_num; omega)]
    omega
  · intro h
    have h1 : 2147483648 ≤ idx + S.fp + 1 := by simpa using h
    rw [int_of_u32_large _ (by norm_num; omega) (by norm_num; omega)]
    omega

theorem sly_get_top_eq (S : sly_state) (hfp : S.fp < S.sp) (hsp : S.sp < 2 ^ 31) :
    sly_get_top S = (S.sp : Int) - (S.fp : Int) - 1 := by
  have hsp1 : S.sp < 2147483648 := hsp
  have e : sub32 (sub32 S.sp S.fp) 1 = S.sp - S.fp - 1 := by
    unfold sub32; omega
  unfold sly_get_top
  rw [e, int_of_u32_small _ (by norm_num; omega)]
  omega

theorem calc_index_check (S : sly_state) (idx : Int) (hfp : S.fp < S.sp) (hsp : S.sp < 2 ^ 31)
    (hlo : -2 ^ 31 ≤ idx) (hhi : idx < 2 ^ 31) :
    ((calc_index_raw S idx > int_of_u32 S.fp ∧ calc_index_raw S idx < int_of_u32 S.sp) ↔
      (-((S.sp : Int) - (S.fp : Int) - 1) ≤ idx ∧ idx < (S.sp : Int) - (S.fp : Int) - 1)) ∧
    ((-((S.sp : Int) - (S.fp : Int) - 1) ≤ idx ∧ idx < (S.sp : Int) - (S.fp : Int) - 1) →
      calc_index_raw S idx = if idx < 0 then (S.sp : Int) + idx else (S.fp : Int) + 1 + idx) := by
  have hsp1 : S.sp < 2147483648 := hsp
  have hfp1 : S.fp < 2 ^ 31 := by norm_num; omega
  rw [int_of_u32_small _ hfp1, int_of_u32_small _ hsp]
  by_cases h0 : idx < 0
  · rw [calc_index_raw_neg S idx hsp h0 hlo]
    simp only [h0, if_true]
    constructor
    · constructor <;> intro h <;> omega
    · intro _; trivial
  · have h0' : 0 ≤ idx := by omega
    obtain ⟨ha, hb⟩ := calc_index_raw_nonneg S idx hfp1 h0' hhi
    simp only [h0, if_false]
    by_cases hw : idx + S.fp + 1 < 2 ^ 31
    · rw [ha hw]
      constructor
      · constructor <;> intro h <;> omega
      · intro _; trivial
    · have hw1 : (2 : Int) ^ 31 ≤ idx + S.fp + 1 := by omega
      have hneg := hb hw1
      have hw2 : (2147483648 : Int) ≤ idx + S.fp + 1 := by simpa using hw1
      constructor
      · constructor <;> intro h <;> omega
      · intro h; omega

theorem calc_index_ok (fuel : Nat) (S : sly_state) (idx : Int)
    (h : calc_index_raw S idx > int_of_u32 S.fp ∧ calc_index_raw S idx < int_of_u32 S.sp) :
    calc_index fuel S idx = sly_Outcome.returned (calc_index_raw S idx) S := by
  cases fuel <;> simp [calc_index, h]

theorem calc_index_bad (fuel : Nat) (S : sly_state) (idx : Int)
    (h : ¬ (calc_index_raw S idx > int_of_u32 S.fp ∧ calc_index_raw S idx < int_of_u32 S.sp)) :
    (∀ a S', calc_index fuel S idx ≠ sly_Outcome.returned a S') ∧
    (S.fp < S.sp → S.sp + 1 < 2 ^ 31 → S.sp < S.stack.length →
      calc_index (fuel + 1) S idx = sly_Outcome.aborted
        [{ type := sly_type.SLY_TYPE_STRING, value := sly_value.gc "index out of range" }]) := by
  constructor
  · intro a S'
    cases fuel with
    | zero => simp [calc_index, h]
    | succ n =>
      simp only [calc_index, h, not_false_eq_true, if_true]
      cases hp : sly_push_string S "index out of range" with
      | none => simp
      | some S1 =>
        simp only [sly_error_with]
        split
        · split <;> simp
        · simp
  · intro hfp hsp hroom
    have hsp1 : S.sp + 1 < 2147483648 := hsp
    have e1 : add32 S.sp 1 = S.sp + 1 := add32_eq _ _ (by omega)
    have hi : int_of_u32 (S.sp + 1) = (S.sp : Int) + 1 := by
      rw [int_of_u32_small _ hsp]; omega
    have hfi : int_of_u32 S.fp = (S.fp : Int) := int_of_u32_small _ (by norm_num; omega)
    have hlt : (1 : Int) < (S.sp : Int) + 1 := by omega
    simp only [calc_index, h, not_false_eq_true, if_true, sly_push_string, hroom, e1,
      sly_error_with, hi, hlt, and_self, Int.toNat_one, Nat.lt_one_iff, zero_lt_one, true_and]
    have hraw : calc_index_raw
        { S with
          stack := S.stack.set S.sp
            { type := sly_type.SLY_TYPE_STRING, value := sly_value.gc "index out of range" },
          sp := S.sp + 1 } (-1) = (S.sp : Int) := by
      rw [calc_index_raw_neg _ _ hsp (by omega) (by norm_num)]
      show ((S.sp + 1 : Nat) : Int) + -1 = S.sp
      omega
    have hci := calc_index_ok fuel
      { S with
        stack := S.stack.set S.sp
          { type := sly_type.SLY_TYPE_STRING, value := sly_value.gc "index out of range" },
        sp := S.sp + 1 } (-1) (by rw [hraw, hi, hfi]; omega)
    rw [hraw] at hci
    have hn : ¬ ((S.sp : Int) < 0) := by omega
    simp [sly_error_loop, sly_display_with, hci, hn, List.getElem?_set_self hroom]

theorem calc_index_returns (S : sly_state) (idx : Int) (hfp : S.fp < S.sp)
    (hsp : S.sp < 2 ^ 31)
    (hv : -(sly_get_top S) ≤ idx ∧ idx < sly_get_top S) :
    (∀ fuel, calc_index fuel S idx = sly_Outcome.returned (sly_slot S idx) S) ∧
    (S.fp : Int) < sly_slot S idx ∧ sly_slot S idx < (S.sp : Int) := by
  have hsp1 : S.sp < 2147483648 := hsp
  rw [sly_get_top_eq S hfp hsp] at hv
  obtain ⟨hiff, hval⟩ := calc_index_check S idx hfp hsp (by norm_num; omega) (by norm_num; omega)
  have hraw := hval hv
  have hchk := hiff.mpr hv
  refine ⟨fun fuel => ?_, ?_, ?_⟩
  · rw [calc_index_ok fuel S idx hchk, hraw]; rfl
  · unfold sly_slot; split <;> omega
  · unfold sly_slot; split <;> omega

theorem sly_arith_eq (f : Nat → Nat → Nat) (fuel : Nat) (S : sly_state) (idx1 idx2 : Int)
    (a b : Nat) (hfp : S.fp < S.sp) (hsp : S.sp + 1 < 2 ^ 31) (hroom : S.sp < S.stack.length)
    (h1 : -(sly_get_top S) ≤ idx1 ∧ idx1 < sly_get_top S)
    (h2 : -(sly_get_top S) ≤ idx2 ∧ idx2 < sly_get_top S)
    (ha : S.stack[(sly_slot S idx1).toNat]? = some (sly_Fixnum a))
    (hb : S.stack[(sly_slot S idx2).toNat]? = some (sly_Fixnum b)) :
    sly_arith f fuel S idx1 idx2 = sly_Outcome.returned ()
      { S with stack := S.stack.set S.sp (sly_Fixnum (f a b % 2 ^ 32)), sp := S.sp + 1 } := by
  have hsp1 : S.sp + 1 < 2147483648 := hsp
  have hsp2 : S.sp < 2 ^ 31 := by norm_num; omega
  obtain ⟨c1, p1, q1⟩ := calc_index_returns S idx1 hfp hsp2 h1
  obtain ⟨c2, p2, q2⟩ := calc_index_returns S idx2 hfp hsp2 h2
  have n1 : ¬ sly_slot S idx1 < 0 := by omega
  have n2 : ¬ sly_slot S idx2 < 0 := by omega
  have e1 : add32 S.sp 1 = S.sp + 1 := add32_eq _ _ (by omega)
  simp [sly_arith, c1 fuel, c2 fuel, sly_fixnum_at, n1, n2, ha, hb, sly_Fixnum,
    sly_value.fixnum, sly_push_integer, hroom, e1, u32]

theorem run_last_step (D D' : duna_State) (hpc : D.pc < D.code_size)
    (hs : duna_step D = some D') (hend : D'.code_size ≤ D'.pc) (fuel : Nat) (out : String) :
    duna_vm_run (fuel + 1) D out
      = match duna_dump D' with
        | none => duna_Run.undefined
        | some t => duna_Run.returned 1 D' (out ++ t) := by
  rw [duna_vm_run]
  simp only [hpc, if_true, hs]
  cases hd : duna_dump D' with
  | none => rfl
  | some t =>
    simp only []
    exact run_past_end fuel _ _ hend

/-! ## When a step is defined -/

theorem pop_some (D : duna_State) (o : duna_Object) (hsp : D.sp < 2 ^ 32) (h1 : 1 ≤ D.sp)
    (ho : D.stack[D.sp - 1]? = some o) : pop D = some (o, { D with sp := D.sp - 1 }) := by
  have hsp1 : D.sp < 4294967296 := hsp
  have e : sub32 D.sp 1 = D.sp - 1 := sub32_eq _ _ h1 hsp1
  simp [pop, e, ho]

theorem push_some (D : duna_State) (o : duna_Object) (h : D.sp < D.stack.length) :
    push D o = some { D with stack := D.stack.set D.sp o, sp := add32 D.sp 1 } := by
  simp [push, stack_set, h]

theorem fetch_dword_code (D : duna_State) (w : Nat) (hcap : D.code.length < 2 ^ 32)
    (h : code_dword D D.pc = some w) :
    fetch_dword D = some (w, { D with pc := D.pc + 4 }) := by
  unfold code_dword at h
  split at h
  · rename_i b1 b2 b3 b4 h1 h2 h3 h4
    simp only [Option.some.injEq] at h
    rw [← h]
    apply fetch_dword_eq D _ _ _ _ hcap
    simp only [code_at_cons, code_at_nil, Nat.add_assoc, and_true]
    norm_num
    exact ⟨h1, h2, h3, h4⟩
  · simp at h

theorem code_dword_some (D : duna_State) (off : Nat) (h : off + 3 < D.code.length) :
    ∃ w, code_dword D off = some w := by
  have h0 : off < D.code.length := by omega
  have h1 : off + 1 < D.code.length := by omega
  have h2 : off + 2 < D.code.length := by omega
  simp [code_dword, List.getElem?_eq_getElem, h0, h1, h2, h]

theorem read_fixnum_eq (g : duna_Value → Nat) (v : duna_Value) (n : Nat)
    (h : v.fixnum = some n) : read_fixnum g v = n := by
  simp [read_fixnum, h]

theorem read_byte_eq (g : duna_Value → Nat) (v : duna_Value) (b : Nat)
    (h : v.byte = some b) : read_byte g v = b := by
  simp [read_byte, h]

theorem load_walk_any_of_load_walk (g : duna_Value → Nat) (D : duna_State) (n : Nat) :
    ∀ (j f : Nat), load_walk D n j = some f → load_walk_any g D n j = some f := by
  induction n with
  | zero =>
    intro j f h
    simpa [load_walk, load_walk_any] using h
  | succ m ih =>
    intro j f h
    unfold load_walk at h
    unfold load_walk_any
    cases h1 : stack_get D (add32 j 1) with
    | none => simp [h1] at h
    | some o1 =>
      cases h2 : o1.value.fixnum with
      | none => simp [h1, h2] at h
      | some k =>
        cases h3 : stack_get D (sub32 j k) with
        | none => simp [h1, h2, h3] at h
        | some o2 =>
          cases h4 : o2.value.fixnum with
          | none => simp [h1, h2, h3, h4] at h
          | some j1 =>
            simp only [h1, h2, h3, h4] at h
            simp only [read_fixnum_eq g _ _ h2, h3, read_fixnum_eq g _ _ h4]
            exact ih j1 f h

theorem load_walk_any_congr (g : duna_Value → Nat) (D E : duna_State) (hs : E.stack = D.stack)
    (n : Nat) : load_walk_any g E n = load_walk_any g D n := by
  induction n with
  | zero => rfl
  | succ m ih =>
    funext j
    simp only [load_walk_any, stack_get, hs, ih]

/-- Where `duna_exec` is defined, `duna_exec_any` is defined with the same state. -/
theorem exec_any_of_exec (g : duna_Value → Nat) (op : Nat) (D D' : duna_State)
    (h : duna_exec op D = some D') : duna_exec_any g op D = some D' := by
  unfold duna_exec_any
  split
  all_goals first
    | exact h
    | (simp only [duna_exec] at h
       repeat' split at h
       all_goals first
         | contradiction
         | (simp_all [read_fixnum, read_byte, duna_Value.chr, duna_Value.bool]; done)
         | (rename_i hw x o ho
            rw [load_walk_any_of_load_walk g _ _ _ _ hw]
            simp only [ho]
            exact h))

theorem step_any_of_step (g : duna_Value → Nat) (D D' : duna_State)
    (h : duna_step D = some D') : duna_step_any g D = some D' := by
  unfold duna_step at h
  unfold duna_step_any
  cases hf : fetch D with
  | none => simp [hf] at h
  | some p =>
    obtain ⟨op, D1⟩ := p
    simp only [hf] at h ⊢
    exact exec_any_of_exec g op D1 D' h

/-- In every state in which the accesses of `op` are in range, the `switch` case
is defined whatever the reads of foreign union members yield, and it changes `sp`
by `sp_delta`. -/
theorem exec_any_effect (g : duna_Value → Nat) (op : Nat) (D : duna_State)
    (hcap : D.code.length < 2 ^ 32) (hstk : D.stack.length < 2 ^ 32) (hsp : D.sp < 2 ^ 32)
    (h : accesses_in_range g op D = true) :
    ∃ D', duna_exec_any g op { D with pc := D.pc + 1 } = some D' ∧
      (D'.sp : Int) = (D.sp : Int) + sp_delta op (pop_count g D) := by
  have hsp1 : D.sp < 4294967296 := hsp
  have hstk1 : D.stack.length < 4294967296 := hstk
  have deleg : ∀ k, k ≠ DUNA_OP_POP →
      duna_exec_any g k { D with pc := D.pc + 1 } = duna_exec k { D with pc := D.pc + 1 } →
      (∃ D', duna_exec k { D with pc := D.pc + 1 } = some D') →
      ∃ D', duna_exec_any g k { D with pc := D.pc + 1 } = some D' ∧
        (D'.sp : Int) = (D.sp : Int) + sp_delta k (pop_count g D) := by
    intro k hk he hex
    obtain ⟨D', hex⟩ := hex
    exact ⟨D', by rw [he]; exact hex,
      (exec_effect k _ D' hex).2.2.1 _ hstk hsp (fun e => absurd e hk)⟩
  by_cases hle : op ≤ 35
  · interval_cases op <;>
      simp [accesses_in_range, DUNA_OP_LOAD_NIL, DUNA_OP_LOAD_FALSE, DUNA_OP_LOAD_TRUE,
        DUNA_OP_LOAD_ZERO, DUNA_OP_LOAD_ONE, DUNA_OP_LOAD_FIXNUM, DUNA_OP_LOAD_CHAR, DUNA_OP_INC,
        DUNA_OP_DEC, DUNA_OP_FIXNUM_TO_CHAR, DUNA_OP_CHAR_TO_FIXNUM, DUNA_OP_NULL_P,
        DUNA_OP_ZERO_P, DUNA_OP_NOT, DUNA_OP_BOOL_P, DUNA_OP_CHAR_P, DUNA_OP_FIXNUM_P,
        DUNA_OP_PUSH, DUNA_OP_POP, DUNA_OP_PLUS, DUNA_OP_MINUS, DUNA_OP_MULT, DUNA_OP_LOAD_0,
        DUNA_OP_LOAD_1, DUNA_OP_LOAD_2, DUNA_OP_LOAD_3, DUNA_OP_LOAD, DUNA_OP_SET_FP,
        DUNA_OP_SAVE_FP, DUNA_OP_REST_FP, DUNA_OP_MAKE_CLOSURE, DUNA_OP_CALL, DUNA_OP_RETURN,
        DUNA_OP_SAVE_PROC, DUNA_OP_SET_PROC] at h
    all_goals first
      | exact deleg _ (by decide) rfl ⟨_, rfl⟩
      | exact ⟨_, rfl, by simp [sp_delta, DUNA_SET_BOOL_eq, DUNA_OP_INC, DUNA_OP_DEC,
          DUNA_OP_FIXNUM_TO_CHAR, DUNA_OP_CHAR_TO_FIXNUM, DUNA_OP_ZERO_P, DUNA_OP_NOT,
          DUNA_OP_PUSH, DUNA_OP_POP, DUNA_OP_PLUS, DUNA_OP_MINUS, DUNA_OP_MULT,
          DUNA_OP_SAVE_FP, DUNA_OP_REST_FP, DUNA_OP_RETURN, DUNA_OP_SAVE_PROC]⟩
      | skip
    -- LOAD_FIXNUM
    · refine deleg _ (by decide) rfl ?_
      obtain ⟨w, hw⟩ := code_dword_some { D with pc := D.pc + 1 } (D.pc + 1)
        (by show D.pc + 1 + 3 < D.code.length; omega)
      have hd := fetch_dword_code { D with pc := D.pc + 1 } w hcap hw
      simp [duna_exec, hd]
    -- LOAD_CHAR
    · refine deleg _ (by decide) rfl ?_
      simp [duna_exec, fetch, List.getElem?_eq_getElem h]
    -- PUSH
    · refine deleg _ (by decide) rfl ?_
      have hp := push_some { D with pc := D.pc + 1 } D.accum h
      simp [duna_exec, hp]
    -- POP
    · obtain ⟨h1, h2, h3⟩ := h
      have ho : D.stack[D.sp - 1]? = some (D.stack[D.sp - 1]) := List.getElem?_eq_getElem h2
      have hc : pop_count g D = read_fixnum g (D.stack[D.sp - 1]).value := by
        simp [pop_count, ho]
      have hp := pop_some { D with pc := D.pc + 1 } _ hsp h1 ho
      refine ⟨_, by simp only [duna_exec_any, hp]; rfl, ?_⟩
      rw [← hc]
      have hs : sub32 (D.sp - 1) (pop_count g D) = D.sp - 1 - pop_count g D :=
        sub32_eq _ _ (by omega) (by omega)
      simp [sp_delta, DUNA_OP_PUSH, DUNA_OP_POP, DUNA_OP_SAVE_FP, DUNA_OP_SAVE_PROC, hs]
      omega
    -- PLUS, MINUS, MULT
    · obtain ⟨h1, h2⟩ := h
      have ho : D.stack[D.sp - 1]? = some (D.stack[D.sp - 1]) := List.getElem?_eq_getElem h2
      have hp := pop_some { D with pc := D.pc + 1 } _ hsp h1 ho
      refine ⟨_, by simp only [duna_exec_any, hp]; rfl, ?_⟩
      simp [sp_delta, DUNA_OP_PUSH, DUNA_OP_POP, DUNA_OP_PLUS, DUNA_OP_MINUS, DUNA_OP_MULT,
        DUNA_OP_SAVE_FP, DUNA_OP_REST_FP, DUNA_OP_RETURN, DUNA_OP_SAVE_PROC]
      omega
    · obtain ⟨h1, h2⟩ := h
      have ho : D.stack[D.sp - 1]? = some (D.stack[D.sp - 1]) := List.getElem?_eq_getElem h2
      have hp := pop_some { D with pc := D.pc + 1 } _ hsp h1 ho
      refine ⟨_, by simp only [duna_exec_any, hp]; rfl, ?_⟩
      simp [sp_delta, DUNA_OP_PUSH, DUNA_OP_POP, DUNA_OP_PLUS, DUNA_OP_MINUS, DUNA_OP_MULT,
        DUNA_OP_SAVE_FP, DUNA_OP_REST_FP, DUNA_OP_RETURN, DUNA_OP_SAVE_PROC]
      omega
    · obtain ⟨h1, h2⟩ := h
      have ho : D.stack[D.sp - 1]? = some (D.stack[D.sp - 1]) := List.getElem?_eq_getElem h2
      have hp := pop_some { D with pc := D.pc + 1 } _ hsp h1 ho
      refine ⟨_, by simp only [duna_exec_any, hp]; rfl, ?_⟩
      simp [sp_delta, DUNA_OP_PUSH, DUNA_OP_POP, DUNA_OP_PLUS, DUNA_OP_MINUS, DUNA_OP_MULT,
        DUNA_OP_SAVE_FP, DUNA_OP_REST_FP, DUNA_OP_RETURN, DUNA_OP_SAVE_PROC]
      omega
    -- LOAD_0 .. LOAD_3
    · refine deleg _ (by decide) rfl ?_
      simp [duna_exec, stack_get, List.getElem?_eq_getElem h]
    · refine deleg _ (by decide) rfl ?_
      simp [duna_exec, stack_get, List.getElem?_eq_getElem h]
    · refine deleg _ (by decide) rfl ?_
      simp [duna_exec, stack_get, List.getElem?_eq_getElem h]
    · refine deleg _ (by decide) rfl ?_
      simp [duna_exec, stack_get, List.getElem?_eq_getElem h]
    -- LOAD
    · cases ho : code_dword D (D.pc + 1) with
      | none => simp [ho] at h
      | some o =>
        cases hd : code_dword D (D.pc + 5) with
        | none => simp [ho, hd] at h
        | some d =>
          cases hf : load_walk_any g D d D.fp with
          | none => simp [ho, hd, hf] at h
          | some f =>
            simp [ho, hd, hf] at h
            have e1 := fetch_dword_code { D with pc := D.pc + 1 } o hcap ho
            have e2 := fetch_dword_code { D with pc := D.pc + 1 + 4 } d hcap hd
            have hw : load_walk_any g { D with pc := D.pc + 1 + 4 + 4 } d D.fp = some f := by
              rw [load_walk_any_congr g D { D with pc := D.pc + 1 + 4 + 4 } rfl]
              exact hf
            refine ⟨_, by
              simp only [duna_exec_any, e1, e2, hw, stack_get, List.getElem?_eq_getElem h]; rfl, ?_⟩
            simp [sp_delta, DUNA_OP_PUSH, DUNA_OP_POP, DUNA_OP_PLUS, DUNA_OP_MINUS, DUNA_OP_MULT,
              DUNA_OP_SAVE_FP, DUNA_OP_REST_FP, DUNA_OP_RETURN, DUNA_OP_SAVE_PROC, DUNA_OP_LOAD]
    -- SAVE_FP
    · refine deleg _ (by decide) rfl ?_
      simp [duna_exec, stack_get, stack_set, h, List.getElem?_eq_getElem h]
    -- REST_FP
    · obtain ⟨h1, h2⟩ := h
      have ho : D.stack[D.sp - 1]? = some (D.stack[D.sp - 1]) := List.getElem?_eq_getElem h2
      have hp := pop_some { D with pc := D.pc + 1 } _ hsp h1 ho
      refine ⟨_, by simp only [duna_exec_any, hp]; rfl, ?_⟩
      simp [sp_delta, DUNA_OP_PUSH, DUNA_OP_POP, DUNA_OP_PLUS, DUNA_OP_MINUS, DUNA_OP_MULT,
        DUNA_OP_SAVE_FP, DUNA_OP_REST_FP, DUNA_OP_RETURN, DUNA_OP_SAVE_PROC]
      omega
    -- MAKE_CLOSURE
    · refine deleg _ (by decide) rfl ?_
      obtain ⟨w, hw⟩ := code_dword_some { D with pc := D.pc + 1 } (D.pc + 1)
        (by show D.pc + 1 + 3 < D.code.length; omega)
      have hd := fetch_dword_code { D with pc := D.pc + 1 } w hcap hw
      simp [duna_exec, hd]
    -- CALL
    · refine deleg _ (by decide) rfl ?_
      obtain ⟨p, hp⟩ := Option.isSome_iff_exists.mp h
      simp [duna_exec, hp]
    -- RETURN
    · obtain ⟨h1, h2⟩ := h
      have ho : D.stack[D.sp - 1]? = some (D.stack[D.sp - 1]) := List.getElem?_eq_getElem h2
      have hp := pop_some { D with pc := D.pc + 1 } _ hsp (by show 1 ≤ D.sp; omega) ho
      have hlt2 : D.sp - 1 - 1 < D.stack.length := by omega
      have hp2 := pop_some { D with pc := D.pc + 1, sp := D.sp - 1 } (D.stack[D.sp - 1 - 1])
        (by show D.sp - 1 < 2 ^ 32; omega) (by show 1 ≤ D.sp - 1; omega)
        (List.getElem?_eq_getElem hlt2)
      refine ⟨_, by simp only [duna_exec_any, hp, hp2]; rfl, ?_⟩
      simp [sp_delta, DUNA_OP_PUSH, DUNA_OP_POP, DUNA_OP_PLUS, DUNA_OP_MINUS, DUNA_OP_MULT,
        DUNA_OP_SAVE_FP, DUNA_OP_REST_FP, DUNA_OP_RETURN, DUNA_OP_SAVE_PROC]
      omega
    -- SAVE_PROC
    · refine deleg _ (by decide) rfl ?_
      have hp := push_some { D with pc := D.pc + 1 } D.proc h
      simp [duna_exec, hp]
  · have hgt : 35 < op := by omega
    have he : duna_exec_any g op { D with pc := D.pc + 1 }
        = duna_exec op { D with pc := D.pc + 1 } := by
      unfold duna_exec_any
      split <;> first | (exfalso; revert hgt; decide) | rfl
    exact deleg op (by intro e; rw [e] at hgt; revert hgt; decide) he
      ⟨_, duna_exec_unknown op _ (Or.inr hgt)⟩

theorem top_fixnum (D : duna_State) (n : Nat)
    (h : (D.stack[D.sp - 1]?).bind (fun o => o.value.fixnum) = some n) :
    ∃ o, D.stack[D.sp - 1]? = some o ∧ o.value.fixnum = some n := by
  cases ho : D.stack[D.sp - 1]? with
  | none => simp [ho] at h
  | some o => exact ⟨o, rfl, by simpa [ho] using h⟩

/-- In every state in which the accesses of `op` are in range and the scalar
members it reads are stored as such, the `switch` case of `duna_exec` is
defined. -/
theorem exec_progress (g : duna_Value → Nat) (op : Nat) (D : duna_State)
    (hcap : D.code.length < 2 ^ 32) (hstk : D.stack.length < 2 ^ 32) (hsp : D.sp < 2 ^ 32)
    (hr : accesses_in_range g op D = true) (hm : members_stored op D = true) :
    ∃ D', duna_exec op { D with pc := D.pc + 1 } = some D' := by
  obtain ⟨D', hany, _⟩ := exec_any_effect g op D hcap hstk hsp hr
  by_cases hle : op ≤ 35
  · interval_cases op
    all_goals first | exact ⟨D', hany⟩ | skip
    all_goals
      simp [accesses_in_range, members_stored, DUNA_OP_LOAD_NIL, DUNA_OP_LOAD_FALSE,
        DUNA_OP_LOAD_TRUE, DUNA_OP_LOAD_ZERO, DUNA_OP_LOAD_ONE, DUNA_OP_LOAD_FIXNUM,
        DUNA_OP_LOAD_CHAR, DUNA_OP_INC, DUNA_OP_DEC, DUNA_OP_FIXNUM_TO_CHAR,
        DUNA_OP_CHAR_TO_FIXNUM, DUNA_OP_NULL_P, DUNA_OP_ZERO_P, DUNA_OP_NOT, DUNA_OP_BOOL_P,
        DUNA_OP_CHAR_P, DUNA_OP_FIXNUM_P, DUNA_OP_PUSH, DUNA_OP_POP, DUNA_OP_PLUS,
        DUNA_OP_MINUS, DUNA_OP_MULT, DUNA_OP_LOAD_0, DUNA_OP_LOAD_1, DUNA_OP_LOAD_2,
        DUNA_OP_LOAD_3, DUNA_OP_LOAD, DUNA_OP_SET_FP, DUNA_OP_SAVE_FP, DUNA_OP_REST_FP,
        DUNA_OP_MAKE_CLOSURE, DUNA_OP_CALL, DUNA_OP_RETURN, DUNA_OP_SAVE_PROC,
        DUNA_OP_SET_PROC] at hr hm
    -- INC, DEC, FIXNUM_TO_CHAR
    · obtain ⟨a, ha⟩ := Option.isSome_iff_exists.mp hm
      simp [duna_exec, ha]
    · obtain ⟨a, ha⟩ := Option.isSome_iff_exists.mp hm
      simp [duna_exec, ha]
    · obtain ⟨a, ha⟩ := Option.isSome_iff_exists.mp hm
      simp [duna_exec, ha]
    -- CHAR_TO_FIXNUM
    · obtain ⟨b, hb⟩ := Option.isSome_iff_exists.mp hm
      simp [duna_exec, duna_Value.chr, hb]
    -- ZERO_P
    · obtain ⟨a, ha⟩ := Option.isSome_iff_exists.mp hm
      simp [duna_exec, ha]
    -- NOT
    · obtain ⟨b, hb⟩ := Option.isSome_iff_exists.mp hm
      simp [duna_exec, duna_Value.bool, hb]
    -- POP
    · obtain ⟨n, hn⟩ := Option.isSome_iff_exists.mp hm
      obtain ⟨o, ho, hf⟩ := top_fixnum D n hn
      have hp := pop_some { D with pc := D.pc + 1 } o hsp hr.1 ho
      simp [duna_exec, hp, hf]
    -- PLUS, MINUS, MULT
    · obtain ⟨a, ha⟩ := Option.isSome_iff_exists.mp hm.1
      obtain ⟨n, hn⟩ := Option.isSome_iff_exists.mp hm.2
      obtain ⟨o, ho, hf⟩ := top_fixnum D n hn
      have hp := pop_some { D with pc := D.pc + 1 } o hsp hr.1 ho
      simp [duna_exec, hp, hf, ha]
    · obtain ⟨a, ha⟩ := Option.isSome_iff_exists.mp hm.1
      obtain ⟨n, hn⟩ := Option.isSome_iff_exists.mp hm.2
      obtain ⟨o, ho, hf⟩ := top_fixnum D n hn
      have hp := pop_some { D with pc := D.pc + 1 } o hsp hr.1 ho
      simp [duna_exec, hp, hf, ha]
    · obtain ⟨a, ha⟩ := Option.isSome_iff_exists.mp hm.1
      obtain ⟨n, hn⟩ := Option.isSome_iff_exists.mp hm.2
      obtain ⟨o, ho, hf⟩ := top_fixnum D n hn
      have hp := pop_some { D with pc := D.pc + 1 } o hsp hr.1 ho
      simp [duna_exec, hp, hf, ha]
    -- LOAD
    · cases ho : code_dword D (D.pc + 1) with
      | none => simp [ho] at hr
      | some o =>
        cases hd : code_dword D (D.pc + 5) with
        | none => simp [ho, hd] at hr
        | some d =>
          cases hf : load_walk_any g D d D.fp with
          | none => simp [ho, hd, hf] at hr
          | some f =>
            simp [ho, hd, hf] at hr
            simp only [hd] at hm
            obtain ⟨f1, hc⟩ := Option.isSome_iff_exists.mp hm
            have hw1 := load_walk_chain D hstk d D.fp f1 hc
            have hw2 := load_walk_any_of_load_walk g D d D.fp f1 hw1
            rw [hf] at hw2
            cases hw2
            have e1 := fetch_dword_code { D with pc := D.pc + 1 } o hcap ho
            have e2 := fetch_dword_code { D with pc := D.pc + 1 + 4 } d hcap hd
            have hw : load_walk { D with pc := D.pc + 1 + 4 + 4 } d D.fp = some f := by
              rw [load_walk_congr D { D with pc := D.pc + 1 + 4 + 4 } rfl]
              exact hw1
            simp [duna_exec, e1, e2, hw, stack_get, List.getElem?_eq_getElem hr]
    -- REST_FP
    · obtain ⟨n, hn⟩ := Option.isSome_iff_exists.mp hm
      obtain ⟨o, ho, hf⟩ := top_fixnum D n hn
      have hp := pop_some { D with pc := D.pc + 1 } o hsp hr.1 ho
      simp [duna_exec, hp, hf]
    -- RETURN
    · obtain ⟨n, hn⟩ := Option.isSome_iff_exists.mp hm
      obtain ⟨o, ho, hf⟩ := top_fixnum D n hn
      have hsp1 : D.sp < 4294967296 := hsp
      have hp := pop_some { D with pc := D.pc + 1 } o hsp (by show 1 ≤ D.sp; omega) ho
      have hlt2 : D.sp - 1 - 1 < D.stack.length := by omega
      have hp2 := pop_some { D with pc := D.pc + 1, sp := D.sp - 1 } (D.stack[D.sp - 1 - 1])
        (by show D.sp - 1 < 2 ^ 32; omega) (by show 1 ≤ D.sp - 1; omega)
        (List.getElem?_eq_getElem hlt2)
      simp [duna_exec, hp, hf, hp2]
  · exact ⟨_, duna_exec_unknown op _ (Or.inr (by omega))⟩

theorem duna_step_any_eq (g : duna_Value → Nat) (D : duna_State) (op : Nat)
    (hcap : D.code.length < 2 ^ 32) (h : D.code[D.pc]? = some op) :
    duna_step_any g D = duna_exec_any g op { D with pc := D.pc + 1 } := by
  simp [duna_step_any, fetch, h, pc_succ D op hcap h]

/-! ## Claims -/

/-- C1 (amended): from any state with four free stack slots, the call sequence in
the order the specification gives it (push count 0, push `r`, `SAVE_PROC`,
`MAKE_CLOSURE`, `SET_PROC`, `SAVE_FP`, `SET_FP`, `CALL`) followed by the body
`LOAD_FIXNUM 42; RETURN` ends with `accum` the Fixnum 42 and `proc` what it was
before the sequence; `RETURN` pops the two topmost slots, which in this order are
the saved frame pointer and the saved procedure, so `pc` is the old `fp` and `sp`
is 2 above its starting value, the count and `r` still being on the stack. -/
theorem call_round_trip_spec_order (D : duna_State) (r : Nat) (hr : r < 2 ^ 32)
    (hcap : D.code.length < 2 ^ 32) (hstk : D.stack.length < 2 ^ 32) (hfp : D.fp < 2 ^ 32)
    (hroom : D.sp + 4 ≤ D.stack.length) (hcode : code_at D D.pc (call_sequence r)) :
    duna_steps 12 D = some { D with
      accum := Fixnum 42,
      pc := D.fp,
      sp := D.sp + 2,
      fp := D.sp + 3,
      stack := (((D.stack.set D.sp (Fixnum 0)).set (D.sp + 1) (Fixnum r)).set (D.sp + 2)
        D.proc).set (D.sp + 3) (Fixnum D.fp) } := by
  have hr1 : r < 4294967296 := hr
  have hfp1 : D.fp < 4294967296 := hfp
  have hstk1 : D.stack.length < 4294967296 := hstk
  simp only [call_sequence, code_at_cons, code_at_nil, le32, List.cons_append, List.nil_append,
    Nat.add_assoc, and_true] at hcode
  norm_num at hcode
  obtain ⟨h0, h1, h2, h3, h4, h5, h6, h7, h8, h9, h10, h11, h12, h13, h14, h15, h16, h17, h18,
    h19, h20, h21, h22, h23⟩ := hcode
  have hlen := lt_of_getElem?_eq_some _ _ _ h23
  have hcap1 : D.code.length < 4294967296 := hcap
  have ej : add32 (D.pc + 14) 6 = D.pc + 20 := by unfold add32; omega
  have es0 : add32 D.sp 1 = D.sp + 1 := add32_eq _ _ (by omega)
  have es1 : add32 (D.sp + 1) 1 = D.sp + 2 := add32_eq _ _ (by omega)
  have es2 : add32 (D.sp + 2) 1 = D.sp + 3 := add32_eq _ _ (by omega)
  have es3 : add32 (D.sp + 3) 1 = D.sp + 4 := add32_eq _ _ (by omega)
  have ed4 : sub32 (D.sp + 4) 1 = D.sp + 3 := by rw [sub32_eq _ _ (by omega) (by omega)]; omega
  have ed3 : sub32 (D.sp + 3) 1 = D.sp + 2 := by rw [sub32_eq _ _ (by omega) (by omega)]; omega
  have r0 : D.sp < D.stack.length := by omega
  have r1 : D.sp + 1 < D.stack.length := by omega
  have r2 : D.sp + 2 < D.stack.length := by omega
  have r3 : D.sp + 3 < D.stack.length := by omega
  have e0 := pc_succ D _ hcap h0
  have e1 := pc_off D _ _ hcap h1
  have e2 := pc_off D _ _ hcap h2
  have e3 := pc_off D _ _ hcap h3
  have e4 := pc_off D _ _ hcap h4
  have e5 := pc_off D _ _ hcap h5
  have e6 := pc_off D _ _ hcap h6
  have e7 := pc_off D _ _ hcap h7
  have e8 := pc_off D _ _ hcap h8
  have e9 := pc_off D _ _ hcap h9
  have e10 := pc_off D _ _ hcap h10
  have e11 := pc_off D _ _ hcap h11
  have e12 := pc_off D _ _ hcap h12
  have e13 := pc_off D _ _ hcap h13
  have e14 := pc_off D _ _ hcap h14
  have e15 := pc_off D _ _ hcap h15
  have e16 := pc_off D _ _ hcap h16
  have e17 := pc_off D _ _ hcap h17
  have e18 := pc_off D _ _ hcap h18
  have e19 := pc_off D _ _ hcap h19
  have e20 := pc_off D _ _ hcap h20
  have e21 := pc_off D _ _ hcap h21
  have e22 := pc_off D _ _ hcap h22
  have e23 := pc_off D _ _ hcap h23
  norm_num at e1 e2 e3 e4 e5 e6 e7 e8 e9 e10 e11 e12 e13 e14 e15 e16 e17 e18 e19 e20 e21 e22 e23
  have d6 : dword 6 0 0 0 = 6 := by decide
  have d42 : dword 42 0 0 0 = 42 := by decide
  simp [duna_steps, duna_step, fetch, duna_exec, fetch_dword, push, pop, stack_set, stack_get,
    h0, h1, h2, h3, h4, h5, h6, h7, h8, h9, h10, h11, h12, h13, h14, h15, h16, h17, h18, h19,
    h20, h21, h22, h23, e0, e1, e2, e3, e4, e5, e6, e7, e8, e9, e10, e11, e12, e13, e14, e15,
    e16, e17, e18, e19, e20, e21, e22, e23, ej, es0, es1, es2, es3, ed4, ed3, r0, r1, r2, r3,
    d6, d42, dword_bytes, hr1, hfp1, duna_Value.set_fixnum, duna_Value.fixnum, duna_Value.deref,
    u32_eq, Fixnum]

/-- The amended C1 statement at the freshly loaded call sequence with return address 77. -/
theorem call_round_trip_spec_order_witness :
    duna_steps 12 (boot (call_sequence 77) 4)
      = some { boot (call_sequence 77) 4 with
          accum := Fixnum 42, pc := 0, sp := 2, fp := 3,
          stack := [Fixnum 0, Fixnum 77, { type := DUNA_TYPE_BOOL, value := duna_Value.word 0 },
            Fixnum 0] } :=
  call_round_trip_spec_order (boot (call_sequence 77) 4) 77
    (by decide) (by decide) (by decide) (by decide) (by decide) (by decide)

/-- C1 (counterexample): started on the freshly loaded call sequence with return
address 77, the twelve steps up to and including `RETURN` do not end in a state
with `accum` the Fixnum 42, `proc` and `sp` as at the start and `pc = 77`. -/
theorem call_round_trip_counterexample :
    ¬ ((duna_steps 12 (boot (call_sequence 77) 4)).map
          (fun E => (E.accum, E.proc, E.sp, E.pc))
        = some (Fixnum 42, (boot (call_sequence 77) 4).proc,
            (boot (call_sequence 77) 4).sp, 77)) := by
  decide

/-- C2: let `f_0 = fp` and `f_(i+1) = stack[f_i - stack[f_i + 1].fixnum].fixnum`.
For a `LOAD` instruction whose operands are the offset `o` and then the depth `d`,
if the chain exists up to `f_d = f` with every index inside the stack and
`stack[f - o]` is the slot `v`, then `LOAD` sets `accum = v`, advances `pc` by 9
and leaves `sp`, `fp`, `proc` and the whole stack unchanged. -/
theorem lexical_load (D : duna_State) (o d f : Nat) (v : duna_Object)
    (hcap : D.code.length < 2 ^ 32) (hstk : D.stack.length < 2 ^ 32)
    (ho : o < 2 ^ 32) (hd : d < 2 ^ 32)
    (hcode : code_at D D.pc (DUNA_OP_LOAD :: le32 o ++ le32 d))
    (hchain : frame_chain D.stack D.fp d = some f)
    (hof : o ≤ f) (hv : D.stack[f - o]? = some v) :
    duna_step D = some { D with accum := v, pc := D.pc + 9 } :=
  step_load D o d f v hcap hstk ho hd hcode hchain hof hv

/-- The C2 statement at a stack of two nested frames: depth 2, offset 0. -/
theorem lexical_load_witness :
    duna_step { boot [DUNA_OP_LOAD, 0, 0, 0, 0, 2, 0, 0, 0] 0 with
        stack := two_frames, sp := 9, fp := 7 }
      = some { boot [DUNA_OP_LOAD, 0, 0, 0, 0, 2, 0, 0, 0] 0 with
        stack := two_frames, sp := 9, fp := 7, accum := Fixnum 100, pc := 9 } :=
  lexical_load { boot [DUNA_OP_LOAD, 0, 0, 0, 0, 2, 0, 0, 0] 0 with
      stack := two_frames, sp := 9, fp := 7 } 0 2 0 (Fixnum 100)
    (by decide) (by decide) (by decide) (by decide) (by decide) (by decide) (by decide)
    (by decide)

/-- C3: from any state with one free stack slot, the program
`LOAD_FIXNUM a; PUSH; LOAD_FIXNUM b; MINUS` leaves the Fixnum `(b - a) mod 2^32`
in `accum` (accumulator minus popped value), `sp` at its starting value and `pc`
past the 12 program bytes; the only other change is the slot `a` was pushed to. -/
theorem minus_operand_order (D : duna_State) (a b : Nat) (ha : a < 2 ^ 32) (hb : b < 2 ^ 32)
    (hcap : D.code.length < 2 ^ 32) (hstk : D.stack.length < 2 ^ 32)
    (hroom : D.sp < D.stack.length)
    (hcode : code_at D D.pc (DUNA_OP_LOAD_FIXNUM :: le32 a ++
      DUNA_OP_PUSH :: DUNA_OP_LOAD_FIXNUM :: le32 b ++ [DUNA_OP_MINUS])) :
    duna_steps 4 D = some { D with
      accum := Fixnum (((b : Int) - (a : Int)) % 2 ^ 32).toNat,
      stack := D.stack.set D.sp (Fixnum a),
      pc := D.pc + 12 } := by
  have ha1 : a < 4294967296 := ha
  have hb1 : b < 4294967296 := hb
  have hstk1 : D.stack.length < 4294967296 := hstk
  simp only [code_at_cons, code_at_nil, le32, List.cons_append, List.nil_append, Nat.add_assoc,
    and_true] at hcode
  norm_num at hcode
  obtain ⟨h0, h1, h2, h3, h4, h5, h6, h7, h8, h9, h10, h11⟩ := hcode
  have es1 : add32 D.sp 1 = D.sp + 1 := add32_eq _ _ (by omega)
  have es2 : sub32 (D.sp + 1) 1 = D.sp := by rw [sub32_eq _ _ (by omega) (by omega)]; omega
  have e0 := pc_succ D _ hcap h0
  have e1 := pc_off D _ _ hcap h1
  have e2 := pc_off D _ _ hcap h2
  have e3 := pc_off D _ _ hcap h3
  have e4 := pc_off D _ _ hcap h4
  have e5 := pc_off D _ _ hcap h5
  have e6 := pc_off D _ _ hcap h6
  have e7 := pc_off D _ _ hcap h7
  have e8 := pc_off D _ _ hcap h8
  have e9 := pc_off D _ _ hcap h9
  have e10 := pc_off D _ _ hcap h10
  have e11 := pc_off D _ _ hcap h11
  norm_num at e1 e2 e3 e4 e5 e6 e7 e8 e9 e10 e11
  simp [duna_steps, duna_step, fetch, duna_exec, fetch_dword, push, pop, stack_set, h0, h1, h2,
    h3, h4, h5, h6, h7, h8, h9, h10, h11, e0, e1, e2, e3, e4, e5, e6, e7, e8, e9, e10, e11, es1,
    es2, hroom, dword_bytes, ha1, hb1, duna_Value.set_fixnum, duna_Value.fixnum, u32_eq, Fixnum]
  unfold u32 sub32
  omega

/-- The C3 statement at `a = 5`, `b = 3`: the result is `3 - 5` wrapped, not `5 - 3`. -/
theorem minus_operand_order_witness :
    duna_steps 4 (boot [DUNA_OP_LOAD_FIXNUM, 5, 0, 0, 0, DUNA_OP_PUSH,
        DUNA_OP_LOAD_FIXNUM, 3, 0, 0, 0, DUNA_OP_MINUS] 2)
      = some { boot [DUNA_OP_LOAD_FIXNUM, 5, 0, 0, 0, DUNA_OP_PUSH,
          DUNA_OP_LOAD_FIXNUM, 3, 0, 0, 0, DUNA_OP_MINUS] 2 with
        accum := Fixnum 4294967294,
        stack := [Fixnum 5, { type := DUNA_TYPE_NIL, value := duna_Value.word 0 }],
        pc := 12 } :=
  minus_operand_order (boot [DUNA_OP_LOAD_FIXNUM, 5, 0, 0, 0, DUNA_OP_PUSH,
      DUNA_OP_LOAD_FIXNUM, 3, 0, 0, 0, DUNA_OP_MINUS] 2) 5 3
    (by decide) (by decide) (by decide) (by decide) (by decide) (by decide)

/-- C4: from any state with one free stack slot, the program
`LOAD_FIXNUM a; PUSH; LOAD_FIXNUM b; PLUS` leaves the Fixnum `(a + b) mod 2^32` in
`accum` (overflow wraps silently), `sp` at its starting value and `pc` past the 12
program bytes; the only other change is the slot `a` was pushed to. -/
theorem plus_wraps (D : duna_State) (a b : Nat) (ha : a < 2 ^ 32) (hb : b < 2 ^ 32)
    (hcap : D.code.length < 2 ^ 32) (hstk : D.stack.length < 2 ^ 32)
    (hroom : D.sp < D.stack.length)
    (hcode : code_at D D.pc (DUNA_OP_LOAD_FIXNUM :: le32 a ++
      DUNA_OP_PUSH :: DUNA_OP_LOAD_FIXNUM :: le32 b ++ [DUNA_OP_PLUS])) :
    duna_steps 4 D = some { D with
      accum := Fixnum ((a + b) % 2 ^ 32),
      stack := D.stack.set D.sp (Fixnum a),
      pc := D.pc + 12 } := by
  have ha1 : a < 4294967296 := ha
  have hb1 : b < 4294967296 := hb
  have hstk1 : D.stack.length < 4294967296 := hstk
  simp only [code_at_cons, code_at_nil, le32, List.cons_append, List.nil_append, Nat.add_assoc,
    and_true] at hcode
  norm_num at hcode
  obtain ⟨h0, h1, h2, h3, h4, h5, h6, h7, h8, h9, h10, h11⟩ := hcode
  have es1 : add32 D.sp 1 = D.sp + 1 := add32_eq _ _ (by omega)
  have es2 : sub32 (D.sp + 1) 1 = D.sp := by rw [sub32_eq _ _ (by omega) (by omega)]; omega
  have e0 := pc_succ D _ hcap h0
  have e1 := pc_off D _ _ hcap h1
  have e2 := pc_off D _ _ hcap h2
  have e3 := pc_off D _ _ hcap h3
  have e4 := pc_off D _ _ hcap h4
  have e5 := pc_off D _ _ hcap h5
  have e6 := pc_off D _ _ hcap h6
  have e7 := pc_off D _ _ hcap h7
  have e8 := pc_off D _ _ hcap h8
  have e9 := pc_off D _ _ hcap h9
  have e10 := pc_off D _ _ hcap h10
  have e11 := pc_off D _ _ hcap h11
  norm_num at e1 e2 e3 e4 e5 e6 e7 e8 e9 e10 e11
  simp [duna_steps, duna_step, fetch, duna_exec, fetch_dword, push, pop, stack_set, h0, h1, h2,
    h3, h4, h5, h6, h7, h8, h9, h10, h11, e0, e1, e2, e3, e4, e5, e6, e7, e8, e9, e10, e11, es1,
    es2, hroom, dword_bytes, ha1, hb1, duna_Value.set_fixnum, duna_Value.fixnum, u32_eq, Fixnum]
  unfold u32 add32
  omega

/-- The C4 statement at `a = 2`, `b = 3`: the accumulator ends as the Fixnum 5. -/
theorem plus_wraps_witness :
    duna_steps 4 (boot [DUNA_OP_LOAD_FIXNUM, 2, 0, 0, 0, DUNA_OP_PUSH,
        DUNA_OP_LOAD_FIXNUM, 3, 0, 0, 0, DUNA_OP_PLUS] 2)
      = some { boot [DUNA_OP_LOAD_FIXNUM, 2, 0, 0, 0, DUNA_OP_PUSH,
          DUNA_OP_LOAD_FIXNUM, 3, 0, 0, 0, DUNA_OP_PLUS] 2 with
        accum := Fixnum 5,
        stack := [Fixnum 2, { type := DUNA_TYPE_NIL, value := duna_Value.word 0 }],
        pc := 12 } :=
  plus_wraps (boot [DUNA_OP_LOAD_FIXNUM, 2, 0, 0, 0, DUNA_OP_PUSH,
      DUNA_OP_LOAD_FIXNUM, 3, 0, 0, 0, DUNA_OP_PLUS] 2) 2 3
    (by decide) (by decide) (by decide) (by decide) (by decide) (by decide)

/-- C5 (amended): an opcode byte outside `1..35` is not rejected.  The `switch`
has no `default` case, so the step only advances `pc` past the byte and leaves
every other register and the stack unchanged, and the loop goes on: it dumps the
state and continues with the next byte.  `duna_vm_run` has no failure result:
whenever it returns, it returns 1. -/
theorem unknown_opcode_is_skipped (D : duna_State) (b : Nat) (hcap : D.code.length < 2 ^ 32)
    (hpc : D.pc < D.code_size) (hop : D.code[D.pc]? = some b) (hb : b = 0 ∨ 35 < b) :
    duna_step D = some { D with pc := D.pc + 1 } ∧
      (∀ (fuel : Nat) (out : String),
        duna_vm_run (fuel + 1) D out
          = match duna_dump { D with pc := D.pc + 1 } with
            | none => duna_Run.undefined
            | some t => duna_vm_run fuel { D with pc := D.pc + 1 } (out ++ t)) ∧
      (∀ (fuel : Nat) (E : duna_State) (out : String) (r : Int),
        (duna_vm_run fuel E out).ret = some r → r = 1) := by
  have hs : duna_step D = some { D with pc := D.pc + 1 } := by
    rw [duna_step_eq D b hcap hop, duna_exec_unknown b _ hb]
  refine ⟨hs, ?_, fun fuel E out r h => duna_vm_run_ret fuel E out r h⟩
  intro fuel out
  rw [duna_vm_run]
  simp only [hpc, if_true, hs]

/-- The amended C5 statement at the unknown byte 200. -/
theorem unknown_opcode_is_skipped_witness :
    duna_step { boot [DUNA_OP_LOAD_ONE, 200, DUNA_OP_LOAD_ZERO] 1 with pc := 1 }
      = some { boot [DUNA_OP_LOAD_ONE, 200, DUNA_OP_LOAD_ZERO] 1 with pc := 1 + 1 } :=
  (unknown_opcode_is_skipped { boot [DUNA_OP_LOAD_ONE, 200, DUNA_OP_LOAD_ZERO] 1 with pc := 1 }
    200 (by decide) (by decide) (by decide) (by decide)).1

/-- C5 (counterexample): a valid program with the unknown byte 200 appended runs
to the end and returns the success indicator 1; and with the unknown byte 0
between `LOAD_ONE` and `LOAD_ZERO` the run returns 1 with `accum` the Fixnum 0,
so the opcode after the unknown byte was executed. -/
theorem unknown_opcode_counterexample :
    (duna_vm_run 2 (boot [DUNA_OP_LOAD_ONE, 200] 1) "").ret = some 1 ∧
      (duna_vm_run 3 (boot [DUNA_OP_LOAD_ONE, 0, DUNA_OP_LOAD_ZERO] 1) "").ret = some 1 ∧
      (duna_vm_run 3 (boot [DUNA_OP_LOAD_ONE, 0, DUNA_OP_LOAD_ZERO] 1) "").final
        = some { boot [DUNA_OP_LOAD_ONE, 0, DUNA_OP_LOAD_ZERO] 1 with
            accum := Fixnum 0, pc := 3 } := by
  decide

/-- C6: for `k` in `0..3` and `k <= fp < stack size`, the fast-path opcode `LOAD_k`
and the general `LOAD` with offset operand `k` and depth operand `0`, run from
states with the same registers and stack, both set `accum = stack[fp - k]` and
leave `sp`, `fp`, `proc` and the stack unchanged; the results differ only in `pc`,
advanced by 1 and by 9. -/
theorem load_fast_path (D : duna_State) (k : Nat) (code2 : List Nat) (pc2 : Nat)
    (hk : k ≤ 3) (hkfp : k ≤ D.fp) (hfp : D.fp < D.stack.length)
    (hcap : D.code.length < 2 ^ 32) (hcap2 : code2.length < 2 ^ 32)
    (hstk : D.stack.length < 2 ^ 32)
    (h1 : D.code[D.pc]? = some (DUNA_OP_LOAD_k k))
    (h2 : code_at { D with code := code2, pc := pc2 } pc2 (DUNA_OP_LOAD :: le32 k ++ le32 0)) :
    ∃ v, D.stack[D.fp - k]? = some v ∧
      duna_step D = some { D with accum := v, pc := D.pc + 1 } ∧
      duna_step { D with code := code2, pc := pc2 }
        = some { D with code := code2, accum := v, pc := pc2 + 9 } := by
  have hstk1 : D.stack.length < 4294967296 := hstk
  have hlt : D.fp - k < D.stack.length := by omega
  refine ⟨D.stack[D.fp - k], List.getElem?_eq_getElem hlt, ?_, ?_⟩
  · have es : sub32 D.fp k = D.fp - k := sub32_eq _ _ hkfp (by omega)
    rw [duna_step_eq D _ hcap h1]
    have hk4 : k = 0 ∨ k = 1 ∨ k = 2 ∨ k = 3 := by omega
    rcases hk4 with rfl | rfl | rfl | rfl <;>
      simp [DUNA_OP_LOAD_k, duna_exec, stack_get, List.getElem?_eq_getElem hlt,
        List.getElem?_eq_getElem hfp] at es ⊢ <;> simp [es, List.getElem?_eq_getElem hlt]
  · exact step_load { D with code := code2, pc := pc2 } k 0 D.fp _ hcap2 hstk
      (by omega) (by decide) h2 rfl hkfp (List.getElem?_eq_getElem hlt)

/-- The C6 statement at `k = 2` on a stack of two nested frames. -/
theorem load_fast_path_witness :
    ∃ v, two_frames[7 - 2]? = some v ∧
      duna_step { boot [DUNA_OP_LOAD_2] 0 with stack := two_frames, sp := 9, fp := 7 }
        = some { boot [DUNA_OP_LOAD_2] 0 with
            stack := two_frames, sp := 9, fp := 7, accum := v, pc := 0 + 1 } ∧
      duna_step { boot [DUNA_OP_LOAD_2] 0 with
          stack := two_frames, sp := 9, fp := 7,
          code := [DUNA_OP_LOAD_NIL, DUNA_OP_LOAD, 2, 0, 0, 0, 0, 0, 0, 0], pc := 1 }
        = some { boot [DUNA_OP_LOAD_2] 0 with
            stack := two_frames, sp := 9, fp := 7,
            code := [DUNA_OP_LOAD_NIL, DUNA_OP_LOAD, 2, 0, 0, 0, 0, 0, 0, 0],
            accum := v, pc := 1 + 9 } :=
  load_fast_path { boot [DUNA_OP_LOAD_2] 0 with stack := two_frames, sp := 9, fp := 7 } 2
    [DUNA_OP_LOAD_NIL, DUNA_OP_LOAD, 2, 0, 0, 0, 0, 0, 0, 0] 1
    (by decide) (by decide) (by decide) (by decide) (by decide) (by decide) (by decide)
    (by decide)

/-- C7: when the opcode at `pc` is `CALL` and `proc` is a Closure whose entry
point equals `code_size`, the step sets `pc = code_size` and changes no other
register and no stack slot; `duna_vm_run` then prints the dump of that state,
finds the loop test false and returns 1 with that state, whatever the step
budget, so no further opcode is fetched.  The state is one `duna_dump` can print
(`sp` within the stack, printable objects). -/
theorem call_to_end_of_stream (D : duna_State) (p : duna_GCObject)
    (hcap : D.code.length < 2 ^ 32) (hpc : D.pc < D.code_size)
    (hop : D.code[D.pc]? = some DUNA_OP_CALL)
    (hproc : D.proc = { type := DUNA_TYPE_CLOSURE, value := duna_Value.gc p })
    (hentry : p.entry_point = D.code_size) (hdump : (duna_dump D).isSome) :
    duna_step D = some { D with pc := D.code_size } ∧
      ∃ t, duna_dump { D with pc := D.code_size } = some t ∧
        ∀ (fuel : Nat) (out : String),
          duna_vm_run (fuel + 1) D out
            = duna_Run.returned 1 { D with pc := D.code_size } (out ++ t) := by
  have hs : duna_step D = some { D with pc := D.code_size } := by
    rw [duna_step_eq D _ hcap hop]
    simp [duna_exec, hproc, duna_Value.deref, hentry]
  obtain ⟨t, ht⟩ := Option.isSome_iff_exists.mp (duna_dump_pc_isSome D D.code_size hdump)
  refine ⟨hs, t, ht, ?_⟩
  intro fuel out
  rw [duna_vm_run]
  simp only [hpc, if_true, hs, ht]
  cases fuel <;> simp [duna_vm_run]

/-- The C7 statement at the one-byte program `CALL` with a closure entering at offset 1. -/
theorem call_to_end_of_stream_witness :
    duna_step { boot [DUNA_OP_CALL] 1 with proc := Closure 1 }
        = some { boot [DUNA_OP_CALL] 1 with proc := Closure 1, pc := 1 } ∧
      ∃ t, duna_dump { boot [DUNA_OP_CALL] 1 with proc := Closure 1, pc := 1 } = some t ∧
        ∀ (fuel : Nat) (out : String),
          duna_vm_run (fuel + 1) { boot [DUNA_OP_CALL] 1 with proc := Closure 1 } out
            = duna_Run.returned 1 { boot [DUNA_OP_CALL] 1 with proc := Closure 1, pc := 1 }
                (out ++ t) :=
  call_to_end_of_stream { boot [DUNA_OP_CALL] 1 with proc := Closure 1 }
    { entry_point := 1, free_vars := none }
    (by decide) (by decide) (by decide) (by decide) (by decide) (by decide)

/-- C8: when the top stack slot `stack[sp - 1]` is the Fixnum `n` and
`n + 1 <= sp`, `POP` leaves `sp = sp - 1 - n` (the count slot and `n` further
slots are dropped) and changes nothing else but `pc`, which advances by 1: `accum`,
`fp`, `proc` and every stack slot are unchanged. -/
theorem count_based_pop (D : duna_State) (n : Nat) (hcap : D.code.length < 2 ^ 32)
    (hstk : D.stack.length < 2 ^ 32) (hop : D.code[D.pc]? = some DUNA_OP_POP)
    (htop : D.stack[D.sp - 1]? = some (Fixnum n)) (hn : n + 1 ≤ D.sp) :
    duna_step D = some { D with sp := D.sp - 1 - n, pc := D.pc + 1 } := by
  have hstk1 : D.stack.length < 4294967296 := hstk
  have hlt := lt_of_getElem?_eq_some _ _ _ htop
  have es1 : sub32 D.sp 1 = D.sp - 1 := sub32_eq _ _ (by omega) (by omega)
  have es2 : sub32 (D.sp - 1) n = D.sp - 1 - n := sub32_eq _ _ (by omega) (by omega)
  rw [duna_step_eq D _ hcap hop]
  simp [duna_exec, pop, es1, es2, htop, Fixnum, duna_Value.fixnum]

/-- The C8 statement at a four-slot stack whose top is the count 2. -/
theorem count_based_pop_witness :
    duna_step { boot [DUNA_OP_POP] 4 with
        stack := [Fixnum 7, Fixnum 8, Fixnum 9, Fixnum 2], sp := 4 }
      = some { boot [DUNA_OP_POP] 4 with
        stack := [Fixnum 7, Fixnum 8, Fixnum 9, Fixnum 2], sp := 1, pc := 1 } :=
  count_based_pop { boot [DUNA_OP_POP] 4 with
      stack := [Fixnum 7, Fixnum 8, Fixnum 9, Fixnum 2], sp := 4 } 2
    (by decide) (by decide) (by decide) (by decide) (by decide)

/-- C9 (amended): when the byte at `pc` is `MAKE_CLOSURE` and its operand, the
four bytes that follow, encodes `L`, then with `p = pc + 1` the offset just past
the opcode, the step sets `accum` to a Closure with `entry_point = p + 4` and no
captured variables, sets `pc = (p + 4 + L) mod 2^32`, and leaves `sp`, `fp`,
`proc` and the stack unchanged.  The new `pc` is never an offset of the body
`[p + 4, p + 4 + L)`: when `p + 4 + L < 2^32` it is `p + 4 + L`, the offset just
past the body, and otherwise it is `p + 4 + L - 2^32`, an offset before the
body. -/
theorem make_closure_skips_body (D : duna_State) (L : Nat) (hcap : D.code.length < 2 ^ 32)
    (hL : L < 2 ^ 32) (hcode : code_at D D.pc (DUNA_OP_MAKE_CLOSURE :: le32 L)) :
    duna_step D = some { D with
        accum := { type := DUNA_TYPE_CLOSURE,
                   value := duna_Value.gc { entry_point := D.pc + 1 + 4, free_vars := none } },
        pc := (D.pc + 1 + 4 + L) % 2 ^ 32 } ∧
      ¬ (D.pc + 1 + 4 ≤ (D.pc + 1 + 4 + L) % 2 ^ 32 ∧
          (D.pc + 1 + 4 + L) % 2 ^ 32 < D.pc + 1 + 4 + L) ∧
      (D.pc + 1 + 4 + L < 2 ^ 32 → (D.pc + 1 + 4 + L) % 2 ^ 32 = D.pc + 1 + 4 + L) ∧
      (2 ^ 32 ≤ D.pc + 1 + 4 + L →
        (D.pc + 1 + 4 + L) % 2 ^ 32 + 2 ^ 32 = D.pc + 1 + 4 + L ∧
        (D.pc + 1 + 4 + L) % 2 ^ 32 < D.pc + 1 + 4) := by
  have hL1 : L < 4294967296 := hL
  have hcap1 : D.code.length < 4294967296 := hcap
  have h4 : D.code[D.pc + 4]? = some (L / 2 ^ 24 % 256) := by
    simpa [le32] using code_at_get D D.pc _ hcode 4 _ rfl
  have hlen := lt_of_getElem?_eq_some _ _ _ h4
  refine ⟨?_, ?_, ?_, ?_⟩
  · rw [duna_step_eq D _ hcap (code_at_head _ _ _ _ hcode)]
    have hd := fetch_dword_le32 { D with pc := D.pc + 1 } L hcap hL (code_at_tail _ _ _ _ hcode)
    simp only [duna_exec, hd, add32]
  · norm_num
    omega
  · intro h
    exact Nat.mod_eq_of_lt h
  · norm_num
    omega

/-- The amended C9 statement at a closure with a two-byte body. -/
theorem make_closure_skips_body_witness :
    duna_step (boot [DUNA_OP_MAKE_CLOSURE, 2, 0, 0, 0, DUNA_OP_LOAD_ONE, DUNA_OP_RETURN,
        DUNA_OP_LOAD_NIL] 0)
      = some { boot [DUNA_OP_MAKE_CLOSURE, 2, 0, 0, 0, DUNA_OP_LOAD_ONE, DUNA_OP_RETURN,
          DUNA_OP_LOAD_NIL] 0 with accum := Closure 5, pc := 7 } :=
  (make_closure_skips_body (boot [DUNA_OP_MAKE_CLOSURE, 2, 0, 0, 0, DUNA_OP_LOAD_ONE,
      DUNA_OP_RETURN, DUNA_OP_LOAD_NIL] 0) 2 (by decide) (by decide) (by decide)).1

/-- C9 (counterexample): in the program `MAKE_CLOSURE` with operand `2^32 - 1`
followed by `LOAD_ONE`, the closure body starts at offset 5.  The skip wraps to
`pc = 4`, the unknown byte 255 there is passed over, and the third step executes
the body byte `LOAD_ONE` at offset 5, the entry point; the three opcode bytes
fetched are `MAKE_CLOSURE`, 255 and `LOAD_ONE`, none of them `CALL`. -/
theorem make_closure_body_counterexample :
    duna_step (boot [DUNA_OP_MAKE_CLOSURE, 255, 255, 255, 255, DUNA_OP_LOAD_ONE] 0)
        = some { boot [DUNA_OP_MAKE_CLOSURE, 255, 255, 255, 255, DUNA_OP_LOAD_ONE] 0 with
            accum := Closure 5, pc := 4 } ∧
      duna_step { boot [DUNA_OP_MAKE_CLOSURE, 255, 255, 255, 255, DUNA_OP_LOAD_ONE] 0 with
          accum := Closure 5, pc := 4 }
        = some { boot [DUNA_OP_MAKE_CLOSURE, 255, 255, 255, 255, DUNA_OP_LOAD_ONE] 0 with
            accum := Closure 5, pc := 5 } ∧
      duna_step { boot [DUNA_OP_MAKE_CLOSURE, 255, 255, 255, 255, DUNA_OP_LOAD_ONE] 0 with
          accum := Closure 5, pc := 5 }
        = some { boot [DUNA_OP_MAKE_CLOSURE, 255, 255, 255, 255, DUNA_OP_LOAD_ONE] 0 with
            accum := Fixnum 1, pc := 6 } ∧
      (duna_vm_run 3 (boot [DUNA_OP_MAKE_CLOSURE, 255, 255, 255, 255, DUNA_OP_LOAD_ONE] 0)
          "").final
        = some { boot [DUNA_OP_MAKE_CLOSURE, 255, 255, 255, 255, DUNA_OP_LOAD_ONE] 0 with
            accum := Fixnum 1, pc := 6 } := by
  decide

/-- C10: a `LOAD_FIXNUM` opcode followed by the four bytes of `n`, least
significant first, sets `accum` to the Fixnum `n` and advances `pc` by exactly 5;
a `LOAD_CHAR` opcode followed by the byte `c` sets `accum` to a Character whose
code is `c` and advances `pc` by exactly 2.  Nothing else changes. -/
theorem load_immediate_decoding (D : duna_State) (n c : Nat) (hcap : D.code.length < 2 ^ 32)
    (hn : n < 2 ^ 32) (hc : c < 256) :
    (code_at D D.pc [DUNA_OP_LOAD_FIXNUM, n % 256, n / 2 ^ 8 % 256, n / 2 ^ 16 % 256,
        n / 2 ^ 24 % 256] →
      duna_step D = some { D with
        accum := { type := DUNA_TYPE_FIXNUM, value := duna_Value.word n }, pc := D.pc + 5 }) ∧
    (code_at D D.pc [DUNA_OP_LOAD_CHAR, c] →
      duna_step D = some { D with
        accum := { type := DUNA_TYPE_CHAR, value := D.accum.value.set_byte c }, pc := D.pc + 2 } ∧
      (D.accum.value.set_byte c).chr = some c) :=
  ⟨fun h => step_load_fixnum D n hcap hn h,
   fun h => ⟨step_load_char D c hcap h, set_byte_chr _ c hc⟩⟩

/-- The C10 statement at the double word `0x12345678` and the character code 97. -/
theorem load_immediate_decoding_witness :
    duna_step (boot [DUNA_OP_LOAD_FIXNUM, 0x78, 0x56, 0x34, 0x12] 4)
        = some { boot [DUNA_OP_LOAD_FIXNUM, 0x78, 0x56, 0x34, 0x12] 4 with
            accum := { type := DUNA_TYPE_FIXNUM, value := duna_Value.word 0x12345678 }, pc := 5 } ∧
      duna_step (boot [DUNA_OP_LOAD_CHAR, 97] 4)
        = some { boot [DUNA_OP_LOAD_CHAR, 97] 4 with
            accum := { type := DUNA_TYPE_CHAR, value := duna_Value.word 97 }, pc := 2 } :=
  ⟨(load_immediate_decoding (boot [DUNA_OP_LOAD_FIXNUM, 0x78, 0x56, 0x34, 0x12] 4) 0x12345678 0
      (by decide) (by decide) (by decide)).1 (by decide),
   ((load_immediate_decoding (boot [DUNA_OP_LOAD_CHAR, 97] 4) 0 97
      (by decide) (by decide) (by decide)).2 (by decide)).1⟩

/-- C11: for every opcode byte `op` fetched at `pc` and every state in which the
accesses of the opcode are in range (`accesses_in_range`; for `POP` this includes
`n + 1 <= sp` for the count `n` on top of the stack, so that `sp` does not wrap),
the step is defined and changes `sp` by `sp_delta`: `+1` for `PUSH`, `SAVE_FP`,
`SAVE_PROC`; `-(n + 1)` for `POP`; `-1` for `PLUS`, `MINUS`, `MULT`, `REST_FP`;
`-2` for `RETURN`; and not at all for every other byte, unknown bytes included.
So `sp` increases exactly for the three push-style opcodes and decreases exactly
for the six pop/return-style opcodes.  This holds for `duna_step_any g` with
every `g`, that is whatever a read of a scalar member out of a union that holds a
pointer yields; when the members read are stored as such, `duna_step` is defined
with the same state, and wherever `duna_step` is defined it gives that state. -/
theorem sp_direction (g : duna_Value → Nat) (D : duna_State) (op : Nat)
    (hcap : D.code.length < 2 ^ 32) (hstk : D.stack.length < 2 ^ 32) (hsp : D.sp < 2 ^ 32)
    (hop : D.code[D.pc]? = some op) (hrange : accesses_in_range g op D = true) :
    ∃ D', duna_step_any g D = some D' ∧
      (D'.sp : Int) = (D.sp : Int) + sp_delta op (pop_count g D) ∧
      (D.sp < D'.sp ↔ op = DUNA_OP_PUSH ∨ op = DUNA_OP_SAVE_FP ∨ op = DUNA_OP_SAVE_PROC) ∧
      (D'.sp < D.sp ↔ op = DUNA_OP_POP ∨ op = DUNA_OP_PLUS ∨ op = DUNA_OP_MINUS ∨
        op = DUNA_OP_MULT ∨ op = DUNA_OP_REST_FP ∨ op = DUNA_OP_RETURN) ∧
      (members_stored op D = true → duna_step D = some D') ∧
      (∀ D'', duna_step D = some D'' → D'' = D') := by
  obtain ⟨D', hex, hdelta⟩ := exec_any_effect g op D hcap hstk hsp hrange
  have hany : duna_step_any g D = some D' := by
    rw [duna_step_any_eq g D op hcap hop]; exact hex
  have hlink : ∀ D'', duna_step D = some D'' → D'' = D' := by
    intro D'' hs
    have h2 := step_any_of_step g D D'' hs
    rw [hany] at h2
    exact (Option.some.inj h2).symm
  refine ⟨D', hany, hdelta, ?_, ?_, ?_, hlink⟩
  · unfold sp_delta at hdelta
    simp only [DUNA_OP_POP, DUNA_OP_PUSH, DUNA_OP_SAVE_FP, DUNA_OP_SAVE_PROC, DUNA_OP_PLUS,
      DUNA_OP_MINUS, DUNA_OP_MULT, DUNA_OP_REST_FP, DUNA_OP_RETURN] at hdelta ⊢
    split_ifs at hdelta <;> omega
  · unfold sp_delta at hdelta
    simp only [DUNA_OP_POP, DUNA_OP_PUSH, DUNA_OP_SAVE_FP, DUNA_OP_SAVE_PROC, DUNA_OP_PLUS,
      DUNA_OP_MINUS, DUNA_OP_MULT, DUNA_OP_REST_FP, DUNA_OP_RETURN] at hdelta ⊢
    split_ifs at hdelta <;> omega
  · intro hm
    obtain ⟨D2, h2⟩ := exec_progress g op D hcap hstk hsp hrange hm
    have hs : duna_step D = some D2 := by
      rw [duna_step_eq D op hcap hop]; exact h2
    rw [hs, hlink D2 hs]

/-- The C11 statement at six one-opcode programs, foreign reads yielding 0:
a `POP` that finds the count 2 on a four-slot stack takes `sp` from 4 to 1;
a `PUSH` on an empty one-slot stack takes `sp` from 0 to 1;
a `RETURN` on a two-slot stack takes `sp` from 2 to 0;
the unknown byte 200 leaves `sp = 2`;
a `LOAD` of depth 2 on two nested frames leaves `sp = 9`;
a `PLUS` whose `accum` holds a closure, for which `duna_step` is undefined, takes
`sp` from 1 to 0. -/
theorem sp_direction_witness :
    Option.map duna_State.sp (duna_step
        { boot [DUNA_OP_POP] 4 with stack := [Fixnum 7, Fixnum 8, Fixnum 9, Fixnum 2], sp := 4 })
      = some 1 ∧
    Option.map duna_State.sp (duna_step (boot [DUNA_OP_PUSH] 1)) = some 1 ∧
    Option.map duna_State.sp (duna_step
        { boot [DUNA_OP_RETURN] 2 with stack := [Closure 5, Fixnum 9], sp := 2 })
      = some 0 ∧
    Option.map duna_State.sp (duna_step { boot [200] 2 with sp := 2 }) = some 2 ∧
    Option.map duna_State.sp (duna_step
        { boot [DUNA_OP_LOAD, 0, 0, 0, 0, 2, 0, 0, 0] 0 with
          stack := two_frames, sp := 9, fp := 7 })
      = some 9 ∧
    duna_step { boot [DUNA_OP_PLUS] 1 with accum := Closure 5, stack := [Fixnum 3], sp := 1 }
      = none ∧
    Option.map duna_State.sp (duna_step_any (fun _ => 0)
        { boot [DUNA_OP_PLUS] 1 with accum := Closure 5, stack := [Fixnum 3], sp := 1 })
      = some 0 := by
  refine ⟨?_, ?_, ?_, ?_, ?_, by decide, ?_⟩
  · obtain ⟨D', _, hd, _, _, hs, _⟩ := sp_direction (fun _ => 0)
      { boot [DUNA_OP_POP] 4 with stack := [Fixnum 7, Fixnum 8, Fixnum 9, Fixnum 2], sp := 4 }
      DUNA_OP_POP (by decide) (by decide) (by decide) (by decide) (by decide)
    have e : sp_delta DUNA_OP_POP (pop_count (fun _ => 0)
      { boot [DUNA_OP_POP] 4 with stack := [Fixnum 7, Fixnum 8, Fixnum 9, Fixnum 2], sp := 4 })
        = -3 := by decide
    rw [e] at hd
    have hd1 : (D'.sp : Int) = ((4 : Nat) : Int) + -3 := hd
    rw [hs (by decide)]
    show some D'.sp = some 1
    congr 1
    omega
  · obtain ⟨D', _, hd, _, _, hs, _⟩ := sp_direction (fun _ => 0) (boot [DUNA_OP_PUSH] 1)
      DUNA_OP_PUSH (by decide) (by decide) (by decide) (by decide) (by decide)
    have e : sp_delta DUNA_OP_PUSH (pop_count (fun _ => 0) (boot [DUNA_OP_PUSH] 1)) = 1 := by
      decide
    rw [e] at hd
    have hd1 : (D'.sp : Int) = ((0 : Nat) : Int) + 1 := hd
    rw [hs (by decide)]
    show some D'.sp = some 1
    congr 1
    omega
  · obtain ⟨D', _, hd, _, _, hs, _⟩ := sp_direction (fun _ => 0)
      { boot [DUNA_OP_RETURN] 2 with stack := [Closure 5, Fixnum 9], sp := 2 }
      DUNA_OP_RETURN (by decide) (by decide) (by decide) (by decide) (by decide)
    have e : sp_delta DUNA_OP_RETURN (pop_count (fun _ => 0)
      { boot [DUNA_OP_RETURN] 2 with stack := [Closure 5, Fixnum 9], sp := 2 }) = -2 := by
      decide
    rw [e] at hd
    have hd1 : (D'.sp : Int) = ((2 : Nat) : Int) + -2 := hd
    rw [hs (by decide)]
    show some D'.sp = some 0
    congr 1
    omega
  · obtain ⟨D', _, hd, _, _, hs, _⟩ := sp_direction (fun _ => 0) { boot [200] 2 with sp := 2 }
      200 (by decide) (by decide) (by decide) (by decide) (by decide)
    have e : sp_delta 200 (pop_count (fun _ => 0) { boot [200] 2 with sp := 2 }) = 0 := by
      decide
    rw [e] at hd
    have hd1 : (D'.sp : Int) = ((2 : Nat) : Int) + 0 := hd
    rw [hs (by decide)]
    show some D'.sp = some 2
    congr 1
    omega
  · obtain ⟨D', _, hd, _, _, hs, _⟩ := sp_direction (fun _ => 0)
      { boot [DUNA_OP_LOAD, 0, 0, 0, 0, 2, 0, 0, 0] 0 with
        stack := two_frames, sp := 9, fp := 7 }
      DUNA_OP_LOAD (by decide) (by decide) (by decide) (by decide) (by decide)
    have e : sp_delta DUNA_OP_LOAD (pop_count (fun _ => 0)
      { boot [DUNA_OP_LOAD, 0, 0, 0, 0, 2, 0, 0, 0] 0 with
        stack := two_frames, sp := 9, fp := 7 }) = 0 := by decide
    rw [e] at hd
    have hd1 : (D'.sp : Int) = ((9 : Nat) : Int) + 0 := hd
    rw [hs (by decide)]
    show some D'.sp = some 9
    congr 1
    omega
  · obtain ⟨D', hs, hd, _⟩ := sp_direction (fun _ => 0)
      { boot [DUNA_OP_PLUS] 1 with accum := Closure 5, stack := [Fixnum 3], sp := 1 }
      DUNA_OP_PLUS (by decide) (by decide) (by decide) (by decide) (by decide)
    have e : sp_delta DUNA_OP_PLUS (pop_count (fun _ => 0)
      { boot [DUNA_OP_PLUS] 1 with accum := Closure 5, stack := [Fixnum 3], sp := 1 })
        = -1 := by decide
    rw [e] at hd
    have hd1 : (D'.sp : Int) = ((1 : Nat) : Int) + -1 := hd
    rw [hs]
    show some D'.sp = some 0
    congr 1
    omega

/-- C12: each of `NULL_P`, `ZERO_P`, `NOT`, `BOOL_P`, `CHAR_P`, `FIXNUM_P` replaces
`accum` by a Boolean whose payload is 1 or 0 and changes nothing else but `pc`
(+1).  `NULL_P`, `BOOL_P`, `CHAR_P`, `FIXNUM_P` give 1 iff the type tag of `accum`
is Nil, Boolean, Character, Fixnum, for any `accum`; `ZERO_P` on a Fixnum gives 1
iff its payload is 0; `NOT` on a Boolean gives 1 iff its payload is 0, and `NOT`
twice on a Boolean with payload 0 or 1 gives back the same `accum`. -/
theorem predicates_yield_booleans (D : duna_State) (hcap : D.code.length < 2 ^ 32) :
    (D.code[D.pc]? = some DUNA_OP_NULL_P →
      duna_step D = some (bool_result D (D.accum.type = DUNA_TYPE_NIL))) ∧
    (D.code[D.pc]? = some DUNA_OP_BOOL_P →
      duna_step D = some (bool_result D (D.accum.type = DUNA_TYPE_BOOL))) ∧
    (D.code[D.pc]? = some DUNA_OP_CHAR_P →
      duna_step D = some (bool_result D (D.accum.type = DUNA_TYPE_CHAR))) ∧
    (D.code[D.pc]? = some DUNA_OP_FIXNUM_P →
      duna_step D = some (bool_result D (D.accum.type = DUNA_TYPE_FIXNUM))) ∧
    (∀ n, D.code[D.pc]? = some DUNA_OP_ZERO_P → D.accum = Fixnum n →
      duna_step D = some (bool_result D (n = 0))) ∧
    (∀ b, D.code[D.pc]? = some DUNA_OP_NOT → D.accum.type = DUNA_TYPE_BOOL →
      D.accum.value.bool = some b → duna_step D = some (bool_result D (b = 0))) ∧
    (∀ (c : Prop) [Decidable c],
      (bool_result D c).accum.type = DUNA_TYPE_BOOL ∧
      (bool_result D c).accum.value.bool = some (if c then 1 else 0)) ∧
    (∀ b, code_at D D.pc [DUNA_OP_NOT, DUNA_OP_NOT] → D.accum.type = DUNA_TYPE_BOOL →
      D.accum.value.bool = some b → b ≤ 1 → duna_steps 2 D = some { D with pc := D.pc + 2 }) := by
  refine ⟨?_, ?_, ?_, ?_, ?_, ?_, ?_, ?_⟩
  · intro h
    rw [duna_step_eq D _ hcap h]
    by_cases hc : D.accum.type = DUNA_TYPE_NIL <;>
      simp [duna_exec, DUNA_SET_BOOL, bool_result, hc]
  · intro h
    rw [duna_step_eq D _ hcap h]
    by_cases hc : D.accum.type = DUNA_TYPE_BOOL <;>
      simp [duna_exec, DUNA_SET_BOOL, bool_result, hc]
  · intro h
    rw [duna_step_eq D _ hcap h]
    by_cases hc : D.accum.type = DUNA_TYPE_CHAR <;>
      simp [duna_exec, DUNA_SET_BOOL, bool_result, hc]
  · intro h
    rw [duna_step_eq D _ hcap h]
    by_cases hc : D.accum.type = DUNA_TYPE_FIXNUM <;>
      simp [duna_exec, DUNA_SET_BOOL, bool_result, hc]
  · intro n h ha
    rw [duna_step_eq D _ hcap h]
    by_cases hc : n = 0 <;>
      simp [duna_exec, DUNA_SET_BOOL, bool_result, hc, ha, Fixnum, duna_Value.fixnum]
  · intro b h _ hb
    exact step_not D b hcap h hb
  · intro c _
    refine ⟨rfl, ?_⟩
    by_cases hc : c <;> simp [bool_result, hc, set_byte_bool]
  · intro b hcode hty hb hb1
    simp only [code_at_cons, code_at_nil, and_true] at hcode
    obtain ⟨h0, h1⟩ := hcode
    have s1 := step_not D b hcap h0 hb
    have hb2 : (bool_result D (b = 0)).accum.value.bool = some (if b = 0 then 1 else 0) := by
      by_cases hc : b = 0 <;> simp [bool_result, hc, set_byte_bool]
    have s2 := step_not (bool_result D (b = 0)) _ hcap h1 hb2
    simp only [duna_steps, s1, s2]
    have hv : ((D.accum.value.set_byte (if b = 0 then 1 else 0)).set_byte b) = D.accum.value :=
      set_byte_twice _ _ _ hb (by omega)
    have hbb : (if (if b = 0 then 1 else 0) = 0 then 1 else 0) = b := by
      by_cases hc : b = 0
      · simp [hc]
      · have : b = 1 := by omega
        simp [this]
    rcases hacc : D.accum with ⟨ty, v⟩
    simp only [hacc] at hty hv
    subst hty
    simp only [bool_result, hacc, hbb, hv]

/-- The C12 statement at a machine whose `accum` is Nil: `NULL_P` leaves the
Boolean with payload 1. -/
theorem predicates_yield_booleans_witness :
    duna_step (boot [DUNA_OP_NULL_P] 0)
      = some { boot [DUNA_OP_NULL_P] 0 with
          accum := { type := DUNA_TYPE_BOOL, value := duna_Value.word 1 }, pc := 1 } :=
  (predicates_yield_booleans (boot [DUNA_OP_NULL_P] 0) (by decide)).1 (by decide)

/-- C13 (amended): a truncated operand is not detected.  When `LOAD_FIXNUM`,
`LOAD_CHAR`, `LOAD` or `MAKE_CLOSURE` is fetched below `code_size` with fewer
operand bytes before `code_size` than it needs, the opcode is executed with the
operand bytes the code buffer holds beyond `code_size`, exactly as for a complete
operand.  After `LOAD_FIXNUM`, `LOAD_CHAR` and `LOAD` the loop test then fails:
the run dumps the state the opcode produced and returns 1 with it.
`duna_vm_run` has no failure result: whenever it returns, it returns 1. -/
theorem truncated_operand_is_executed (D : duna_State) (hcap : D.code.length < 2 ^ 32)
    (hpc : D.pc < D.code_size) :
    (∀ n, n < 2 ^ 32 → D.code_size < D.pc + 5 →
      code_at D D.pc (DUNA_OP_LOAD_FIXNUM :: le32 n) →
      duna_step D = some { D with accum := Fixnum n, pc := D.pc + 5 } ∧
      ∀ (fuel : Nat) (out : String),
        duna_vm_run (fuel + 1) D out
          = match duna_dump { D with accum := Fixnum n, pc := D.pc + 5 } with
            | none => duna_Run.undefined
            | some t =>
              duna_Run.returned 1 { D with accum := Fixnum n, pc := D.pc + 5 } (out ++ t)) ∧
    (∀ c, D.code_size < D.pc + 2 → code_at D D.pc [DUNA_OP_LOAD_CHAR, c] →
      duna_step D = some { D with
        accum := { type := DUNA_TYPE_CHAR, value := D.accum.value.set_byte c },
        pc := D.pc + 2 } ∧
      ∀ (fuel : Nat) (out : String),
        duna_vm_run (fuel + 1) D out
          = match duna_dump { D with
              accum := { type := DUNA_TYPE_CHAR, value := D.accum.value.set_byte c },
              pc := D.pc + 2 } with
            | none => duna_Run.undefined
            | some t =>
              duna_Run.returned 1 { D with
                accum := { type := DUNA_TYPE_CHAR, value := D.accum.value.set_byte c },
                pc := D.pc + 2 } (out ++ t)) ∧
    (∀ (o d f : Nat) (v : duna_Object), D.code_size < D.pc + 9 → D.stack.length < 2 ^ 32 →
      o < 2 ^ 32 → d < 2 ^ 32 → code_at D D.pc (DUNA_OP_LOAD :: le32 o ++ le32 d) →
      frame_chain D.stack D.fp d = some f → o ≤ f → D.stack[f - o]? = some v →
      duna_step D = some { D with accum := v, pc := D.pc + 9 } ∧
      ∀ (fuel : Nat) (out : String),
        duna_vm_run (fuel + 1) D out
          = match duna_dump { D with accum := v, pc := D.pc + 9 } with
            | none => duna_Run.undefined
            | some t => duna_Run.returned 1 { D with accum := v, pc := D.pc + 9 } (out ++ t)) ∧
    (∀ L, L < 2 ^ 32 → D.code_size < D.pc + 5 →
      code_at D D.pc (DUNA_OP_MAKE_CLOSURE :: le32 L) →
      duna_step D = some { D with
        accum := Closure (D.pc + 1 + 4), pc := (D.pc + 1 + 4 + L) % 2 ^ 32 }) ∧
    (∀ (fuel : Nat) (E : duna_State) (out : String) (r : Int),
      (duna_vm_run fuel E out).ret = some r → r = 1) := by
  refine ⟨?_, ?_, ?_, ?_, fun fuel E out r h => duna_vm_run_ret fuel E out r h⟩
  · intro n hn hsz hcode
    have hs := step_load_fixnum D n hcap hn hcode
    exact ⟨hs, fun fuel out =>
      run_last_step D _ hpc hs (by show D.code_size ≤ D.pc + 5; omega) fuel out⟩
  · intro c hsz hcode
    have hs := step_load_char D c hcap hcode
    exact ⟨hs, fun fuel out =>
      run_last_step D _ hpc hs (by show D.code_size ≤ D.pc + 2; omega) fuel out⟩
  · intro o d f v hsz hstk ho hd hcode hchain hof hv
    have hs := step_load D o d f v hcap hstk ho hd hcode hchain hof hv
    exact ⟨hs, fun fuel out =>
      run_last_step D _ hpc hs (by show D.code_size ≤ D.pc + 9; omega) fuel out⟩
  · intro L hL _ hcode
    rw [duna_step_eq D _ hcap (code_at_head _ _ _ _ hcode)]
    have hd := fetch_dword_le32 { D with pc := D.pc + 1 } L hcap hL (code_at_tail _ _ _ _ hcode)
    simp only [duna_exec, hd, add32, Closure]

/-- The amended C13 statement at three one-opcode programs whose operand bytes lie
behind `code_size`: `LOAD_FIXNUM` (bytes 7, 0, 0, 0), `LOAD_CHAR` (byte 97) and
`LOAD` (offset 0, depth 2, on a stack of two nested frames); each run returns 1
with the operand taken from beyond `code_size`. -/
theorem truncated_operand_is_executed_witness :
    (duna_vm_run 1 { boot [DUNA_OP_LOAD_FIXNUM, 7, 0, 0, 0] 0 with code_size := 1 } "").final
        = some { boot [DUNA_OP_LOAD_FIXNUM, 7, 0, 0, 0] 0 with
            code_size := 1, accum := Fixnum 7, pc := 5 } ∧
      (duna_vm_run 1 { boot [DUNA_OP_LOAD_CHAR, 97] 0 with code_size := 1 } "").final
        = some { boot [DUNA_OP_LOAD_CHAR, 97] 0 with
            code_size := 1, accum := Character 97, pc := 2 } ∧
      (duna_vm_run 1 { boot [DUNA_OP_LOAD, 0, 0, 0, 0, 2, 0, 0, 0] 0 with
          code_size := 1, stack := two_frames, sp := 9, fp := 7 } "").final
        = some { boot [DUNA_OP_LOAD, 0, 0, 0, 0, 2, 0, 0, 0] 0 with
            code_size := 1, stack := two_frames, sp := 9, fp := 7, accum := Fixnum 100,
            pc := 9 } := by
  refine ⟨?_, ?_, ?_⟩
  · rw [((truncated_operand_is_executed
      { boot [DUNA_OP_LOAD_FIXNUM, 7, 0, 0, 0] 0 with code_size := 1 } (by decide)
      (by decide)).1 7 (by decide) (by decide) (by decide)).2 0 ""]
    decide
  · rw [((truncated_operand_is_executed
      { boot [DUNA_OP_LOAD_CHAR, 97] 0 with code_size := 1 } (by decide)
      (by decide)).2.1 97 (by decide) (by decide)).2 0 ""]
    decide
  · rw [((truncated_operand_is_executed
      { boot [DUNA_OP_LOAD, 0, 0, 0, 0, 2, 0, 0, 0] 0 with
        code_size := 1, stack := two_frames, sp := 9, fp := 7 } (by decide)
      (by decide)).2.2.1 0 2 0 (Fixnum 100) (by decide) (by decide) (by decide) (by decide)
      (by decide) (by decide) (by decide) (by decide)).2 0 ""]
    decide

/-- C13 (counterexample): the one-byte program `LOAD_FIXNUM`, loaded into a buffer
that holds the bytes 7, 0, 0, 0 behind `code_size`, does not fail: the run returns
1 with `accum` the Fixnum 7 assembled from the bytes at offsets 1..4, all of them
at or beyond `code_size = 1`. -/
theorem truncated_operand_counterexample :
    (duna_vm_run 1 { boot [DUNA_OP_LOAD_FIXNUM, 7, 0, 0, 0] 0 with code_size := 1 } "").ret
        = some 1 ∧
      (duna_vm_run 1 { boot [DUNA_OP_LOAD_FIXNUM, 7, 0, 0, 0] 0 with code_size := 1 } "").final
        = some { boot [DUNA_OP_LOAD_FIXNUM, 7, 0, 0, 0] 0 with
            code_size := 1, accum := Fixnum 7, pc := 5 } := by
  decide

/-- C14: `duna_dump` hands back the machine state it was given: `pc`, `accum`,
`fp`, `sp`, `proc`, the code buffer and every stack slot are unchanged, and the
text is the one `duna_dump` computes from the state alone; so a second dump
prints the same text and leaves the same state; and the run loop that continues
from the state the dump hands back is the run loop that continues from the state
the opcode produced. -/
theorem dump_does_not_mutate :
    (∀ D : duna_State, duna_dump_proc D = (duna_dump D).map (fun t => (t, D))) ∧
    (∀ D : duna_State,
      (duna_dump_proc D).bind (fun r => duna_dump_proc r.2) = duna_dump_proc D) ∧
    (∀ (fuel : Nat) (D : duna_State) (out : String),
      duna_vm_run_proc fuel D out = duna_vm_run fuel D out) := by
  refine ⟨duna_dump_proc_eq, ?_, fun fuel D out => duna_vm_run_proc_eq fuel D out⟩
  intro D
  rw [duna_dump_proc_eq]
  cases h : duna_dump D with
  | none => rfl
  | some t => simp [duna_dump_proc_eq, h]

/-- The C14 statement at a machine with two stack slots in use: the dump hands
the state back unchanged. -/
theorem dump_does_not_mutate_witness :
    (duna_dump_proc { boot [DUNA_OP_PUSH] 2 with
        stack := [Fixnum 7, Closure 3], sp := 2, accum := Character 97 }).map Prod.snd
      = some { boot [DUNA_OP_PUSH] 2 with
          stack := [Fixnum 7, Closure 3], sp := 2, accum := Character 97 } := by
  rw [dump_does_not_mutate.1]
  decide

/-- C15 (amended): `write_obj` renders Nil as `()`, a Boolean as `#t` when its
payload is non-zero and `#f` when it is 0, a Character with code `c` as `#\`
followed by the character `c`, a Closure with entry point `N` as `<#closure N>`
with `N` in unsigned decimal, and a Fixnum as the decimal numeral of its 32-bit
payload read as a signed integer: the numeral of the payload itself below
`2^31`, and a minus sign followed by the numeral of `2^32 - payload` from `2^31`
on. -/
theorem display_forms :
    (∀ v : duna_Value, write_obj { type := DUNA_TYPE_NIL, value := v } = some "()") ∧
    (∀ (v : duna_Value) (b : Nat), v.bool = some b →
      write_obj { type := DUNA_TYPE_BOOL, value := v }
        = some (if b ≠ 0 then "#t" else "#f")) ∧
    (∀ n : Nat, n < 2 ^ 31 → write_obj (Fixnum n) = some (toString n)) ∧
    (∀ n : Nat, 2 ^ 31 ≤ n → n < 2 ^ 32 →
      write_obj (Fixnum n) = some ("-" ++ toString (2 ^ 32 - n))) ∧
    (∀ (v : duna_Value) (c : Nat), v.chr = some c →
      write_obj { type := DUNA_TYPE_CHAR, value := v }
        = some ("#\\" ++ String.singleton (Char.ofNat c))) ∧
    (∀ N : Nat, N < 2 ^ 32 → write_obj (Closure N) = some ("<#closure " ++ toString N ++ ">")) := by
  refine ⟨fun v => rfl, ?_, ?_, ?_, ?_, ?_⟩
  · intro v b hb
    by_cases h0 : b = 0 <;> simp [write_obj, hb, h0]
  · intro n hn
    simp [write_obj, Fixnum, duna_Value.fixnum, printf_d_small n hn]
  · intro n hn hn2
    simp [write_obj, Fixnum, duna_Value.fixnum, printf_d_large n hn hn2]
  · intro v c hc
    simp [write_obj, hc]
  · intro N hN
    have hN1 : N < 4294967296 := hN
    simp [write_obj, Closure, duna_Value.deref, printf_u, u32, Nat.mod_eq_of_lt hN1]

/-- The amended C15 statement at the Boolean true, the Fixnums 42 and `2^32 - 1`,
the Character `a` and the Closure entering at 7. -/
theorem display_forms_witness :
    write_obj { type := DUNA_TYPE_BOOL, value := duna_Value.word 1 } = some "#t" ∧
      write_obj (Fixnum 42) = some "42" ∧
      write_obj (Fixnum 4294967295) = some "-1" ∧
      write_obj (Character 97) = some "#\\a" ∧
      write_obj (Closure 7) = some "<#closure 7>" :=
  ⟨display_forms.2.1 (duna_Value.word 1) 1 (by decide),
   display_forms.2.2.1 42 (by decide),
   display_forms.2.2.2.1 4294967295 (by decide) (by decide),
   display_forms.2.2.2.2.1 (duna_Value.word 97) 97 (by decide),
   display_forms.2.2.2.2.2 7 (by decide)⟩

/-- C15 (counterexample): the Fixnum with stored payload `2^32 - 1` is not
rendered as the decimal numeral of that payload; `write_obj` prints `-1`. -/
theorem display_forms_counterexample :
    write_obj (Fixnum 4294967295) ≠ some (toString 4294967295) ∧
      write_obj (Fixnum 4294967295) = some "-1" := by
  decide

/-- C16: in a state with `sp = S + 4 + k` and `fp = S + 2 + k` whose slots
`S .. S+3+k` hold the previous procedure `P`, the Fixnum `r` (return address), the
Fixnum `F` (saved frame pointer), `k` arguments and the Fixnum `k` (count), the
sequence `POP; REST_FP; RETURN` ends with `sp = S`, `fp = F`, `proc = P`, `pc = r`
and `accum` and the stack unchanged; and in that same state a `LOAD` with depth 1
and offset `o` sets `accum = stack[F - o]`. -/
theorem frame_teardown (D : duna_State) (S F r k : Nat) (P : duna_Object)
    (args : List duna_Object) (hcap : D.code.length < 2 ^ 32) (hstk : D.stack.length < 2 ^ 32)
    (hk : args.length = k) (hsp : D.sp = S + 4 + k) (hfp : D.fp = S + 2 + k)
    (hframe : stack_at D S (P :: Fixnum r :: Fixnum F :: args ++ [Fixnum k])) :
    (code_at D D.pc [DUNA_OP_POP, DUNA_OP_REST_FP, DUNA_OP_RETURN] →
      duna_steps 3 D = some { D with sp := S, fp := F, proc := P, pc := r }) ∧
    (∀ (o : Nat) (v : duna_Object) (code2 : List Nat) (pc2 : Nat), code2.length < 2 ^ 32 →
      o < 2 ^ 32 → o ≤ F → D.stack[F - o]? = some v →
      code_at { D with code := code2, pc := pc2 } pc2 (DUNA_OP_LOAD :: le32 o ++ le32 1) →
      duna_step { D with code := code2, pc := pc2 }
        = some { D with code := code2, pc := pc2 + 9, accum := v }) := by
  have hstk1 : D.stack.length < 4294967296 := hstk
  have g0 : D.stack[S]? = some P := by
    simpa using hframe 0 (by simp)
  have g1 : D.stack[S + 1]? = some (Fixnum r) := by
    simpa using hframe 1 (by simp)
  have g2 : D.stack[S + 2]? = some (Fixnum F) := by
    simpa using hframe 2 (by simp)
  have g3 : D.stack[S + 3 + k]? = some (Fixnum k) := by
    have := hframe (3 + k) (by simp [hk]; omega)
    have e : (P :: Fixnum r :: Fixnum F :: args ++ [Fixnum k])[3 + k]? = some (Fixnum k) := by
      have : (P :: Fixnum r :: Fixnum F :: args).length = 3 + k := by simp [hk]; omega
      rw [← this, List.getElem?_append_right (Nat.le_refl _)]
      simp
    rw [e] at this
    rw [← this]
    congr 1
    omega
  have hlen := lt_of_getElem?_eq_some _ _ _ g3
  constructor
  · intro hcode
    simp only [code_at_cons, code_at_nil, Nat.add_assoc, and_true] at hcode
    norm_num at hcode
    obtain ⟨h0, h1, h2⟩ := hcode
    have d1 : sub32 (S + 4 + k) 1 = S + 3 + k := by
      rw [sub32_eq _ _ (by omega) (by omega)]; omega
    have d2 : sub32 (S + 3 + k) k = S + 3 := by
      rw [sub32_eq _ _ (by omega) (by omega)]; omega
    have d3 : sub32 (S + 3) 1 = S + 2 := by
      rw [sub32_eq _ _ (by omega) (by omega)]; omega
    have d4 : sub32 (S + 2) 1 = S + 1 := by
      rw [sub32_eq _ _ (by omega) (by omega)]; omega
    have d5 : sub32 (S + 1) 1 = S := by
      rw [sub32_eq _ _ (by omega) (by omega)]; omega
    have e0 := pc_succ D _ hcap h0
    have e1 := pc_off D _ _ hcap h1
    have e2 := pc_off D _ _ hcap h2
    norm_num at e1 e2
    simp [duna_steps, duna_step, fetch, duna_exec, pop, h0, h1, h2, e0, e1, e2, hsp, d1, d2, d3,
      d4, d5, g0, g1, g2, g3, Fixnum, duna_Value.fixnum]
  · intro o v code2 pc2 hcap2 ho hoF hv hcode
    have hchain : frame_chain D.stack D.fp 1 = some F := by
      have hkf : k ≤ S + 2 + k := by omega
      have e : S + 2 + k - k = S + 2 := by omega
      have e' : S + 2 + k + 1 = S + 3 + k := by omega
      simp [frame_chain, frame_link, hfp, e', g3, g2, e, Fixnum, duna_Value.fixnum]
    exact step_load { D with code := code2, pc := pc2 } o 1 F v hcap2 hstk ho (by decide) hcode
      hchain hoF hv

/-- The C16 statement at a frame with two arguments above one unrelated slot
(`S = 1`, `k = 2`, `F = 0`, `r = 3`). -/
theorem frame_teardown_witness :
    duna_steps 3 { boot [DUNA_OP_POP, DUNA_OP_REST_FP, DUNA_OP_RETURN] 0 with
        stack := one_frame, sp := 7, fp := 5, accum := Fixnum 42 }
      = some { boot [DUNA_OP_POP, DUNA_OP_REST_FP, DUNA_OP_RETURN] 0 with
        stack := one_frame, accum := Fixnum 42, sp := 1, fp := 0, proc := Closure 0, pc := 3 } :=
  (frame_teardown { boot [DUNA_OP_POP, DUNA_OP_REST_FP, DUNA_OP_RETURN] 0 with
      stack := one_frame, sp := 7, fp := 5, accum := Fixnum 42 } 1 0 3 2 (Closure 0)
    [Fixnum 10, Fixnum 20] (by decide) (by decide) (by decide) (by decide) (by decide)
    (by decide)).1 (by decide)

/-- C17: every opcode byte other than `MAKE_CLOSURE`, `CALL` and `RETURN`, unknown
bytes included, moves `pc` forward by 1 plus its operand length (0, 1, 4 or 8).
Hence, when `code_size + 8 < 2^32` and the run fetches none of those three
opcodes and meets no undefined behaviour, `duna_vm_run` returns 1 with
`pc >= code_size` within `code_size - pc` loop iterations; and from a state with
`pc >= code_size` it returns 1 at once with the state unchanged. -/
theorem jump_free_run_terminates :
    (∀ (D D' : duna_State) (op : Nat), D.code_size + 8 < 2 ^ 32 → D.pc < D.code_size →
      D.code[D.pc]? = some op → op ≠ DUNA_OP_MAKE_CLOSURE → op ≠ DUNA_OP_CALL →
      op ≠ DUNA_OP_RETURN → duna_step D = some D' →
      D'.pc = D.pc + 1 + operand_length op ∧ D.pc < D'.pc) ∧
    (∀ (fuel : Nat) (D : duna_State) (out : String), D.code_size + 8 < 2 ^ 32 →
      D.code_size - D.pc ≤ fuel → jump_free fuel D = true →
      duna_vm_run fuel D out ≠ duna_Run.undefined →
      ∃ D' out', duna_vm_run fuel D out = duna_Run.returned 1 D' out' ∧
        D'.code_size ≤ D'.pc) ∧
    (∀ (fuel : Nat) (D : duna_State) (out : String), D.code_size ≤ D.pc →
      duna_vm_run fuel D out = duna_Run.returned 1 D out) := by
  refine ⟨?_, fun fuel D out => run_jump_free fuel D out,
    fun fuel D out h => run_past_end fuel D out h⟩
  intro D D' op hsz hlt hop h1 h2 h3 hstep
  have hsz1 : D.code_size + 8 < 4294967296 := hsz
  obtain ⟨hpc, _, _⟩ := step_pc D D' op hop hstep h1 h2 h3 (by norm_num; omega)
  exact ⟨hpc, by omega⟩

/-- The C17 statement at the jump-free program
`LOAD_FIXNUM 2; PUSH; LOAD_ONE; PLUS`: eight loop iterations are enough. -/
theorem jump_free_run_terminates_witness :
    ∃ D' out',
      duna_vm_run 8 (boot [DUNA_OP_LOAD_FIXNUM, 2, 0, 0, 0, DUNA_OP_PUSH, DUNA_OP_LOAD_ONE,
        DUNA_OP_PLUS] 1) "" = duna_Run.returned 1 D' out' ∧ D'.code_size ≤ D'.pc :=
  jump_free_run_terminates.2.1 8
    (boot [DUNA_OP_LOAD_FIXNUM, 2, 0, 0, 0, DUNA_OP_PUSH, DUNA_OP_LOAD_ONE, DUNA_OP_PLUS] 1) ""
    (by decide) (by decide) (by decide) (by decide)

/-- C18: in a state with `fp < sp` within `int` range, `sly_get_top` is
`n = sp - fp - 1`.  For `-n <= idx < n`, `calc_index` returns, and its value is
`sp + idx` for `idx < 0` and `fp + 1 + idx` for `idx >= 0`, a slot strictly
between `fp` and `sp`.  For every other `idx` it never returns: when the stack has
room for the error string it reaches `abort()` inside `sly_error` after displaying
the string `index out of range`. -/
theorem calc_index_validity (S : sly_state) (idx : Int) (hfp : S.fp < S.sp)
    (hsp : S.sp < 2 ^ 31) (hlo : -2 ^ 31 ≤ idx) (hhi : idx < 2 ^ 31) :
    sly_get_top S = (S.sp : Int) - (S.fp : Int) - 1 ∧
    ((-(sly_get_top S) ≤ idx ∧ idx < sly_get_top S) →
      (∀ fuel, calc_index fuel S idx = sly_Outcome.returned (sly_slot S idx) S) ∧
      (S.fp : Int) < sly_slot S idx ∧ sly_slot S idx < (S.sp : Int)) ∧
    (¬ (-(sly_get_top S) ≤ idx ∧ idx < sly_get_top S) →
      (∀ fuel a S', calc_index fuel S idx ≠ sly_Outcome.returned a S') ∧
      (S.sp + 1 < 2 ^ 31 → S.sp < S.stack.length →
        ∀ fuel, calc_index (fuel + 1) S idx = sly_Outcome.aborted
          [{ type := sly_type.SLY_TYPE_STRING,
             value := sly_value.gc "index out of range" }])) := by
  have htop := sly_get_top_eq S hfp hsp
  obtain ⟨hiff, hval⟩ := calc_index_check S idx hfp hsp hlo hhi
  rw [htop]
  refine ⟨rfl, ?_, ?_⟩
  · intro hv
    have hraw := hval hv
    have hchk := hiff.mpr hv
    refine ⟨fun fuel => ?_, ?_, ?_⟩
    · rw [calc_index_ok fuel S idx hchk, hraw]; rfl
    · unfold sly_slot; split <;> omega
    · unfold sly_slot; split <;> omega
  · intro hv
    have hchk : ¬ (calc_index_raw S idx > int_of_u32 S.fp ∧
        calc_index_raw S idx < int_of_u32 S.sp) := fun h => hv (hiff.mp h)
    refine ⟨fun fuel => (calc_index_bad fuel S idx hchk).1, fun h1 h2 fuel => ?_⟩
    exact (calc_index_bad fuel S idx hchk).2 hfp h1 h2

/-- The C18 statement at a frame of height 2: index `-2` names slot 2 and index 2
is out of range. -/
theorem calc_index_validity_witness :
    calc_index 0 host_state (-2) = sly_Outcome.returned 2 host_state ∧
      calc_index 1 host_state 2 = sly_Outcome.aborted
        [{ type := sly_type.SLY_TYPE_STRING, value := sly_value.gc "index out of range" }] :=
  ⟨((calc_index_validity host_state (-2) (by decide) (by decide) (by decide) (by decide)).2.1
      (by decide)).1 0,
   ((calc_index_validity host_state 2 (by decide) (by decide) (by decide) (by decide)).2.2
      (by decide)).2 (by decide) (by decide) 0⟩

/-- C19: for valid indices `idx1`, `idx2` naming the Fixnum slots `a` and `b`, in
a state with a free stack slot, `sly_add` returns after pushing the one new Fixnum
`(a + b) mod 2^32` and `sly_sub` after pushing `(a - b) mod 2^32` (first minus
second).  In both cases `sp` and `sly_get_top` grow by exactly 1, `fp` is
unchanged and every slot below the old `sp`, the operands included, is
unchanged. -/
theorem host_arithmetic_pushes (S : sly_state) (idx1 idx2 : Int) (a b : Nat)
    (hfp : S.fp < S.sp) (hsp : S.sp + 1 < 2 ^ 31) (hroom : S.sp < S.stack.length)
    (h1 : -(sly_get_top S) ≤ idx1 ∧ idx1 < sly_get_top S)
    (h2 : -(sly_get_top S) ≤ idx2 ∧ idx2 < sly_get_top S)
    (ha : S.stack[(sly_slot S idx1).toNat]? = some (sly_Fixnum a))
    (hb : S.stack[(sly_slot S idx2).toNat]? = some (sly_Fixnum b)) :
    (∀ fuel, sly_add fuel S idx1 idx2 = sly_Outcome.returned ()
      { S with stack := S.stack.set S.sp (sly_Fixnum ((a + b) % 2 ^ 32)), sp := S.sp + 1 }) ∧
    (∀ fuel, sly_sub fuel S idx1 idx2 = sly_Outcome.returned ()
      { S with
        stack := S.stack.set S.sp (sly_Fixnum (((a : Int) - (b : Int)) % 2 ^ 32).toNat),
        sp := S.sp + 1 }) ∧
    (∀ o : sly_object,
      sly_get_top { S with stack := S.stack.set S.sp o, sp := S.sp + 1 } = sly_get_top S + 1 ∧
      ∀ i, i < S.sp → (S.stack.set S.sp o)[i]? = S.stack[i]?) := by
  have hsp1 : S.sp + 1 < 2147483648 := hsp
  refine ⟨fun fuel => ?_, fun fuel => ?_, fun o => ⟨?_, fun i hi => ?_⟩⟩
  · have h := sly_arith_eq add32 fuel S idx1 idx2 a b hfp hsp hroom h1 h2 ha hb
    have e : add32 a b % 2 ^ 32 = (a + b) % 2 ^ 32 := by
      unfold add32; omega
    rw [e] at h
    exact h
  · have h := sly_arith_eq sub32 fuel S idx1 idx2 a b hfp hsp hroom h1 h2 ha hb
    have e : sub32 a b % 2 ^ 32 = (((a : Int) - (b : Int)) % 2 ^ 32).toNat := by
      unfold sub32; omega
    rw [e] at h
    exact h
  · rw [sly_get_top_eq S hfp (by norm_num; omega),
      sly_get_top_eq _ (by show S.fp < S.sp + 1; omega) hsp]
    show ((S.sp + 1 : Nat) : Int) - (S.fp : Int) - 1 = (S.sp : Int) - (S.fp : Int) - 1 + 1
    omega
  · exact List.getElem?_set_ne (by omega)

/-- The C19 statement at a frame holding 30 and 12: `sly_add` on the indices 0 and
1 pushes 42 and `sly_sub` pushes 18. -/
theorem host_arithmetic_pushes_witness :
    sly_add 0 host_state 0 1 = sly_Outcome.returned ()
        { host_state with stack := host_state.stack.set 4 (sly_Fixnum 42), sp := 5 } ∧
      sly_sub 0 host_state 0 1 = sly_Outcome.returned ()
        { host_state with stack := host_state.stack.set 4 (sly_Fixnum 18), sp := 5 } :=
  ⟨(host_arithmetic_pushes host_state 0 1 30 12 (by decide) (by decide) (by decide)
      (by decide) (by decide) (by decide) (by decide)).1 0,
   (host_arithmetic_pushes host_state 0 1 30 12 (by decide) (by decide) (by decide)
      (by decide) (by decide) (by decide) (by decide)).2.1 0⟩

/-- C20: for every byte `c`, with a Character of code `c` in `accum`,
`CHAR_TO_FIXNUM` produces the Fixnum `c` (so a value in `0..255`) and
`FIXNUM_TO_CHAR` after it gives back the Character `c`; for every Fixnum `n` in
`accum`, `FIXNUM_TO_CHAR` then `CHAR_TO_FIXNUM` gives the Fixnum `n mod 256`.
Both opcodes change nothing but `accum` and `pc`. -/
theorem char_fixnum_round_trip (D : duna_State) (hcap : D.code.length < 2 ^ 32) :
    (∀ c, c < 256 → D.accum.type = DUNA_TYPE_CHAR → D.accum.value.chr = some c →
      code_at D D.pc [DUNA_OP_CHAR_TO_FIXNUM, DUNA_OP_FIXNUM_TO_CHAR] →
      duna_step D = some { D with accum := Fixnum c, pc := D.pc + 1 } ∧
      duna_steps 2 D = some { D with accum := Character c, pc := D.pc + 2 } ∧
      (Character c).value.chr = some c) ∧
    (∀ n, n < 2 ^ 32 → D.accum = Fixnum n →
      code_at D D.pc [DUNA_OP_FIXNUM_TO_CHAR, DUNA_OP_CHAR_TO_FIXNUM] →
      duna_steps 2 D = some { D with accum := Fixnum (n % 256), pc := D.pc + 2 }) := by
  have hcap1 : D.code.length < 4294967296 := hcap
  constructor
  · intro c hc _ hchr hcode
    simp only [code_at_cons, code_at_nil, and_true] at hcode
    obtain ⟨h0, h1⟩ := hcode
    have hlt := lt_of_getElem?_eq_some _ _ _ h1
    have e0 : add32 D.pc 1 = D.pc + 1 := add32_eq _ _ (by omega)
    have e1 : add32 (D.pc + 1) 1 = D.pc + 2 := add32_eq _ _ (by omega)
    have hu : u32 c = c := u32_eq _ (by omega)
    have hc8 : c % 256 = c := Nat.mod_eq_of_lt hc
    have hd : c / 256 = 0 := by omega
    refine ⟨?_, ?_, ?_⟩
    · simp [duna_step, fetch, duna_exec, h0, e0, hchr, duna_Value.set_fixnum, hu, Fixnum]
    · simp [duna_steps, duna_step, fetch, duna_exec, h0, h1, e0, e1, hchr, duna_Value.set_fixnum,
        duna_Value.fixnum, duna_Value.set_byte, u8, hu, hc8, hd, Character]
    · simp [Character, duna_Value.chr, duna_Value.byte, hc8]
  · intro n hn hacc hcode
    have hn1 : n < 4294967296 := hn
    simp only [code_at_cons, code_at_nil, and_true] at hcode
    obtain ⟨h0, h1⟩ := hcode
    have hlt := lt_of_getElem?_eq_some _ _ _ h1
    have e0 : add32 D.pc 1 = D.pc + 1 := add32_eq _ _ (by omega)
    have e1 : add32 (D.pc + 1) 1 = D.pc + 2 := add32_eq _ _ (by omega)
    have hu : u32 (n % 256) = n % 256 := u32_eq _ (by omega)
    have hm : (n / 256 * 256 + n % 256) % 256 = n % 256 := by omega
    simp [duna_steps, duna_step, fetch, duna_exec, h0, h1, e0, e1, hacc, duna_Value.set_fixnum,
      duna_Value.fixnum, duna_Value.chr, duna_Value.byte, duna_Value.set_byte, u8, hu, hm, Fixnum]

/-- The C20 statement at the Character `a` (code 97) and at the Fixnum 353. -/
theorem char_fixnum_round_trip_witness :
    duna_steps 2 { boot [DUNA_OP_CHAR_TO_FIXNUM, DUNA_OP_FIXNUM_TO_CHAR] 0 with
          accum := Character 97 }
        = some { boot [DUNA_OP_CHAR_TO_FIXNUM, DUNA_OP_FIXNUM_TO_CHAR] 0 with
            accum := Character 97, pc := 2 } ∧
      duna_steps 2 { boot [DUNA_OP_FIXNUM_TO_CHAR, DUNA_OP_CHAR_TO_FIXNUM] 0 with
          accum := Fixnum 353 }
        = some { boot [DUNA_OP_FIXNUM_TO_CHAR, DUNA_OP_CHAR_TO_FIXNUM] 0 with
            accum := Fixnum 97, pc := 2 } :=
  ⟨((char_fixnum_round_trip { boot [DUNA_OP_CHAR_TO_FIXNUM, DUNA_OP_FIXNUM_TO_CHAR] 0 with
        accum := Character 97 } (by decide)).1 97 (by decide) (by decide) (by decide)
        (by decide)).2.1,
   (char_fixnum_round_trip { boot [DUNA_OP_FIXNUM_TO_CHAR, DUNA_OP_CHAR_TO_FIXNUM] 0 with
        accum := Fixnum 353 } (by decide)).2 353 (by decide) (by decide) (by decide)⟩

end Duna
